import Mathlib

/-!
STPMIC1 driver: register access, consistency engine and regulator helpers.

A shallow embedding of `stpmic.c` / `stpmic.h` as configured by the header
(`STPMIC_USE_HAL = 1`, `STPMIC_USE_CHAN = 0`, `STPMIC_USE_CUSTOM = 0`).

* The process-wide `STPMIC1` structure becomes the record `Driver`, passed
  explicitly through every operation.
* The two HAL calls `HAL_I2C_Master_Transmit` / `HAL_I2C_Master_Receive` are an
  arbitrary `Transport`: their answer may depend on the whole history of
  earlier bus transactions.  The history is kept in the field `Driver.bus`.
* `STPMIC_REG_CACHE_MAX` is used by `stpmic.c` but `stpmic.h` does not define
  it.  It is the declared element count of `STPMIC1.cache`, so the embedding
  reads it off the array: `STPMIC_REG_CACHE_MAX d = d.cache.length`.
* The builds without HAL differ in the test of a transport call only
  (`ret != sizeof(...)` for `ret != HAL_OK`); `stpmic_i2c_t.transport` turns
  their length-returning I2C functions into a `Transport`.
* An array access outside `STPMIC1.cache` has no defined behaviour in C; the
  operations that index the array without a bound check return `Option`, with
  `none` standing for such an access.
* Other names that `stpmic.c` uses without a declaration in `stpmic.h` (the
  alternate-mode and REFDDR register IDs, `stpmic_buck_alt_cr`, the interrupt
  register IDs) are parameters: the records `Undeclared` and `UndeclaredInt`.
* The examples run on `transport_const` (every call succeeds, one byte value),
  `transport_fail_after` (calls fail from a given transaction on) or
  `transport_hw` (the device as a register file).
-/

namespace Stpmic

/-! ## Constants of `stpmic.h` and `stpmic.c` -/

/-- STPMIC driver return values (`stpmic_ret_t`). -/
inductive stpmic_ret_t where
  | STPMIC_RET_OK
  | STPMIC_RET_INVALID
  | STPMIC_RET_NOTIMPL
  | STPMIC_RET_NOTSUP
  | STPMIC_RET_NODEV
  | STPMIC_RET_TIMEOUT
  | STPMIC_RET_ALREADY
  | STPMIC_RET_RANGE
  | STPMIC_RET_DISABLED
  | STPMIC_RET_UNKNOWN
  deriving DecidableEq, Repr

open stpmic_ret_t

/-- Default I2C address of the STPMIC1. -/
def STPMIC1_DEF_ADDR : Int := 0x33
/-- Supported major version. -/
def STPMIC1_MAJOR_VER : Nat := 2

def STPMIC_DRV_NOT_INIT : Nat := 0
def STPMIC_DRV_INIT : Nat := 1
def STPMIC_DRV_READY : Nat := 2

/-- Initial delay setting of both timeouts. -/
def STPMIC_INIT_DELAY : Nat := 100

def STPMIC_REG_TURN_ON_SR : Nat := 0x01
def STPMIC_REG_TURN_OFF_SR : Nat := 0x02
def STPMIC_REG_OCP_LDOS_SR : Nat := 0x03
def STPMIC_REG_OCP_BUCKS_BSW_SR : Nat := 0x04
def STPMIC_REG_RESTART_SR : Nat := 0x05
def STPMIC_REG_VERSION_SR : Nat := 0x06
def STPMIC_REG_MAIN_CR : Nat := 0x10
def STPMIC_REG_PADS_PULL_CR : Nat := 0x11
def STPMIC_REG_BUCKS_PD_CR : Nat := 0x12
def STPMIC_REG_LDO1234_PD_CR : Nat := 0x13
def STPMIC_REG_LDO56_VREF_PD_CR : Nat := 0x14
def STPMIC_REG_SW_VIN_CR : Nat := 0x15
def STPMIC_REG_PKEY_TURNOFF_CR : Nat := 0x16
def STPMIC_REG_BUCKS_MRST_CR : Nat := 0x18
def STPMIC_REG_LDOS_MRST_CR : Nat := 0x1a
def STPMIC_REG_WDG_CR : Nat := 0x1b
def STPMIC_REG_WDG_TMR_CR : Nat := 0x1c
def STPMIC_REG_BUCKx_MAIN_CR : Nat := 0x20
def STPMIC_REG_LDOx_MAIN_CR : Nat := 0x25
def STPMIC_REG_LDO3_MAIN_CR : Nat := 0x27
def STPMIC_REG_LDO4_MAIN_CR : Nat := 0x28
/-- The enumerator `STPMIC_REG_MAX` ("maximum registers"). -/
def STPMIC_REG_MAX : Nat := 0x29

/-- The register map, pairs of `start id, max id`, closed by the pair `0, 0`. -/
def STPMIC_REGMAP : List Nat :=
  [ STPMIC_REG_TURN_ON_SR,    STPMIC_REG_VERSION_SR + 1,
    STPMIC_REG_MAIN_CR,       STPMIC_REG_PKEY_TURNOFF_CR + 1,
    STPMIC_REG_BUCKS_MRST_CR, STPMIC_REG_BUCKS_MRST_CR + 1,
    STPMIC_REG_LDOS_MRST_CR,  STPMIC_REG_WDG_TMR_CR + 1,
    STPMIC_REG_BUCKx_MAIN_CR, STPMIC_REG_BUCKx_MAIN_CR + 4,
    STPMIC_REG_LDOx_MAIN_CR,  STPMIC_REG_LDOx_MAIN_CR + 6,
    0, 0 ]

/-- Cache mismatch bit: if set, the cached value should be ignored. -/
def STPMIC_CACHE_MISMATCH : Nat := 1 <<< 8

/-! ## Bus and driver state -/

/-- One call of the I2C transport, with the arguments the driver passed. -/
inductive Txn where
  /-- A call `HAL_I2C_Master_Transmit(dev, addr, data, sizeof data, timeout)`. -/
  | transmit (dev : Option Nat) (addr : Nat) (data : List Nat) (timeout : Nat)
  /-- A call `HAL_I2C_Master_Receive(dev, addr, &val, size, timeout)`. -/
  | receive (dev : Option Nat) (addr : Nat) (size : Nat) (timeout : Nat)
  deriving DecidableEq, Repr

/-- The I2C transport.  Each answer may depend on every earlier call (`past`).
`HAL_I2C_Master_Transmit past call` is `true` exactly when the HAL call returns
`HAL_OK`; `HAL_I2C_Master_Receive past call` is `some b` when the HAL call
returns `HAL_OK` having stored the byte `b`, and `none` otherwise. -/
structure Transport where
  HAL_I2C_Master_Transmit : List Txn → Txn → Bool
  HAL_I2C_Master_Receive : List Txn → Txn → Option Nat

/-- The static structure `STPMIC1`, together with the history of bus
transactions issued so far (`bus`, oldest first). -/
structure Driver where
  /-- I2C peripheral handle, `none` for `NULL`. -/
  dev : Option Nat
  addr : Int
  state : Nat
  timeout_r : Nat
  timeout_w : Nat
  /-- The array `cache`: (MSB) xxxx xxxS VVVV VVVV (LSB). -/
  cache : List Nat
  bus : List Txn
  deriving DecidableEq, Repr

/-- The element count of `STPMIC1.cache`. -/
abbrev STPMIC_REG_CACHE_MAX (d : Driver) : Nat := d.cache.length

/-- The static initialiser of `STPMIC1`, for a cache of `n` elements. -/
def STPMIC1 (n : Nat) : Driver :=
  { dev := none, addr := -1, state := 0,
    timeout_r := STPMIC_INIT_DELAY, timeout_w := STPMIC_INIT_DELAY,
    cache := List.replicate n 0, bus := [] }

/-- The bus-level address `(STPMIC1.addr << 1) | rw`, as the `uint16_t`
argument `DevAddress` of the HAL calls. -/
def bus_addr (addr : Int) (rw : Nat) : Nat :=
  ((addr * 2) % 65536).toNat ||| rw

/-! ## Direct access layer -/

/-- Read a register of STPMIC without cache (`stpmic_read_direct`).  The
second component is the value stored through `out` (when `out` is not `NULL`),
`none` when nothing is stored. -/
def stpmic_read_direct (T : Transport) (d : Driver) (_reg : Nat) :
    stpmic_ret_t × Option Nat × Driver :=
  if d.state < STPMIC_DRV_INIT then (STPMIC_RET_NODEV, none, d)
  else if _reg ≥ STPMIC_REG_MAX then (STPMIC_RET_INVALID, none, d)
  else
    let reg := _reg % 256
    -- transmit a `read` packet.
    let t1 := Txn.transmit d.dev (bus_addr d.addr 0) [reg] d.timeout_r
    let d1 := { d with bus := d.bus ++ [t1] }
    if T.HAL_I2C_Master_Transmit d.bus t1 = false then (STPMIC_RET_TIMEOUT, none, d1)
    else
      -- then, receive register values.
      let t2 := Txn.receive d.dev (bus_addr d.addr 1) 1 d.timeout_r
      let d2 := { d1 with bus := d1.bus ++ [t2] }
      match T.HAL_I2C_Master_Receive d1.bus t2 with
      | none => (STPMIC_RET_TIMEOUT, none, d2)
      | some b =>
        let val := b % 256
        if reg < STPMIC_REG_CACHE_MAX d2 then
          (STPMIC_RET_OK, some val, { d2 with cache := d2.cache.set reg val })
        else (STPMIC_RET_OK, some val, d2)

/-- Write a register of STPMIC without cache (`stpmic_write_direct`); `val`
is a `stpmic_reg_t`, a byte. -/
def stpmic_write_direct (T : Transport) (d : Driver) (reg val : Nat) :
    stpmic_ret_t × Driver :=
  if d.state < STPMIC_DRV_INIT then (STPMIC_RET_NODEV, d)
  else if reg ≥ STPMIC_REG_MAX then (STPMIC_RET_INVALID, d)
  else
    let t1 := Txn.transmit d.dev (bus_addr d.addr 0) [reg % 256, val] d.timeout_w
    let d1 := { d with bus := d.bus ++ [t1] }
    if T.HAL_I2C_Master_Transmit d.bus t1 = false then (STPMIC_RET_TIMEOUT, d1)
    else if reg < STPMIC_REG_CACHE_MAX d1 then
      (STPMIC_RET_OK, { d1 with cache := d1.cache.set reg val })
    else (STPMIC_RET_OK, d1)

/-! ## Cached access layer -/

/-- Read a register of STPMIC with cache (`stpmic_read`). -/
def stpmic_read (T : Transport) (d : Driver) (reg : Nat) :
    stpmic_ret_t × Option Nat × Driver :=
  if d.state < STPMIC_DRV_INIT then (STPMIC_RET_NODEV, none, d)
  else if reg ≥ STPMIC_REG_MAX then (STPMIC_RET_INVALID, none, d)
  else if h : reg < STPMIC_REG_CACHE_MAX d then
    if d.cache[reg] &&& STPMIC_CACHE_MISMATCH ≠ 0 then stpmic_read_direct T d reg
    else (STPMIC_RET_OK, some ((d.cache[reg] &&& 0xff) % 256), d)
  else stpmic_read_direct T d reg

/-- Write a register of STPMIC with cache (`stpmic_write`). -/
def stpmic_write (T : Transport) (d : Driver) (reg val : Nat) :
    stpmic_ret_t × Driver :=
  if d.state < STPMIC_DRV_INIT then (STPMIC_RET_NODEV, d)
  else if reg ≥ STPMIC_REG_MAX then (STPMIC_RET_INVALID, d)
  else if h : reg < STPMIC_REG_CACHE_MAX d then
    if d.cache[reg] &&& STPMIC_CACHE_MISMATCH ≠ 0 then stpmic_write_direct T d reg val
    else if (d.cache[reg] &&& 0xff) % 256 ≠ val then stpmic_write_direct T d reg val
    else (STPMIC_RET_OK, d)
  else stpmic_write_direct T d reg val

/-- Clear a register cache (`stpmic_clear_cache`).  The array is indexed
without a check against its size: `none` is an access outside the array. -/
def stpmic_clear_cache (d : Driver) (reg : Nat) : Option (stpmic_ret_t × Driver) :=
  if d.state < STPMIC_DRV_INIT then some (STPMIC_RET_NODEV, d)
  else if reg ≥ STPMIC_REG_MAX then some (STPMIC_RET_INVALID, d)
  else if h : reg < STPMIC_REG_CACHE_MAX d then
    some (STPMIC_RET_OK,
      { d with cache := d.cache.set reg ((d.cache[reg] ||| STPMIC_CACHE_MISMATCH) % 65536) })
  else none

/-- Reserve to write a register of STPMIC (`stpmic_batch_write`).  The array
is indexed without a check against its size: `none` is an access outside the
array. -/
def stpmic_batch_write (d : Driver) (reg val : Nat) : Option (stpmic_ret_t × Driver) :=
  if d.state < STPMIC_DRV_INIT then some (STPMIC_RET_NODEV, d)
  else if reg ≥ STPMIC_REG_MAX then some (STPMIC_RET_INVALID, d)
  else if reg < STPMIC_REG_CACHE_MAX d then
    some (STPMIC_RET_OK, { d with cache := d.cache.set reg (val ||| STPMIC_CACHE_MISMATCH) })
  else none

/-! ## Batch engine and cache reload

`stpmic_batch_flush` and `stpmic_reload_cache` contain the same two nested
loops over `STPMIC_REGMAP`; they differ only in the register access made in
the loop body.  The loops are embedded once, over that access.
-/

/-- The local variables of the two loops (`ret`, `total`, `success`), the
driver state, and the list of register accesses made so far, each with its
result (`calls`, oldest first; it is not a variable of the program). -/
structure Walk where
  ret : stpmic_ret_t
  total : Nat
  success : Nat
  drv : Driver
  calls : List (Nat × stpmic_ret_t)
  deriving DecidableEq, Repr

/-- The inner loop `while (s < e) { reg = s++; total++; ret = access(reg);
if (ret != STPMIC_RET_OK) break; success++; }`, entered with `n = e - s`
registers left. -/
def walk_range (access : Driver → Nat → Option (stpmic_ret_t × Driver)) :
    Nat → Nat → Walk → Option Walk
  | 0, _, w => some w
  | n + 1, s, w =>
    match access w.drv s with
    | none => none
    | some (ret, d) =>
      if ret ≠ STPMIC_RET_OK then
        some { ret := ret, total := w.total + 1, success := w.success, drv := d,
               calls := w.calls ++ [(s, ret)] }
      else
        walk_range access n (s + 1)
          { ret := ret, total := w.total + 1, success := w.success + 1, drv := d,
            calls := w.calls ++ [(s, ret)] }

/-- The outer loop `for (i = 0;; i += 2)` over the pairs of the register map,
left at the pair `0, 0`.  Reading past the end of the table is `none`. -/
def walk_map (access : Driver → Nat → Option (stpmic_ret_t × Driver)) :
    List Nat → Walk → Option Walk
  | s :: e :: rest, w =>
    if s = e ∧ e = 0 then some w
    else (walk_range access (e - s) s w).bind (walk_map access rest)
  | _, _ => none

/-- The loop variables on entry: `ret = STPMIC_RET_OK, total = 0, success = 0`. -/
def walk_init (d : Driver) : Walk :=
  { ret := STPMIC_RET_OK, total := 0, success := 0, drv := d, calls := [] }

/-- The result rule shared by both functions: `if (success >= total) return
STPMIC_RET_OK; return ret;`. -/
def walk_result (w : Walk) : stpmic_ret_t × Driver :=
  if w.success ≥ w.total then (STPMIC_RET_OK, w.drv) else (w.ret, w.drv)

/-- The loop body of `stpmic_batch_flush`:
`stpmic_write_direct(reg, STPMIC1.cache[reg])`.  The array is read without a
check against its size (`none`), and the `uint16_t` element is converted to
the `uint8_t` parameter. -/
def flush_access (T : Transport) (d : Driver) (reg : Nat) :
    Option (stpmic_ret_t × Driver) :=
  if h : reg < STPMIC_REG_CACHE_MAX d then
    some (stpmic_write_direct T d reg (d.cache[reg] % 256))
  else none

/-- The loop body of `stpmic_reload_cache`: `stpmic_read_direct(reg, NULL)`. -/
def reload_access (T : Transport) (d : Driver) (reg : Nat) :
    Option (stpmic_ret_t × Driver) :=
  some ((stpmic_read_direct T d reg).1, (stpmic_read_direct T d reg).2.2)

/-- The loops of `stpmic_batch_flush`, run from driver state `d`. -/
def batch_flush_walk (T : Transport) (d : Driver) : Option Walk :=
  walk_map (flush_access T) STPMIC_REGMAP (walk_init d)

/-- The loops of `stpmic_reload_cache`, run from driver state `d`. -/
def reload_cache_walk (T : Transport) (d : Driver) : Option Walk :=
  walk_map (reload_access T) STPMIC_REGMAP (walk_init d)

/-- Flush all pending batch writes (`stpmic_batch_flush`). -/
def stpmic_batch_flush (T : Transport) (d : Driver) : Option (stpmic_ret_t × Driver) :=
  if d.state < STPMIC_DRV_INIT then some (STPMIC_RET_NODEV, d)
  else
    match batch_flush_walk T d with
    | none => none
    | some w => some (walk_result w)

/-- Reload all cached registers (`stpmic_reload_cache`). -/
def stpmic_reload_cache (T : Transport) (d : Driver) : Option (stpmic_ret_t × Driver) :=
  if d.state < STPMIC_DRV_INIT then some (STPMIC_RET_NODEV, d)
  else
    match reload_cache_walk T d with
    | none => none
    | some w => some (walk_result w)

/-! ## Bring-up -/

/-- Initialize the STPMIC driver (`stpmic_init`, the variant taking the I2C
peripheral `dev`; `addr` is an `int16_t`). -/
def stpmic_init (T : Transport) (d : Driver) (dev : Option Nat) (addr : Int) :
    Option (stpmic_ret_t × Driver) :=
  if dev = none ∨ addr > 0x7f then some (STPMIC_RET_INVALID, d)
  else if d.state ≠ STPMIC_DRV_NOT_INIT then some (STPMIC_RET_ALREADY, d)
  else
    let addr := if addr < 0 then STPMIC1_DEF_ADDR else addr
    let d1 := { d with dev := dev, addr := addr, state := STPMIC_DRV_INIT }
    -- read VERSION_SR register.
    match stpmic_read_direct T d1 STPMIC_REG_VERSION_SR with
    | (ret, version_sr, d2) =>
      -- failed to read.
      if ret ≠ STPMIC_RET_OK then some (ret, { d2 with state := STPMIC_DRV_NOT_INIT })
      -- not supported MAJOR version.
      else if version_sr.getD 0 &&& 0xf0 ≠ STPMIC1_MAJOR_VER <<< 4 then
        some (STPMIC_RET_NOTSUP, { d2 with state := STPMIC_DRV_NOT_INIT })
      else
        -- make register caches.
        match stpmic_reload_cache T d2 with
        | none => none
        | some (r, d3) =>
          if r ≠ STPMIC_RET_OK then
            some (STPMIC_RET_UNKNOWN, { d3 with state := STPMIC_DRV_NOT_INIT })
          else some (STPMIC_RET_OK, { d3 with state := STPMIC_DRV_READY })

/-- A sequence of `stpmic_batch_write` calls, `ws` listing the pairs
`(reg, val)` in call order; the calls are made whatever the earlier ones
returned. -/
def batch_write_seq : List (Nat × Nat) → Driver → Option Driver
  | [], d => some d
  | (reg, val) :: ws, d =>
    match stpmic_batch_write d reg val with
    | none => none
    | some (_, d1) => batch_write_seq ws d1

/-- A transport on which every call succeeds and every byte received is `b`. -/
def transport_const (b : Nat) : Transport :=
  { HAL_I2C_Master_Transmit := fun _ _ => true
    HAL_I2C_Master_Receive := fun _ _ => some b }

/-- An attached driver with address `0x33` whose `n` cache slots all hold `c`. -/
def attached (n c : Nat) : Driver :=
  { dev := some 1, addr := 0x33, state := STPMIC_DRV_INIT,
    timeout_r := STPMIC_INIT_DELAY, timeout_w := STPMIC_INIT_DELAY,
    cache := List.replicate n c, bus := [] }

/-- The slot of `id` exists, its mismatch flag is clear and its value byte is `v`. -/
def slot_valid (d : Driver) (id v : Nat) : Prop :=
  ∃ c, d.cache[id]? = some c ∧ c &&& STPMIC_CACHE_MISMATCH = 0 ∧ c &&& 0xff = v

/-- The slot of `id` exists, its mismatch flag is set and its value byte is `v`. -/
def slot_dirty (d : Driver) (id v : Nat) : Prop :=
  ∃ c, d.cache[id]? = some c ∧ c &&& STPMIC_CACHE_MISMATCH ≠ 0 ∧ c &&& 0xff = v

/-! ## Vocabulary of the statements -/

/-- The register IDs covered by the pairs of a register map, in table order. -/
def regmap_covered : List Nat → List Nat
  | s :: e :: rest =>
    if s = e ∧ e = 0 then [] else List.range' s (e - s) ++ regmap_covered rest
  | _ => []

/-- The transaction is a register write packet `[id, value]`. -/
def writes_to (id : Nat) : Txn → Bool
  | Txn.transmit _ _ [r, _] _ => r == id
  | _ => false

/-- The accesses `seg` are a scan of the range `[s, e)` by the inner loop:
`k` successful accesses to the registers `s, .., s + k - 1`, then one last
access, to `s + k`, with result `r`; the scan stops before the end of the
range only when that last access failed. -/
def range_scan (s e : Nat) (seg : List (Nat × stpmic_ret_t)) : Prop :=
  ∃ k r, seg = (List.range' s k).map (fun reg => (reg, STPMIC_RET_OK)) ++ [(s + k, r)] ∧
    s + k < e ∧ (s + k + 1 < e → r ≠ STPMIC_RET_OK)

/-- The accesses `calls` are one scan of each range of `STPMIC_REGMAP`, in
table order. -/
def regmap_scan (calls : List (Nat × stpmic_ret_t)) : Prop :=
  ∃ s1 s2 s3 s4 s5 s6, calls = s1 ++ s2 ++ s3 ++ s4 ++ s5 ++ s6 ∧
    range_scan STPMIC_REG_TURN_ON_SR (STPMIC_REG_VERSION_SR + 1) s1 ∧
    range_scan STPMIC_REG_MAIN_CR (STPMIC_REG_PKEY_TURNOFF_CR + 1) s2 ∧
    range_scan STPMIC_REG_BUCKS_MRST_CR (STPMIC_REG_BUCKS_MRST_CR + 1) s3 ∧
    range_scan STPMIC_REG_LDOS_MRST_CR (STPMIC_REG_WDG_TMR_CR + 1) s4 ∧
    range_scan STPMIC_REG_BUCKx_MAIN_CR (STPMIC_REG_BUCKx_MAIN_CR + 4) s5 ∧
    range_scan STPMIC_REG_LDOx_MAIN_CR (STPMIC_REG_LDOx_MAIN_CR + 6) s6

/-- The result `r` is the error of the last failed access of `calls`. -/
def last_failure (calls : List (Nat × stpmic_ret_t)) (r : stpmic_ret_t) : Prop :=
  ∃ pre c post, calls = pre ++ c :: post ∧ c.2 ≠ STPMIC_RET_OK ∧
    (∀ x ∈ post, x.2 = STPMIC_RET_OK) ∧ r = c.2

/-- The loop counters agree with the accesses made: `total` counts them,
`success` counts those that returned `STPMIC_RET_OK`, and `ret` is the result
of the latest one. -/
def walk_inv (w : Walk) : Prop :=
  w.total = w.calls.length ∧
  w.success = w.calls.countP (fun c => c.2 = STPMIC_RET_OK) ∧
  (∀ c, w.calls.getLast? = some c → c.2 = w.ret)

/-- The result rule of flush and reload for the loop outcome `w` and the
returned value `r`: success is returned only if every attempted access
succeeded, and when an attempted access failed the returned value is the error
of the last failure. -/
def result_rule (w : Walk) (r : stpmic_ret_t) : Prop :=
  (r = STPMIC_RET_OK → w.total ≤ w.success ∧ ∀ c ∈ w.calls, c.2 = STPMIC_RET_OK) ∧
  ((∃ c ∈ w.calls, c.2 ≠ STPMIC_RET_OK) → last_failure w.calls r)

/-- The register write packet `stpmic_write_direct` sends for `reg` when it is
given the value byte of the cache slot of `reg` in driver state `d`. -/
def flush_packet (d : Driver) (reg : Nat) : Txn :=
  Txn.transmit d.dev (bus_addr d.addr 0) [reg, (d.cache[reg]?).getD 0 % 256] d.timeout_w

/-- During a flush started in driver state `d`: the loop state `w` has sent
the packets of the registers `regs` and nothing else, has kept the fields the
packets are built from, and has left the slots from `bound` on untouched. -/
def flush_sync (d : Driver) (w : Walk) (bound : Nat) (regs : List Nat) : Prop :=
  w.drv.bus = d.bus ++ regs.map (flush_packet d) ∧
  w.drv.dev = d.dev ∧ w.drv.addr = d.addr ∧ w.drv.timeout_w = d.timeout_w ∧
  w.drv.state = d.state ∧ w.drv.cache.length = d.cache.length ∧
  (∀ j, bound ≤ j → w.drv.cache[j]? = d.cache[j]?)

/-- The registers of `STPMIC_REGMAP` that are valid register IDs. -/
def regmap_valid : List Nat :=
  (regmap_covered STPMIC_REGMAP).filter (fun reg => reg < STPMIC_REG_MAX)

/-! ## Version, and the builds without HAL -/

/-- Get the version of STPMIC (`stpmic_version`).  The second component is the
pair `(major, minor)` stored through `out`, `none` when nothing is stored. -/
def stpmic_version (T : Transport) (d : Driver) :
    stpmic_ret_t × Option (Nat × Nat) × Driver :=
  match stpmic_read T d STPMIC_REG_VERSION_SR with
  | (ret, version_sr, d1) =>
    if ret ≠ STPMIC_RET_OK then (ret, none, d1)
    else
      (STPMIC_RET_OK,
        some (((version_sr.getD 0 >>> 4) &&& 0x0f) % 256,
              ((version_sr.getD 0 >>> 0) &&& 0x0f) % 256), d1)

/-- The requested length of a transport call: `sizeof(reg)`, `sizeof(buf)` or
`sizeof(val)` in the source. -/
def Txn.len : Txn → Nat
  | Txn.transmit _ _ data _ => data.length
  | Txn.receive _ _ size _ => size

/-- The I2C functions of the builds without HAL (`stpmic_i2c_t`, or the pair
`stpmic_write_i2c` / `stpmic_read_i2c`).  Each returns the succeeded length of
bytes, a `uint8_t`; `read_i2c` is given with the byte it stores in the buffer. -/
structure stpmic_i2c_t where
  write_i2c : List Txn → Txn → Nat
  read_i2c : List Txn → Txn → Nat × Nat

/-- The tests `ret != sizeof(...)` of the builds without HAL: a transport call
succeeded exactly when the length it returned is the requested one. -/
def stpmic_i2c_t.transport (c : stpmic_i2c_t) : Transport :=
  { HAL_I2C_Master_Transmit := fun past t => decide (c.write_i2c past t = t.len)
    HAL_I2C_Master_Receive := fun past t =>
      if (c.read_i2c past t).1 = t.len then some (c.read_i2c past t).2 else none }

/-- I2C functions that transfer nothing: every call returns length `0`. -/
def i2c_dead : stpmic_i2c_t :=
  { write_i2c := fun _ _ => 0
    read_i2c := fun _ _ => (0, 0) }

/-- I2C functions whose writes transfer the requested length and whose reads
transfer nothing. -/
def i2c_write_only : stpmic_i2c_t :=
  { write_i2c := fun _ t => t.len
    read_i2c := fun _ _ => (0, 0) }

/-! ## Timeout configuration -/

/-- The structure `stpmic_timeout_t`. -/
structure stpmic_timeout_t where
  write : Nat
  read : Nat
  deriving DecidableEq, Repr

/-- Set timeout of STPMIC driver (`stpmic_set_timeout`); `none` is a `NULL`
argument. -/
def stpmic_set_timeout (d : Driver) (inp : Option stpmic_timeout_t) : Driver :=
  match inp with
  | none => d
  | some t => { d with timeout_w := t.write, timeout_r := t.read }

/-- Get timeout of STPMIC driver (`stpmic_get_timeout`): the value stored
through `out`. -/
def stpmic_get_timeout (d : Driver) : stpmic_timeout_t :=
  { write := d.timeout_w, read := d.timeout_r }

/-! ## Bit masks and pull-down fields -/

/-- The macro `STPMIC_BIT_MASK(nth)`, `1u << nth`. -/
def STPMIC_BIT_MASK (nth : Nat) : Nat := (1 <<< nth) % 2 ^ 32

/-- The macro `STPMIC_BIT_MASK_VAL(nth, val)`, `val << nth`. -/
def STPMIC_BIT_MASK_VAL (nth val : Nat) : Nat := (val <<< nth) % 2 ^ 32

/-- Get the BUCKS_PD_CR register value (`stpmic_buckspd`). -/
def stpmic_buckspd (T : Transport) (d : Driver) : stpmic_ret_t × Option Nat × Driver :=
  stpmic_read T d STPMIC_REG_BUCKS_PD_CR

/-- Encode BUCKS_PD_CR bits and set (`stpmic_set_buckspd`): `org` and the
result are `stpmic_reg_t`, `~` is taken on 32 bits. -/
def stpmic_set_buckspd (org nth val : Nat) : Nat :=
  if nth ≤ 0 ∨ nth > 4 then 0
  else
    -- erase old bits, and set new bits, then return it.
    let org1 := (org &&& (0xffffffff ^^^ STPMIC_BIT_MASK_VAL ((nth - 1) <<< 1) 0x03)) % 256
    (org1 ||| STPMIC_BIT_MASK_VAL ((nth - 1) <<< 1) val) % 256

/-- Get the LDO14_PD_CR register value (`stpmic_ldo1234pd`). -/
def stpmic_ldo1234pd (T : Transport) (d : Driver) : stpmic_ret_t × Option Nat × Driver :=
  stpmic_read T d STPMIC_REG_LDO1234_PD_CR

/-- Encode LDO1234_PD_CR bits and set (`stpmic_set_ldo1234pd`). -/
def stpmic_set_ldo1234pd (org nth val : Nat) : Nat :=
  if nth ≤ 0 ∨ nth > 4 then 0
  else
    let org1 := (org &&& (0xffffffff ^^^ STPMIC_BIT_MASK_VAL ((nth - 1) <<< 1) 0x03)) % 256
    (org1 ||| STPMIC_BIT_MASK_VAL ((nth - 1) <<< 1) val) % 256

/-- Get the LDO56_VREF_PD_CR register value (`stpmic_ldo56pd`). -/
def stpmic_ldo56pd (T : Transport) (d : Driver) : stpmic_ret_t × Option Nat × Driver :=
  stpmic_read T d STPMIC_REG_LDO56_VREF_PD_CR

/-- Encode LDO56_PD_CR bits and set, nth: 5 ~ 7, 7: REFDDR (`stpmic_set_ldo56pd`). -/
def stpmic_set_ldo56pd (org nth val : Nat) : Nat :=
  if nth < 5 ∨ nth > 7 then 0
  else
    let org1 := (org &&& (0xffffffff ^^^ STPMIC_BIT_MASK_VAL ((nth - 5) <<< 1) 0x03)) % 256
    (org1 ||| STPMIC_BIT_MASK_VAL ((nth - 5) <<< 1) val) % 256

/-! ## Watchdog -/

/-- Deinitialize the watchdog timer (`stpmic_watchdog_deinit`). -/
def stpmic_watchdog_deinit (T : Transport) (d : Driver) : stpmic_ret_t × Driver :=
  -- (MSB) RESV | RST(1) | ENA(1) (LSB).
  stpmic_write_direct T d STPMIC_REG_WDG_CR ((1 <<< 1) ||| (0 <<< 0))

/-- Initialize the watchdog timer, sec: 1 ~ 255, 0: disable
(`stpmic_watchdog_init`); `sec` is a `uint8_t`. -/
def stpmic_watchdog_init (T : Transport) (d : Driver) (sec : Nat) : stpmic_ret_t × Driver :=
  if sec = 0 then stpmic_watchdog_deinit T d
  else
    -- 0x00 ~ 0xff = 1sec ~ 256sec.
    match stpmic_write T d STPMIC_REG_WDG_TMR_CR ((sec - 1) % 256) with
    | (ret, d1) =>
      if ret ≠ STPMIC_RET_OK then (ret, d1)
      else
        stpmic_write_direct T d1 STPMIC_REG_WDG_CR
          (((1 <<< 1) ||| (if sec > 0 then 0x01 else 0)) % 256)

/-- Reset the watchdog counter to default counter (`stpmic_watchdog_reset`). -/
def stpmic_watchdog_reset (T : Transport) (d : Driver) : stpmic_ret_t × Driver :=
  match stpmic_read T d STPMIC_REG_WDG_TMR_CR with
  | (ret, out, d1) =>
    if ret ≠ STPMIC_RET_OK then (ret, d1)
    -- (MSB) RESV | RST(1) | ENA(1) (LSB).
    else if out.getD 0 &&& (1 <<< 0) = 0 then (STPMIC_RET_DISABLED, d1)
    else stpmic_write_direct T d1 STPMIC_REG_WDG_CR ((1 <<< 1) ||| (1 <<< 0))

/-! ## Buck converters, LDOs and REFDDR -/

def STPMIC_LDO4SRC_OFF : Nat := STPMIC_BIT_MASK_VAL 5 0
def STPMIC_LDO4SRC_VIN : Nat := STPMIC_BIT_MASK_VAL 5 1
def STPMIC_LDO4SRC_VBUSOTG : Nat := STPMIC_BIT_MASK_VAL 5 2
def STPMIC_LDO4SRC_BSTOUT : Nat := STPMIC_BIT_MASK_VAL 5 3
def STPMIC_LDO4SRC_UNKNOWN : Nat := 0xff

/-- Buck parameters (`stpmic_buck_t`). -/
structure stpmic_buck_t where
  pd : Nat
  mode : Nat
  volts : Nat
  enable : Nat
  deriving DecidableEq, Repr

/-- LDO parameters (`stpmic_ldo_t`). -/
structure stpmic_ldo_t where
  pd : Nat
  enable : Nat
  volts : Nat
  bypass : Nat
  src : Nat
  deriving DecidableEq, Repr

/-- What `stpmic.c` uses of the alternate mode and of REFDDR without a
declaration in `stpmic.h`: four register IDs and the inline function
`stpmic_buck_alt_cr`. -/
structure Undeclared where
  STPMIC_REG_BUCKx_ALT_CR : Nat
  STPMIC_REG_LDOx_ALT_CR : Nat
  STPMIC_REG_REFDDR_MAIN_CR : Nat
  STPMIC_REG_REFDDR_ALT_CR : Nat
  stpmic_buck_alt_cr : Transport → Driver → Nat → stpmic_ret_t × Option Nat × Driver

/-- The inline function `stpmic_buck_main_cr`. -/
def stpmic_buck_main_cr (T : Transport) (d : Driver) (nth : Nat) :
    stpmic_ret_t × Option Nat × Driver :=
  if nth ≤ 0 ∨ nth > 4 then (STPMIC_RET_RANGE, none, d)
  else stpmic_read T d (STPMIC_REG_BUCKx_MAIN_CR + (nth - 1))

/-- Setup one of buck #1 ~ #4 (`__stpmic_buck_setup`); `opts` is `none` for a
`NULL` pointer, which the function reads before it tests it: the result is
`none` then. -/
def __stpmic_buck_setup (X : Undeclared) (T : Transport) (d : Driver) (nth alt : Nat)
    (opts : Option stpmic_buck_t) : Option (stpmic_ret_t × Driver) :=
  if nth ≤ 0 ∨ nth > 4 then some (STPMIC_RET_RANGE, d)
  else
    match stpmic_buckspd T d with
    | (ret, buckspd, d1) =>
      if ret ≠ STPMIC_RET_OK then some (ret, d1)
      else
        match opts with
        | none => none
        | some o =>
          let val := (o.volts <<< 2) &&& 0xfc
          let val := if o.mode ≠ 0 then val ||| STPMIC_BIT_MASK 1 else val
          let val := if o.enable ≠ 0 then val ||| STPMIC_BIT_MASK 0 else val
          let buckspd := stpmic_set_buckspd (buckspd.getD 0) nth o.pd
          match stpmic_write T d1 STPMIC_REG_BUCKS_PD_CR buckspd with
          | (ret, d2) =>
            if ret ≠ STPMIC_RET_OK then some (ret, d2)
            else
              some (stpmic_write T d2
                ((if alt ≠ 0 then X.STPMIC_REG_BUCKx_ALT_CR else STPMIC_REG_BUCKx_MAIN_CR)
                  + (nth - 1))
                (val % 256))

/-- Enable the specified buck converter (`__stpmic_buck_enable`). -/
def __stpmic_buck_enable (X : Undeclared) (T : Transport) (d : Driver) (nth alt : Nat) :
    stpmic_ret_t × Driver :=
  match (if alt ≠ 0 then X.stpmic_buck_alt_cr T d nth else stpmic_buck_main_cr T d nth) with
  | (ret, reg, d1) =>
    if ret ≠ STPMIC_RET_OK then (ret, d1)
    else if reg.getD 0 &&& STPMIC_BIT_MASK 0 ≠ 0 then (STPMIC_RET_ALREADY, d1)
    else
      stpmic_write T d1
        ((if alt ≠ 0 then X.STPMIC_REG_BUCKx_ALT_CR else STPMIC_REG_BUCKx_MAIN_CR)
          + (nth - 1))
        ((reg.getD 0 ||| STPMIC_BIT_MASK 0) % 256)

/-- Disable the specified buck converter (`__stpmic_buck_disable`). -/
def __stpmic_buck_disable (X : Undeclared) (T : Transport) (d : Driver) (nth alt : Nat) :
    stpmic_ret_t × Driver :=
  match (if alt ≠ 0 then X.stpmic_buck_alt_cr T d nth else stpmic_buck_main_cr T d nth) with
  | (ret, reg, d1) =>
    if ret ≠ STPMIC_RET_OK then (ret, d1)
    else if reg.getD 0 &&& STPMIC_BIT_MASK 0 = 0 then (STPMIC_RET_ALREADY, d1)
    else
      stpmic_write T d1
        ((if alt ≠ 0 then X.STPMIC_REG_BUCKx_ALT_CR else STPMIC_REG_BUCKx_MAIN_CR)
          + (nth - 1))
        ((reg.getD 0 &&& (0xffffffff ^^^ STPMIC_BIT_MASK 0)) % 256)

/-- The value `__stpmic_ldo_setup` writes to the control register of LDO `nth`
(the `switch (nth)` of the function); `none` for its `default` case. -/
def ldo_setup_val (nth : Nat) (o : stpmic_ldo_t) : Option Nat :=
  if nth = 1 ∨ nth = 2 ∨ nth = 5 ∨ nth = 6 then
    let val := ((o.volts &&& 0x1f) <<< 2) % 256
    some (if o.enable ≠ 0 then val ||| STPMIC_BIT_MASK 0 else val)
  else if nth = 3 then
    let val := ((o.volts &&& 0x1f) <<< 2) % 256
    let val := if o.bypass ≠ 0 then val ||| STPMIC_BIT_MASK 7 else val
    some (if o.enable ≠ 0 then val ||| STPMIC_BIT_MASK 0 else val)
  else if nth = 4 then
    let val :=
      if o.src = STPMIC_LDO4SRC_VIN then STPMIC_BIT_MASK 2
      else if o.src = STPMIC_LDO4SRC_BSTOUT then STPMIC_BIT_MASK 3
      else if o.src = STPMIC_LDO4SRC_VBUSOTG then STPMIC_BIT_MASK 4
      else 0
    some (if o.src ≠ STPMIC_LDO4SRC_OFF ∧ o.enable ≠ 0 then val ||| STPMIC_BIT_MASK 0 else val)
  else none

/-- The end of `__stpmic_ldo_setup`, after the pull-down register: the choice
of the control register and of its value, and the write. -/
def ldo_setup_cr (X : Undeclared) (T : Transport) (d : Driver) (nth alt : Nat)
    (o : stpmic_ldo_t) : stpmic_ret_t × Driver :=
  let ldo :=
    if alt ≠ 0 then (X.STPMIC_REG_LDOx_ALT_CR + (nth - 1)) % 256
    else (STPMIC_REG_LDOx_MAIN_CR + (nth - 1)) % 256
  match ldo_setup_val nth o with
  | none => (STPMIC_RET_RANGE, d)
  | some val => stpmic_write T d ldo (val % 256)

/-- Setup the specified LDO (`__stpmic_ldo_setup`); `opts` is `none` for a
`NULL` pointer, which the function reads without a test: the result is `none`
then. -/
def __stpmic_ldo_setup (X : Undeclared) (T : Transport) (d : Driver) (nth alt : Nat)
    (opts : Option stpmic_ldo_t) : Option (stpmic_ret_t × Driver) :=
  if nth ≥ 1 ∧ nth ≤ 4 then
    match stpmic_ldo1234pd T d with
    | (ret, reg, d1) =>
      if ret ≠ STPMIC_RET_OK then some (ret, d1)
      else
        match opts with
        | none => none
        | some o =>
          match stpmic_write T d1 STPMIC_REG_LDO1234_PD_CR
              (stpmic_set_ldo1234pd (reg.getD 0) nth o.pd) with
          | (ret, d2) =>
            if ret ≠ STPMIC_RET_OK then some (ret, d2)
            else some (ldo_setup_cr X T d2 nth alt o)
  else if nth ≥ 5 ∧ nth ≤ 6 then
    match stpmic_ldo56pd T d with
    | (ret, reg, d1) =>
      if ret ≠ STPMIC_RET_OK then some (ret, d1)
      else
        match opts with
        | none => none
        | some o =>
          match stpmic_write T d1 STPMIC_REG_LDO56_VREF_PD_CR
              (stpmic_set_ldo56pd (reg.getD 0) nth o.pd) with
          | (ret, d2) =>
            if ret ≠ STPMIC_RET_OK then some (ret, d2)
            else some (ldo_setup_cr X T d2 nth alt o)
  else some (STPMIC_RET_RANGE, d)

/-- Enable the specified LDO (`__stpmic_ldo_enable`). -/
def __stpmic_ldo_enable (X : Undeclared) (T : Transport) (d : Driver) (nth alt : Nat) :
    stpmic_ret_t × Driver :=
  if nth ≤ 0 ∨ nth > 6 then (STPMIC_RET_RANGE, d)
  else
    let ldo :=
      ((if alt ≠ 0 then X.STPMIC_REG_LDOx_ALT_CR else STPMIC_REG_LDOx_MAIN_CR)
        + (nth - 1)) % 256
    match stpmic_read T d ldo with
    | (ret, reg, d1) =>
      if ret ≠ STPMIC_RET_OK then (ret, d1)
      else if reg.getD 0 &&& STPMIC_BIT_MASK 0 ≠ 0 then (STPMIC_RET_ALREADY, d1)
      else stpmic_write T d1 ldo ((reg.getD 0 ||| STPMIC_BIT_MASK 0) % 256)

/-- Disable the specified LDO (`__stpmic_ldo_disable`). -/
def __stpmic_ldo_disable (X : Undeclared) (T : Transport) (d : Driver) (nth alt : Nat) :
    stpmic_ret_t × Driver :=
  if nth ≤ 0 ∨ nth > 6 then (STPMIC_RET_RANGE, d)
  else
    let ldo :=
      ((if alt ≠ 0 then X.STPMIC_REG_LDOx_ALT_CR else STPMIC_REG_LDOx_MAIN_CR)
        + (nth - 1)) % 256
    match stpmic_read T d ldo with
    | (ret, reg, d1) =>
      if ret ≠ STPMIC_RET_OK then (ret, d1)
      else if reg.getD 0 &&& STPMIC_BIT_MASK 0 = 0 then (STPMIC_RET_ALREADY, d1)
      else stpmic_write T d1 ldo ((reg.getD 0 &&& (0xffffffff ^^^ STPMIC_BIT_MASK 0)) % 256)

/-- Enable the REFDDR (`__stpmic_refddr_enable`). -/
def __stpmic_refddr_enable (X : Undeclared) (T : Transport) (d : Driver) (alt : Nat) :
    stpmic_ret_t × Driver :=
  match stpmic_read T d
      (if alt ≠ 0 then X.STPMIC_REG_REFDDR_ALT_CR else X.STPMIC_REG_REFDDR_MAIN_CR) with
  | (ret, reg, d1) =>
    if ret ≠ STPMIC_RET_OK then (ret, d1)
    else
      stpmic_write T d1
        (if alt ≠ 0 then X.STPMIC_REG_REFDDR_ALT_CR else X.STPMIC_REG_REFDDR_MAIN_CR)
        ((reg.getD 0 ||| STPMIC_BIT_MASK 0) % 256)

/-- Disable the REFDDR (`__stpmic_refddr_disable`). -/
def __stpmic_refddr_disable (X : Undeclared) (T : Transport) (d : Driver) (alt : Nat) :
    stpmic_ret_t × Driver :=
  match stpmic_read T d
      (if alt ≠ 0 then X.STPMIC_REG_REFDDR_ALT_CR else X.STPMIC_REG_REFDDR_MAIN_CR) with
  | (ret, reg, d1) =>
    if ret ≠ STPMIC_RET_OK then (ret, d1)
    else
      stpmic_write T d1
        (if alt ≠ 0 then X.STPMIC_REG_REFDDR_ALT_CR else X.STPMIC_REG_REFDDR_MAIN_CR)
        ((reg.getD 0 &&& (0xffffffff ^^^ STPMIC_BIT_MASK 0)) % 256)

/-- An instance for the examples: the register IDs of the STPMIC1 data sheet,
and `stpmic_buck_alt_cr` as `stpmic_buck_main_cr` on the alternate registers. -/
def stpmic1_undeclared : Undeclared :=
  { STPMIC_REG_BUCKx_ALT_CR := 0x30
    STPMIC_REG_LDOx_ALT_CR := 0x35
    STPMIC_REG_REFDDR_MAIN_CR := 0x24
    STPMIC_REG_REFDDR_ALT_CR := 0x34
    stpmic_buck_alt_cr := fun T d nth =>
      if nth ≤ 0 ∨ nth > 4 then (STPMIC_RET_RANGE, none, d)
      else stpmic_read T d (0x30 + (nth - 1)) }

/-- A driver in state `STPMIC_DRV_READY` with address `0x33` whose `n` cache
slots all hold `c`. -/
def ready (n c : Nat) : Driver :=
  { attached n c with state := STPMIC_DRV_READY }

/-- The byte `r` is the byte `org` with the 2-bit field at bits `sh`, `sh + 1`
set to `val`: the field of `r` is `val`, and with the field masked out `r` and
`org` are equal, that is, the other six bits of `r` are those of `org`. -/
def field_set (r org sh val : Nat) : Prop :=
  r < 256 ∧ (r >>> sh) &&& 0x03 = val ∧
  r &&& (0xff ^^^ (0x03 <<< sh)) = org &&& (0xff ^^^ (0x03 <<< sh))

instance field_set_decidable (r org sh val : Nat) : Decidable (field_set r org sh val) := by
  unfold field_set
  infer_instance

/-! ## Status and control register getters -/

/-- Get the OCP_BUCKS_BSW_SR register value (`stpmic_ocpbucksbsw`, inline in
`stpmic.h`). -/
def stpmic_ocpbucksbsw (T : Transport) (d : Driver) : stpmic_ret_t × Option Nat × Driver :=
  stpmic_read_direct T d STPMIC_REG_OCP_LDOS_SR

/-- Get the OCP_LDOS_SR register value (`stpmic_ocpldosr`, inline in `stpmic.h`). -/
def stpmic_ocpldosr (T : Transport) (d : Driver) : stpmic_ret_t × Option Nat × Driver :=
  stpmic_read_direct T d STPMIC_REG_OCP_LDOS_SR

/-- Get the MAIN_CR register value (`stpmic_maincr`). -/
def stpmic_maincr (T : Transport) (d : Driver) : stpmic_ret_t × Option Nat × Driver :=
  stpmic_read T d STPMIC_REG_MAIN_CR

/-- Get the PADS_PULL_CR register value (`stpmic_padspullcr`). -/
def stpmic_padspullcr (T : Transport) (d : Driver) : stpmic_ret_t × Option Nat × Driver :=
  stpmic_read T d STPMIC_REG_PADS_PULL_CR

/-! ## PWRCTRL pin -/

def STPMIC_MAINCR_PWRCTL_POL : Nat := STPMIC_BIT_MASK 3
def STPMIC_MAINCR_PWRCTL_EN : Nat := STPMIC_BIT_MASK 2
def STPMIC_PADSPULLCR_PWRCTRL_PD : Nat := STPMIC_BIT_MASK 3
def STPMIC_PADSPULLCR_PWRCTRL_PU : Nat := STPMIC_BIT_MASK 2

/-- Structure for initializing the PWRCTRL pin (`stpmic_pwrctrl_t`). -/
structure stpmic_pwrctrl_t where
  pol : Nat
  pull : Nat
  en : Nat
  deriving DecidableEq, Repr

/-- The value `stpmic_pwrctrl_init` computes for MAIN_CR from the value read. -/
def pwrctrl_init_mcr (mcr : Nat) (p : stpmic_pwrctrl_t) : Nat :=
  let mcr := (mcr &&& (0xffffffff ^^^ STPMIC_MAINCR_PWRCTL_EN)) % 256
  let mcr := (mcr &&& (0xffffffff ^^^ STPMIC_MAINCR_PWRCTL_POL)) % 256
  let mcr := if p.pol ≠ 0 then (mcr ||| STPMIC_MAINCR_PWRCTL_POL) % 256 else mcr
  if p.en ≠ 0 then (mcr ||| STPMIC_MAINCR_PWRCTL_EN) % 256 else mcr

/-- The value `stpmic_pwrctrl_init` computes for PADS_PULL_CR from the value
read. -/
def pwrctrl_init_ppcr (ppcr : Nat) (p : stpmic_pwrctrl_t) : Nat :=
  let ppcr := (ppcr &&& (0xffffffff ^^^
    (STPMIC_PADSPULLCR_PWRCTRL_PD ||| STPMIC_PADSPULLCR_PWRCTRL_PU))) % 256
  (ppcr ||| ((p.pull <<< 2) &&&
    (STPMIC_PADSPULLCR_PWRCTRL_PD ||| STPMIC_PADSPULLCR_PWRCTRL_PU))) % 256

/-- Initialize the PWRCTRL pin (`stpmic_pwrctrl_init`); `pwrctrl` is `none`
for a `NULL` pointer, which the function reads without a test once both
registers are read: the result is `none` then. -/
def stpmic_pwrctrl_init (T : Transport) (d : Driver) (pwrctrl : Option stpmic_pwrctrl_t) :
    Option (stpmic_ret_t × Driver) :=
  match stpmic_maincr T d with
  | (ret, mcr, d1) =>
    if ret ≠ STPMIC_RET_OK then some (ret, d1)
    else
      match stpmic_padspullcr T d1 with
      | (ret, ppcr, d2) =>
        if ret ≠ STPMIC_RET_OK then some (ret, d2)
        else
          match pwrctrl with
          | none => none
          | some p =>
            match stpmic_write T d2 STPMIC_REG_PADS_PULL_CR
                (pwrctrl_init_ppcr (ppcr.getD 0) p) with
            | (ret, d3) =>
              if ret ≠ STPMIC_RET_OK then some (ret, d3)
              else some (stpmic_write T d3 STPMIC_REG_MAIN_CR (pwrctrl_init_mcr (mcr.getD 0) p))

/-- De-initialize the PWRCTRL functionality (`stpmic_pwrctrl_deinit`). -/
def stpmic_pwrctrl_deinit (T : Transport) (d : Driver) : stpmic_ret_t × Driver :=
  match stpmic_maincr T d with
  | (ret, mcr, d1) =>
    if ret ≠ STPMIC_RET_OK then (ret, d1)
    else
      match stpmic_padspullcr T d1 with
      | (ret, ppcr, d2) =>
        if ret ≠ STPMIC_RET_OK then (ret, d2)
        else
          match stpmic_write T d2 STPMIC_REG_PADS_PULL_CR
              ((ppcr.getD 0 &&& (0xffffffff ^^^
                (STPMIC_PADSPULLCR_PWRCTRL_PD ||| STPMIC_PADSPULLCR_PWRCTRL_PU))) % 256) with
          | (ret, d3) =>
            if ret ≠ STPMIC_RET_OK then (ret, d3)
            else
              stpmic_write T d3 STPMIC_REG_MAIN_CR
                ((mcr.getD 0 &&& (0xffffffff ^^^ STPMIC_MAINCR_PWRCTL_EN)) % 256)

/-! ## MRST masks -/

/-- Get the MRST masks from BUCKS_MRST_CR and LDOS_MRST_CR (`stpmic_mrst`); the
second component is the `uint16_t` stored through `out`. -/
def stpmic_mrst (T : Transport) (d : Driver) : stpmic_ret_t × Option Nat × Driver :=
  match stpmic_read T d STPMIC_REG_BUCKS_MRST_CR with
  | (ret, temp0, d1) =>
    if ret ≠ STPMIC_RET_OK then (ret, none, d1)
    else
      match stpmic_read T d1 STPMIC_REG_LDOS_MRST_CR with
      | (ret, temp1, d2) =>
        if ret ≠ STPMIC_RET_OK then (ret, none, d2)
        else (STPMIC_RET_OK, some ((temp1.getD 0 ||| (temp0.getD 0 <<< 8)) % 65536), d2)

/-- The two bytes `stpmic_set_mrst` writes, from the two bytes read and the
`uint16_t` argument. -/
def set_mrst_bytes (temp0 temp1 val : Nat) : Nat × Nat :=
  (((temp0 &&& (0xffffffff ^^^ 0x0f)) ||| ((val >>> 8) &&& 0x0f)) % 256,
   ((temp1 &&& (0xffffffff ^^^ 0x7f)) ||| ((val >>> 0) &&& 0x7f)) % 256)

/-- Set the MRST masks of BUCKS_MRST_CR and LDOS_MRST_CR (`stpmic_set_mrst`). -/
def stpmic_set_mrst (T : Transport) (d : Driver) (val : Nat) : stpmic_ret_t × Driver :=
  match stpmic_read T d STPMIC_REG_BUCKS_MRST_CR with
  | (ret, temp0, d1) =>
    if ret ≠ STPMIC_RET_OK then (ret, d1)
    else
      match stpmic_read T d1 STPMIC_REG_LDOS_MRST_CR with
      | (ret, temp1, d2) =>
        if ret ≠ STPMIC_RET_OK then (ret, d2)
        else
          match stpmic_write T d2 STPMIC_REG_BUCKS_MRST_CR
              (set_mrst_bytes (temp0.getD 0) (temp1.getD 0) val).1 with
          | (ret, d3) =>
            if ret ≠ STPMIC_RET_OK then (ret, d3)
            else
              stpmic_write T d3 STPMIC_REG_LDOS_MRST_CR
                (set_mrst_bytes (temp0.getD 0) (temp1.getD 0) val).2

/-! ## Interrupt bitmaps -/

/-- The interrupt register IDs that `stpmic.c` reads, which `stpmic.h` does not
declare: the first and the last register of the pending, mask and source
groups. -/
structure UndeclaredInt where
  STPMIC_REG_INT_PENDING_R1 : Nat
  STPMIC_REG_INT_PENDING_R4 : Nat
  STPMIC_REG_INT_MASK_R1 : Nat
  STPMIC_REG_INT_MASK_R4 : Nat
  STPMIC_REG_INT_SRC_R1 : Nat
  STPMIC_REG_INT_SRC_R4 : Nat

/-- The loop `for (uint8_t i = R1; i < R4; ++i) { ret = stpmic_read(i, &reg);
if (ret != STPMIC_RET_OK) return ret; val |= ((uint32_t)reg) << (i << 3); }`
followed by `*out = val; return STPMIC_RET_OK;`, entered with `n = R4 - i`
iterations left (register IDs are bytes).  A shift of the `uint32_t` by 32 or
more has no defined behaviour: `none`. -/
def interrupt_read_loop (T : Transport) :
    Nat → Nat → Nat → Driver → Option (stpmic_ret_t × Option Nat × Driver)
  | 0, _, val, d => some (STPMIC_RET_OK, some val, d)
  | n + 1, i, val, d =>
    match stpmic_read T d i with
    | (ret, reg, d1) =>
      if ret ≠ STPMIC_RET_OK then some (ret, none, d1)
      else if i <<< 3 ≥ 32 then none
      else
        interrupt_read_loop T n (i + 1)
          (val ||| ((reg.getD 0 <<< (i <<< 3)) % 4294967296)) d1

/-- Read the `INT_PENDING_Rx` registers (`stpmic_interrupt_pending`). -/
def stpmic_interrupt_pending (I : UndeclaredInt) (T : Transport) (d : Driver) :
    Option (stpmic_ret_t × Option Nat × Driver) :=
  interrupt_read_loop T (I.STPMIC_REG_INT_PENDING_R4 - I.STPMIC_REG_INT_PENDING_R1)
    I.STPMIC_REG_INT_PENDING_R1 0 d

/-- Read the interrupt masks (`stpmic_interrupt_read_mask`). -/
def stpmic_interrupt_read_mask (I : UndeclaredInt) (T : Transport) (d : Driver) :
    Option (stpmic_ret_t × Option Nat × Driver) :=
  interrupt_read_loop T (I.STPMIC_REG_INT_MASK_R4 - I.STPMIC_REG_INT_MASK_R1)
    I.STPMIC_REG_INT_MASK_R1 0 d

/-- Read the interrupt sources (`stpmic_interrupt_read_source`). -/
def stpmic_interrupt_read_source (I : UndeclaredInt) (T : Transport) (d : Driver) :
    Option (stpmic_ret_t × Option Nat × Driver) :=
  interrupt_read_loop T (I.STPMIC_REG_INT_SRC_R4 - I.STPMIC_REG_INT_SRC_R1)
    I.STPMIC_REG_INT_SRC_R1 0 d

/-- The interrupt register IDs of the STPMIC1 data sheet. -/
def stpmic1_int : UndeclaredInt :=
  { STPMIC_REG_INT_PENDING_R1 := 0x50
    STPMIC_REG_INT_PENDING_R4 := 0x53
    STPMIC_REG_INT_MASK_R1 := 0x80
    STPMIC_REG_INT_MASK_R4 := 0x83
    STPMIC_REG_INT_SRC_R1 := 0xb0
    STPMIC_REG_INT_SRC_R4 := 0xb3 }

/-- A layout that puts all three groups at the register IDs `g` to `g + 3`. -/
def int_at (g : Nat) : UndeclaredInt :=
  { STPMIC_REG_INT_PENDING_R1 := g
    STPMIC_REG_INT_PENDING_R4 := g + 3
    STPMIC_REG_INT_MASK_R1 := g
    STPMIC_REG_INT_MASK_R4 := g + 3
    STPMIC_REG_INT_SRC_R1 := g
    STPMIC_REG_INT_SRC_R4 := g + 3 }

/-- The 32-bit value whose byte `i` (bits `8i` to `8i + 7`) is the value of the
register at offset `i` from `g`, for `i` from 0 to 3. -/
def bitmap_of (regs : Nat → Nat) (g : Nat) : Nat :=
  (regs g % 256) ||| ((regs (g + 1) % 256) <<< 8) ||| ((regs (g + 2) % 256) <<< 16)
    ||| ((regs (g + 3) % 256) <<< 24)

/-! ## A register file behind the bus -/

/-- The effect of one bus transaction on the registers of the device: a write
packet `[id, v]` sets register `id` to `v`. -/
def hw_step (regs : Nat → Nat) : Txn → Nat → Nat
  | Txn.transmit _ _ [r, v] _ => fun id => if id = r then v else regs id
  | _ => regs

/-- The registers of the device after the bus history `past`, from the
content `init`. -/
def hw_regs (init : Nat → Nat) (past : List Txn) : Nat → Nat :=
  past.foldl hw_step init

/-- The register selected by the latest transaction, a write of the single
byte `[id]`. -/
def hw_selected (past : List Txn) : Nat :=
  match past.getLast? with
  | some (Txn.transmit _ _ [r] _) => r
  | _ => 0

/-- The device as a register file: every transaction succeeds, and a read
returns the content of the register selected just before. -/
def transport_hw (init : Nat → Nat) : Transport :=
  { HAL_I2C_Master_Transmit := fun _ _ => true
    HAL_I2C_Master_Receive := fun past _ => some (hw_regs init past (hw_selected past)) }

/-- Device content for the examples: `VERSION_SR` holds `0x21`, every other
register `id` holds `0xa0 + id`. -/
def hw_example (id : Nat) : Nat :=
  if id = STPMIC_REG_VERSION_SR then 0x21 else 0xa0 + id

/-- The pairs of a register map before its `0, 0` sentinel. -/
def regmap_pairs : List Nat → List (Nat × Nat)
  | s :: e :: rest => if s = e ∧ e = 0 then [] else (s, e) :: regmap_pairs rest
  | _ => []

/-- From the driver state `d` to the driver state `d1` the bus log has grown
by transactions none of which is a write packet for the register `id`. -/
def no_write_to (id : Nat) (d d1 : Driver) : Prop :=
  ∃ sent, d1.bus = d.bus ++ sent ∧ ∀ t ∈ sent, writes_to id t = false

/-- The outcome `res` of a helper that started in driver state `d` and makes
up to four steps, two register reads with the results `r1`, `r2` and two
register writes with the results `w1`, `w2`, the last one to register `e`: the
helper stops at the first step that fails and returns its error; after a
failed read no write packet has been sent, after a failed first write none
has been sent for `e`. -/
def first_failure (d : Driver) (e : Nat) (r1 r2 : stpmic_ret_t × Option Nat × Driver)
    (w1 w2 res : stpmic_ret_t × Driver) : Prop :=
  (r1.1 ≠ STPMIC_RET_OK ∧ res = (r1.1, r1.2.2) ∧ ∀ id, no_write_to id d res.2) ∨
  (r1.1 = STPMIC_RET_OK ∧ r2.1 ≠ STPMIC_RET_OK ∧ res = (r2.1, r2.2.2) ∧
    ∀ id, no_write_to id d res.2) ∨
  (r1.1 = STPMIC_RET_OK ∧ r2.1 = STPMIC_RET_OK ∧ w1.1 ≠ STPMIC_RET_OK ∧ res = w1 ∧
    no_write_to e d res.2) ∨
  (r1.1 = STPMIC_RET_OK ∧ r2.1 = STPMIC_RET_OK ∧ w1.1 = STPMIC_RET_OK ∧ res = w2)

/-- A transport on which the first `n` transactions succeed, every byte
received being `b`, and every later one fails. -/
def transport_fail_after (n b : Nat) : Transport :=
  { HAL_I2C_Master_Transmit := fun past _ => decide (past.length < n)
    HAL_I2C_Master_Receive := fun past _ => if past.length < n then some b else none }

/-! ## The calls of the driver -/

/-- The calls of the driver embedded above, with their arguments.  The buck
enable and disable helpers are taken in main mode, where they do not call the
undeclared `stpmic_buck_alt_cr`. -/
inductive Call where
  | init (dev : Option Nat) (addr : Int)
  | set_timeout (inp : Option stpmic_timeout_t)
  | read_direct (reg : Nat)
  | write_direct (reg val : Nat)
  | read (reg : Nat)
  | write (reg val : Nat)
  | clear_cache (reg : Nat)
  | batch_write (reg val : Nat)
  | batch_flush
  | reload_cache
  | version
  | ocpldosr
  | ocpbucksbsw
  | pwrctrl_init (pwrctrl : Option stpmic_pwrctrl_t)
  | pwrctrl_deinit
  | mrst
  | set_mrst (val : Nat)
  | watchdog_init (sec : Nat)
  | watchdog_deinit
  | watchdog_reset
  | buck_setup (nth alt : Nat) (opts : Option stpmic_buck_t)
  | buck_enable (nth : Nat)
  | buck_disable (nth : Nat)
  | ldo_setup (nth alt : Nat) (opts : Option stpmic_ldo_t)
  | ldo_enable (nth alt : Nat)
  | ldo_disable (nth alt : Nat)
  | refddr_enable (alt : Nat)
  | refddr_disable (alt : Nat)
  | interrupt_pending
  | interrupt_read_mask
  | interrupt_read_source

/-- The driver state after one call made in driver state `d`; `none` when the
call has no defined behaviour. -/
def Call.run (X : Undeclared) (I : UndeclaredInt) (T : Transport) :
    Call → Driver → Option Driver
  | Call.init dev addr, d => (stpmic_init T d dev addr).map (fun r => r.2)
  | Call.set_timeout inp, d => some (stpmic_set_timeout d inp)
  | Call.read_direct reg, d => some (stpmic_read_direct T d reg).2.2
  | Call.write_direct reg val, d => some (stpmic_write_direct T d reg val).2
  | Call.read reg, d => some (stpmic_read T d reg).2.2
  | Call.write reg val, d => some (stpmic_write T d reg val).2
  | Call.clear_cache reg, d => (stpmic_clear_cache d reg).map (fun r => r.2)
  | Call.batch_write reg val, d => (stpmic_batch_write d reg val).map (fun r => r.2)
  | Call.batch_flush, d => (stpmic_batch_flush T d).map (fun r => r.2)
  | Call.reload_cache, d => (stpmic_reload_cache T d).map (fun r => r.2)
  | Call.version, d => some (stpmic_version T d).2.2
  | Call.ocpldosr, d => some (stpmic_ocpldosr T d).2.2
  | Call.ocpbucksbsw, d => some (stpmic_ocpbucksbsw T d).2.2
  | Call.pwrctrl_init pwrctrl, d => (stpmic_pwrctrl_init T d pwrctrl).map (fun r => r.2)
  | Call.pwrctrl_deinit, d => some (stpmic_pwrctrl_deinit T d).2
  | Call.mrst, d => some (stpmic_mrst T d).2.2
  | Call.set_mrst val, d => some (stpmic_set_mrst T d val).2
  | Call.watchdog_init sec, d => some (stpmic_watchdog_init T d sec).2
  | Call.watchdog_deinit, d => some (stpmic_watchdog_deinit T d).2
  | Call.watchdog_reset, d => some (stpmic_watchdog_reset T d).2
  | Call.buck_setup nth alt opts, d =>
    (__stpmic_buck_setup X T d nth alt opts).map (fun r => r.2)
  | Call.buck_enable nth, d => some (__stpmic_buck_enable X T d nth 0).2
  | Call.buck_disable nth, d => some (__stpmic_buck_disable X T d nth 0).2
  | Call.ldo_setup nth alt opts, d => (__stpmic_ldo_setup X T d nth alt opts).map (fun r => r.2)
  | Call.ldo_enable nth alt, d => some (__stpmic_ldo_enable X T d nth alt).2
  | Call.ldo_disable nth alt, d => some (__stpmic_ldo_disable X T d nth alt).2
  | Call.refddr_enable alt, d => some (__stpmic_refddr_enable X T d alt).2
  | Call.refddr_disable alt, d => some (__stpmic_refddr_disable X T d alt).2
  | Call.interrupt_pending, d => (stpmic_interrupt_pending I T d).map (fun r => r.2.2)
  | Call.interrupt_read_mask, d => (stpmic_interrupt_read_mask I T d).map (fun r => r.2.2)
  | Call.interrupt_read_source, d => (stpmic_interrupt_read_source I T d).map (fun r => r.2.2)

/-- The driver state after a sequence of calls, made in order from `d`. -/
def run_calls (X : Undeclared) (I : UndeclaredInt) (T : Transport) :
    List Call → Driver → Option Driver
  | [], d => some d
  | c :: cs, d => (c.run X I T d).bind (run_calls X I T cs)

/-- The byte `h` was read from the bus for register `id`: the bus log of `d`
holds a write of the single byte `[id]` followed by a read for which the
transport returned a byte whose low eight bits are `h`. -/
def bus_byte (T : Transport) (d : Driver) (id h : Nat) : Prop :=
  ∃ pre post dv a t dv2 a2 n t2 raw,
    d.bus = pre ++ Txn.transmit dv a [id] t :: Txn.receive dv2 a2 n t2 :: post ∧
    T.HAL_I2C_Master_Receive (pre ++ [Txn.transmit dv a [id] t]) (Txn.receive dv2 a2 n t2)
      = some raw ∧
    h = raw % 256

/-! ## Bit-level facts about cache slots -/

theorem byte_and_mismatch (v : Nat) (h : v < 256) : v &&& STPMIC_CACHE_MISMATCH = 0 := by
  have h8 : STPMIC_CACHE_MISMATCH = 2 ^ 8 := rfl
  rw [h8, Nat.and_two_pow, Nat.testBit_lt_two_pow (by simpa using h)]
  simp

theorem byte_and_ff (v : Nat) (h : v < 256) : v &&& 0xff = v := by
  have h3 : (0xff : Nat) = 2 ^ 8 - 1 := rfl
  rw [h3, Nat.and_pow_two_sub_one_eq_mod]
  exact Nat.mod_eq_of_lt h

theorem and_ff_lt (c : Nat) : c &&& 0xff < 256 :=
  Nat.lt_of_le_of_lt Nat.and_le_right (by decide)

theorem and_ff_mod (c : Nat) : (c &&& 0xff) % 256 = c &&& 0xff :=
  Nat.mod_eq_of_lt (and_ff_lt c)

theorem or_mismatch_and_mismatch (c : Nat) :
    (c ||| STPMIC_CACHE_MISMATCH) &&& STPMIC_CACHE_MISMATCH ≠ 0 := by
  have h8 : STPMIC_CACHE_MISMATCH = 2 ^ 8 := rfl
  rw [h8, Nat.and_two_pow, Nat.testBit_or, Nat.testBit_two_pow_self]
  simp

theorem or_mismatch_mod_and_mismatch (c : Nat) :
    ((c ||| STPMIC_CACHE_MISMATCH) % 65536) &&& STPMIC_CACHE_MISMATCH ≠ 0 := by
  have h8 : STPMIC_CACHE_MISMATCH = 2 ^ 8 := rfl
  have h16 : (65536 : Nat) = 2 ^ 16 := rfl
  rw [h8, h16, Nat.and_two_pow, Nat.testBit_mod_two_pow, Nat.testBit_or,
    Nat.testBit_two_pow_self]
  simp

theorem or_mismatch_and_ff (c : Nat) :
    (c ||| STPMIC_CACHE_MISMATCH) &&& 0xff = c &&& 0xff := by
  have h8 : STPMIC_CACHE_MISMATCH = 2 ^ 8 := rfl
  have h3 : (0xff : Nat) = 2 ^ 8 - 1 := rfl
  rw [h8, h3]
  apply Nat.eq_of_testBit_eq
  intro i
  simp only [Nat.testBit_and, Nat.testBit_or, Nat.testBit_two_pow_sub_one,
    Nat.testBit_two_pow]
  by_cases hi : i < 8
  · have : ¬ 8 = i := by omega
    simp [*]
  · simp [hi]

@[simp] theorem cache_max_eq (d : Driver) : STPMIC_REG_CACHE_MAX d = d.cache.length := rfl

/-! ## Cached access: elision, round trip, invalidation -/

/-- C1. Write elision: on an attached device, for a valid register ID whose
cache slot holds `v` with the mismatch flag clear, `stpmic_write id v` returns
success and leaves the whole driver state, bus history included, unchanged. -/
theorem write_elision (T : Transport) (d : Driver) (id v : Nat)
    (hst : STPMIC_DRV_INIT ≤ d.state) (hid : id < STPMIC_REG_MAX)
    (hc : id < STPMIC_REG_CACHE_MAX d) (hslot : slot_valid d id v) :
    stpmic_write T d id v = (STPMIC_RET_OK, d) := by
  obtain ⟨c, hget, hm, hv⟩ := hslot
  have hcv : d.cache[id] = c := by
    rw [List.getElem?_eq_getElem hc] at hget
    exact Option.some.inj hget
  have hb : (c &&& 0xff) % 256 = v := by rw [and_ff_mod, hv]
  unfold stpmic_write
  simp [Nat.not_lt.mpr hst, Nat.not_le.mpr hid, hc, hcv, hm, hb]

theorem write_elision_witness :
    stpmic_write (transport_const 0) (attached 0x2b 0x5a) STPMIC_REG_MAIN_CR 0x5a
      = (STPMIC_RET_OK, attached 0x2b 0x5a) :=
  write_elision (transport_const 0) (attached 0x2b 0x5a) STPMIC_REG_MAIN_CR 0x5a
    (by decide) (by decide) (by decide) ⟨0x5a, by decide, by decide, by decide⟩

/-- C2. Cache round trip: for a register ID with a cache slot and a byte `v`,
when `stpmic_write_direct id v` returns success, the `stpmic_read id` that
follows returns success with output `v` and leaves the driver state and the
bus history as they were: it performs no bus transaction. -/
theorem cache_round_trip (T : Transport) (d d1 : Driver) (id v : Nat)
    (hc : id < STPMIC_REG_CACHE_MAX d) (hv : v < 256)
    (hw : stpmic_write_direct T d id v = (STPMIC_RET_OK, d1)) :
    stpmic_read T d1 id = (STPMIC_RET_OK, some v, d1) := by
  unfold stpmic_write_direct at hw
  by_cases hst : d.state < STPMIC_DRV_INIT
  · simp [hst] at hw
  by_cases hid : id ≥ STPMIC_REG_MAX
  · simp [hst, hid] at hw
  simp only [hst, hid, if_false] at hw
  split at hw
  · simp at hw
  · simp only [hc, if_true, Prod.mk.injEq, true_and] at hw
    subst hw
    have hc1 : id < d.cache.length := hc
    unfold stpmic_read
    simp [hst, hid, hc1, byte_and_mismatch v hv, byte_and_ff v hv, Nat.mod_eq_of_lt hv]

theorem cache_round_trip_witness :
    stpmic_read (transport_const 0)
        (stpmic_write_direct (transport_const 0) (attached 0x2b 0) STPMIC_REG_MAIN_CR 0x5a).2
        STPMIC_REG_MAIN_CR
      = (STPMIC_RET_OK, some 0x5a,
        (stpmic_write_direct (transport_const 0) (attached 0x2b 0) STPMIC_REG_MAIN_CR 0x5a).2) :=
  cache_round_trip (transport_const 0) (attached 0x2b 0) _ STPMIC_REG_MAIN_CR 0x5a
    (by decide) (by decide) (by decide)

/-- C3, as stated, fails: after a successful `stpmic_clear_cache` of
`MAIN_CR` on an attached device whose transport succeeds, the next
`stpmic_read` of `MAIN_CR` performs two bus transactions, a write of the
register ID and a read of one byte, not one. -/
theorem clear_cache_read_two_transactions :
    (stpmic_clear_cache (attached 0x2b 0) STPMIC_REG_MAIN_CR).map
        (fun r => (r.1, (stpmic_read (transport_const 0) r.2 STPMIC_REG_MAIN_CR).2.2.bus))
      = some (STPMIC_RET_OK,
          [Txn.transmit (some 1) 0x66 [0x10] 100, Txn.receive (some 1) 0x67 1 100]) := by
  decide

/-- C3, amended. Invalidation forces a bus hit: on an attached device, for a
valid register ID with a cache slot, `stpmic_clear_cache id` succeeds without
bus traffic, and afterwards `stpmic_read id` is `stpmic_read_direct id` and
`stpmic_write id v` is `stpmic_write_direct id v` for every `v`, whatever the
slot held.  The read issues one write transaction carrying the register ID,
followed, when that one succeeds, by one read transaction of one byte; the
write issues exactly one write transaction carrying `[id, v]`. -/
theorem clear_cache_forces_bus (T : Transport) (d : Driver) (id v : Nat)
    (hst : STPMIC_DRV_INIT ≤ d.state) (hid : id < STPMIC_REG_MAX)
    (hc : id < STPMIC_REG_CACHE_MAX d) :
    ∃ d1, stpmic_clear_cache d id = some (STPMIC_RET_OK, d1) ∧ d1.bus = d.bus ∧
      stpmic_read T d1 id = stpmic_read_direct T d1 id ∧
      stpmic_write T d1 id v = stpmic_write_direct T d1 id v ∧
      (stpmic_read T d1 id).2.2.bus =
        (if T.HAL_I2C_Master_Transmit d1.bus
              (Txn.transmit d1.dev (bus_addr d1.addr 0) [id] d1.timeout_r) = false then
          d1.bus ++ [Txn.transmit d1.dev (bus_addr d1.addr 0) [id] d1.timeout_r]
        else
          d1.bus ++ [Txn.transmit d1.dev (bus_addr d1.addr 0) [id] d1.timeout_r,
                     Txn.receive d1.dev (bus_addr d1.addr 1) 1 d1.timeout_r]) ∧
      (stpmic_write T d1 id v).2.bus =
        d1.bus ++ [Txn.transmit d1.dev (bus_addr d1.addr 0) [id, v] d1.timeout_w] := by
  have hst1 : ¬ d.state < STPMIC_DRV_INIT := Nat.not_lt.mpr hst
  have hid1 : ¬ id ≥ STPMIC_REG_MAX := Nat.not_le.mpr hid
  have hid256 : id % 256 = id := Nat.mod_eq_of_lt (by
    have : STPMIC_REG_MAX = 0x29 := rfl
    omega)
  have hc1 : id < d.cache.length := hc
  have hm := or_mismatch_mod_and_mismatch (d.cache[id])
  have hrd : stpmic_read T { d with
        cache := d.cache.set id ((d.cache[id] ||| STPMIC_CACHE_MISMATCH) % 65536) } id
      = stpmic_read_direct T { d with
        cache := d.cache.set id ((d.cache[id] ||| STPMIC_CACHE_MISMATCH) % 65536) } id := by
    unfold stpmic_read
    simp [hst1, hid1, hc1, hm]
  have hwr : stpmic_write T { d with
        cache := d.cache.set id ((d.cache[id] ||| STPMIC_CACHE_MISMATCH) % 65536) } id v
      = stpmic_write_direct T { d with
        cache := d.cache.set id ((d.cache[id] ||| STPMIC_CACHE_MISMATCH) % 65536) } id v := by
    unfold stpmic_write
    simp [hst1, hid1, hc1, hm]
  refine ⟨{ d with
      cache := d.cache.set id ((d.cache[id] ||| STPMIC_CACHE_MISMATCH) % 65536) },
    ?_, rfl, hrd, hwr, ?_, ?_⟩
  · unfold stpmic_clear_cache
    simp [hst1, hid1, hc1]
  · rw [hrd]
    unfold stpmic_read_direct
    simp only [hst1, hid1, if_false, hid256]
    split
    · rfl
    · split <;> simp [hc1]
  · rw [hwr]
    unfold stpmic_write_direct
    simp only [hst1, hid1, if_false, hid256]
    split
    · rfl
    · simp [hc1]

theorem clear_cache_forces_bus_witness :
    ∃ d1, stpmic_clear_cache (attached 0x2b 0x5a) STPMIC_REG_MAIN_CR
        = some (STPMIC_RET_OK, d1) ∧ d1.bus = (attached 0x2b 0x5a).bus ∧
      stpmic_read (transport_const 7) d1 STPMIC_REG_MAIN_CR
        = stpmic_read_direct (transport_const 7) d1 STPMIC_REG_MAIN_CR ∧
      stpmic_write (transport_const 7) d1 STPMIC_REG_MAIN_CR 0x5a
        = stpmic_write_direct (transport_const 7) d1 STPMIC_REG_MAIN_CR 0x5a ∧
      (stpmic_read (transport_const 7) d1 STPMIC_REG_MAIN_CR).2.2.bus =
        (if (transport_const 7).HAL_I2C_Master_Transmit d1.bus
              (Txn.transmit d1.dev (bus_addr d1.addr 0) [STPMIC_REG_MAIN_CR] d1.timeout_r)
              = false then
          d1.bus ++ [Txn.transmit d1.dev (bus_addr d1.addr 0) [STPMIC_REG_MAIN_CR]
            d1.timeout_r]
        else
          d1.bus ++ [Txn.transmit d1.dev (bus_addr d1.addr 0) [STPMIC_REG_MAIN_CR]
                       d1.timeout_r,
                     Txn.receive d1.dev (bus_addr d1.addr 1) 1 d1.timeout_r]) ∧
      (stpmic_write (transport_const 7) d1 STPMIC_REG_MAIN_CR 0x5a).2.bus =
        d1.bus ++ [Txn.transmit d1.dev (bus_addr d1.addr 0) [STPMIC_REG_MAIN_CR, 0x5a]
          d1.timeout_w] :=
  clear_cache_forces_bus (transport_const 7) (attached 0x2b 0x5a) STPMIC_REG_MAIN_CR 0x5a
    (by decide) (by decide) (by decide)

/-! ## Batch staging -/

theorem batch_write_ok (d : Driver) (id v : Nat)
    (hst : STPMIC_DRV_INIT ≤ d.state) (hid : id < STPMIC_REG_MAX)
    (hc : id < d.cache.length) :
    stpmic_batch_write d id v = some (STPMIC_RET_OK,
      { d with cache := d.cache.set id (v ||| STPMIC_CACHE_MISMATCH) }) := by
  unfold stpmic_batch_write
  simp [Nat.not_lt.mpr hst, Nat.not_le.mpr hid, hc]

theorem batch_write_seq_silent (ws : List (Nat × Nat)) :
    ∀ d : Driver, (∀ w ∈ ws, w.1 < d.cache.length) →
      ∃ d1, batch_write_seq ws d = some d1 ∧ d1.bus = d.bus ∧ d1.state = d.state ∧
        d1.dev = d.dev ∧ d1.addr = d.addr ∧ d1.timeout_r = d.timeout_r ∧
        d1.timeout_w = d.timeout_w ∧ d1.cache.length = d.cache.length := by
  induction ws with
  | nil => intro d _; exact ⟨d, rfl, rfl, rfl, rfl, rfl, rfl, rfl, rfl⟩
  | cons w ws ih =>
    intro d hws
    obtain ⟨reg, val⟩ := w
    have hreg : reg < d.cache.length := hws (reg, val) (List.mem_cons_self _ _)
    have hrest : ∀ w ∈ ws, w.1 < d.cache.length :=
      fun w hw => hws w (List.mem_cons_of_mem _ hw)
    unfold batch_write_seq stpmic_batch_write
    by_cases hst : d.state < STPMIC_DRV_INIT
    · simpa [hst] using ih d hrest
    by_cases hid : reg ≥ STPMIC_REG_MAX
    · simpa [hst, hid] using ih d hrest
    simp only [hst, hid, if_false, cache_max_eq, hreg, if_true]
    have h := ih { d with cache := d.cache.set reg (val ||| STPMIC_CACHE_MISMATCH) }
      (by simpa using hrest)
    simpa using h

/-- C4. Batch staging is bus-silent: on an attached device, for a valid register
ID that has a cache slot and a byte `v`, `stpmic_batch_write id v` returns
success and changes nothing but the slot of `id`, which then holds `v` with
the mismatch flag set: every other slot, every other driver field and the bus
history are as before.  Hence a sequence of batch writes to such registers
leaves the bus history as it was, whatever its length. -/
theorem batch_write_bus_silent (d : Driver) (id v : Nat)
    (hst : STPMIC_DRV_INIT ≤ d.state) (hid : id < STPMIC_REG_MAX)
    (hc : id < STPMIC_REG_CACHE_MAX d) (hv : v < 256) :
    (∃ d1, stpmic_batch_write d id v = some (STPMIC_RET_OK, d1) ∧
      d1 = { d with cache := d.cache.set id (v ||| STPMIC_CACHE_MISMATCH) } ∧
      d1.bus = d.bus ∧ slot_dirty d1 id v ∧
      (∀ j, j ≠ id → d1.cache[j]? = d.cache[j]?) ∧
      d1.cache.length = d.cache.length) ∧
    (∀ ws : List (Nat × Nat),
      (∀ w ∈ ws, w.1 < STPMIC_REG_MAX ∧ w.1 < STPMIC_REG_CACHE_MAX d) →
      ∃ dn, batch_write_seq ws d = some dn ∧ dn.bus = d.bus) := by
  have hc1 : id < d.cache.length := hc
  constructor
  · refine ⟨_, batch_write_ok d id v hst hid hc1, rfl, rfl, ?_, ?_, ?_⟩
    · refine ⟨v ||| STPMIC_CACHE_MISMATCH, ?_, or_mismatch_and_mismatch v, ?_⟩
      · simp [hc1]
      · rw [or_mismatch_and_ff, byte_and_ff v hv]
    · intro j hj
      simp [List.getElem?_set_ne (Ne.symm hj)]
    · simp
  · intro ws hws
    obtain ⟨dn, h1, h2, _⟩ := batch_write_seq_silent ws d (fun w hw => (hws w hw).2)
    exact ⟨dn, h1, h2⟩

theorem batch_write_bus_silent_witness :
    (∃ d1, stpmic_batch_write (attached 0x2b 0) STPMIC_REG_MAIN_CR 0x5a
        = some (STPMIC_RET_OK, d1) ∧
      d1 = { attached 0x2b 0 with
        cache := (attached 0x2b 0).cache.set STPMIC_REG_MAIN_CR
          (0x5a ||| STPMIC_CACHE_MISMATCH) } ∧
      d1.bus = (attached 0x2b 0).bus ∧ slot_dirty d1 STPMIC_REG_MAIN_CR 0x5a ∧
      (∀ j, j ≠ STPMIC_REG_MAIN_CR → d1.cache[j]? = (attached 0x2b 0).cache[j]?) ∧
      d1.cache.length = (attached 0x2b 0).cache.length) ∧
    (∀ ws : List (Nat × Nat),
      (∀ w ∈ ws, w.1 < STPMIC_REG_MAX ∧ w.1 < STPMIC_REG_CACHE_MAX (attached 0x2b 0)) →
      ∃ dn, batch_write_seq ws (attached 0x2b 0) = some dn ∧
        dn.bus = (attached 0x2b 0).bus) :=
  batch_write_bus_silent (attached 0x2b 0) STPMIC_REG_MAIN_CR 0x5a
    (by decide) (by decide) (by decide) (by decide)

/-! ## The two loops over the register map -/

theorem walk_init_inv (d : Driver) : walk_inv (walk_init d) := by
  simp [walk_inv, walk_init]

theorem walk_range_inv (access : Driver → Nat → Option (stpmic_ret_t × Driver)) :
    ∀ (n s : Nat) (w w1 : Walk), walk_inv w → walk_range access n s w = some w1 →
      walk_inv w1 := by
  intro n
  induction n with
  | zero =>
    intro s w w1 hw h
    simp only [walk_range, Option.some.injEq] at h
    exact h ▸ hw
  | succ n ih =>
    intro s w w1 hw h
    obtain ⟨h1, h2, _⟩ := hw
    unfold walk_range at h
    cases ha : access w.drv s with
    | none => simp [ha] at h
    | some p =>
      obtain ⟨r, d1⟩ := p
      simp only [ha] at h
      by_cases hr : r = STPMIC_RET_OK
      · simp only [hr, ne_eq, not_true_eq_false, if_false] at h
        refine ih (s + 1) _ w1 ?_ h
        refine ⟨by simp [h1], ?_, ?_⟩
        · simp [List.countP_append, h2]
        · intro c hc
          simp at hc
          simp [← hc]
      · simp only [ne_eq, hr, not_false_eq_true, if_true, Option.some.injEq] at h
        subst h
        refine ⟨by simp [h1], ?_, ?_⟩
        · simp [List.countP_append, h2, hr]
        · intro c hc
          simp at hc
          simp [← hc]

theorem walk_range_scan (access : Driver → Nat → Option (stpmic_ret_t × Driver)) :
    ∀ (n s : Nat) (w w1 : Walk), walk_range access (n + 1) s w = some w1 →
      ∃ seg, w1.calls = w.calls ++ seg ∧ range_scan s (s + (n + 1)) seg := by
  intro n
  induction n with
  | zero =>
    intro s w w1 h
    unfold walk_range at h
    cases ha : access w.drv s with
    | none => simp [ha] at h
    | some p =>
      obtain ⟨r, d1⟩ := p
      simp only [ha] at h
      refine ⟨[(s, r)], ?_, 0, r, by simp, by omega, fun hlt => absurd hlt (by omega)⟩
      by_cases hr : r = STPMIC_RET_OK
      · simp only [hr, ne_eq, not_true_eq_false, if_false, walk_range,
          Option.some.injEq] at h
        subst h; simp [hr]
      · simp only [ne_eq, hr, not_false_eq_true, if_true, Option.some.injEq] at h
        subst h; rfl
  | succ n ih =>
    intro s w w1 h
    unfold walk_range at h
    cases ha : access w.drv s with
    | none => simp [ha] at h
    | some p =>
      obtain ⟨r, d1⟩ := p
      simp only [ha] at h
      by_cases hr : r = STPMIC_RET_OK
      · simp only [hr, ne_eq, not_true_eq_false, if_false] at h
        obtain ⟨seg, hseg, k, r1, hk, hlt, hlast⟩ := ih (s + 1) _ w1 h
        refine ⟨(s, STPMIC_RET_OK) :: seg, ?_, k + 1, r1, ?_, by omega, ?_⟩
        · simp [hseg]
        · rw [hk, List.range'_succ]
          simp only [List.map_cons, List.cons_append, List.cons.injEq, true_and,
            List.append_cancel_left_eq, Prod.mk.injEq, and_true]
          omega
        · intro h2
          exact hlast (by omega)
      · simp only [ne_eq, hr, not_false_eq_true, if_true, Option.some.injEq] at h
        subst h
        exact ⟨[(s, r)], rfl, 0, r, by simp, by omega, fun _ => hr⟩

theorem walk_range_ends_failed (access : Driver → Nat → Option (stpmic_ret_t × Driver))
    (bad : Nat)
    (hbad : ∀ d r d1, access d bad = some (r, d1) → r ≠ STPMIC_RET_OK) :
    ∀ (n s : Nat) (w w1 : Walk), s ≤ bad → bad < s + n →
      walk_range access n s w = some w1 → w1.ret ≠ STPMIC_RET_OK := by
  intro n
  induction n with
  | zero => intro s w w1 h1 h2; omega
  | succ n ih =>
    intro s w w1 h1 h2 h
    unfold walk_range at h
    cases ha : access w.drv s with
    | none => simp [ha] at h
    | some p =>
      obtain ⟨r, d1⟩ := p
      simp only [ha] at h
      by_cases hr : r = STPMIC_RET_OK
      · simp only [hr, ne_eq, not_true_eq_false, if_false] at h
        have hne : s ≠ bad := by
          intro hsb
          subst hsb
          exact hbad _ _ _ ha hr
        exact ih (s + 1) _ w1 (by omega) (by omega) h
      · simp only [ne_eq, hr, not_false_eq_true, if_true, Option.some.injEq] at h
        subst h
        exact hr

theorem walk_map_regmap (access : Driver → Nat → Option (stpmic_ret_t × Driver))
    (w w6 : Walk) :
    walk_map access STPMIC_REGMAP w = some w6 ↔
      ∃ w1 w2 w3 w4 w5, walk_range access 6 1 w = some w1 ∧
        walk_range access 7 0x10 w1 = some w2 ∧ walk_range access 1 0x18 w2 = some w3 ∧
        walk_range access 3 0x1a w3 = some w4 ∧ walk_range access 4 0x20 w4 = some w5 ∧
        walk_range access 6 0x25 w5 = some w6 := by
  simp [STPMIC_REGMAP, walk_map, Option.bind_eq_some, STPMIC_REG_TURN_ON_SR,
    STPMIC_REG_VERSION_SR, STPMIC_REG_MAIN_CR, STPMIC_REG_PKEY_TURNOFF_CR,
    STPMIC_REG_BUCKS_MRST_CR, STPMIC_REG_LDOS_MRST_CR, STPMIC_REG_WDG_TMR_CR,
    STPMIC_REG_BUCKx_MAIN_CR, STPMIC_REG_LDOx_MAIN_CR]

theorem write_direct_frame (T : Transport) (d : Driver) (reg val : Nat) :
    (stpmic_write_direct T d reg val).2.cache.length = d.cache.length ∧
    (stpmic_write_direct T d reg val).2.state = d.state := by
  unfold stpmic_write_direct
  split
  · exact ⟨rfl, rfl⟩
  · split
    · exact ⟨rfl, rfl⟩
    · simp only
      split
      · exact ⟨rfl, rfl⟩
      · split <;> simp

theorem read_direct_frame (T : Transport) (d : Driver) (reg : Nat) :
    (stpmic_read_direct T d reg).2.2.cache.length = d.cache.length ∧
    (stpmic_read_direct T d reg).2.2.state = d.state := by
  unfold stpmic_read_direct
  split
  · exact ⟨rfl, rfl⟩
  · split
    · exact ⟨rfl, rfl⟩
    · simp only
      split
      · exact ⟨rfl, rfl⟩
      · split
        · exact ⟨rfl, rfl⟩
        · split <;> simp

theorem write_direct_rejects (T : Transport) (d : Driver) (reg val : Nat)
    (h : STPMIC_REG_MAX ≤ reg) : (stpmic_write_direct T d reg val).1 ≠ STPMIC_RET_OK := by
  unfold stpmic_write_direct
  split
  · simp
  · simp [h]

theorem read_direct_rejects (T : Transport) (d : Driver) (reg : Nat)
    (h : STPMIC_REG_MAX ≤ reg) : (stpmic_read_direct T d reg).1 ≠ STPMIC_RET_OK := by
  unfold stpmic_read_direct
  split
  · simp
  · simp [h]

theorem flush_access_rejects (T : Transport) (d : Driver) (r : stpmic_ret_t) (d1 : Driver) :
    flush_access T d (STPMIC_REG_LDOx_MAIN_CR + 4) = some (r, d1) → r ≠ STPMIC_RET_OK := by
  intro h
  unfold flush_access at h
  split at h
  · simp only [Option.some.injEq] at h
    have := write_direct_rejects T d (STPMIC_REG_LDOx_MAIN_CR + 4)
      (d.cache[STPMIC_REG_LDOx_MAIN_CR + 4] % 256) (by decide)
    rw [h] at this
    exact this
  · simp at h

theorem reload_access_rejects (T : Transport) (d : Driver) (r : stpmic_ret_t) (d1 : Driver) :
    reload_access T d (STPMIC_REG_LDOx_MAIN_CR + 4) = some (r, d1) → r ≠ STPMIC_RET_OK := by
  intro h
  unfold reload_access at h
  simp only [Option.some.injEq, Prod.mk.injEq] at h
  have := read_direct_rejects T d (STPMIC_REG_LDOx_MAIN_CR + 4) (by decide)
  rw [h.1] at this
  exact this

theorem walk_range_total (access : Driver → Nat → Option (stpmic_ret_t × Driver))
    (L B : Nat)
    (hacc : ∀ d reg, d.cache.length = L → reg < B →
      ∃ r d1, access d reg = some (r, d1) ∧ d1.cache.length = L) :
    ∀ (n s : Nat) (w : Walk), w.drv.cache.length = L → s + n ≤ B →
      ∃ w1, walk_range access n s w = some w1 ∧ w1.drv.cache.length = L := by
  intro n
  induction n with
  | zero => intro s w hw _; exact ⟨w, rfl, hw⟩
  | succ n ih =>
    intro s w hw hs
    obtain ⟨r, d1, ha, hd1⟩ := hacc w.drv s hw (by omega)
    unfold walk_range
    simp only [ha]
    by_cases hr : r = STPMIC_RET_OK
    · simp only [hr, ne_eq, not_true_eq_false, if_false]
      exact ih (s + 1) _ hd1 (by omega)
    · simp only [ne_eq, hr, not_false_eq_true, if_true]
      exact ⟨_, rfl, hd1⟩

theorem flush_access_total (T : Transport) (L B : Nat) (hB : B ≤ L) (d : Driver) (reg : Nat)
    (hd : d.cache.length = L) (hreg : reg < B) :
    ∃ r d1, flush_access T d reg = some (r, d1) ∧ d1.cache.length = L := by
  have hreg1 : reg < d.cache.length := by omega
  refine ⟨(stpmic_write_direct T d reg (d.cache[reg] % 256)).1,
    (stpmic_write_direct T d reg (d.cache[reg] % 256)).2, ?_, ?_⟩
  · unfold flush_access
    simp [hreg1]
  · rw [(write_direct_frame T d reg _).1, hd]

theorem reload_access_total (T : Transport) (L B : Nat) (d : Driver) (reg : Nat)
    (hd : d.cache.length = L) (_hreg : reg < B) :
    ∃ r d1, reload_access T d reg = some (r, d1) ∧ d1.cache.length = L :=
  ⟨_, _, rfl, by rw [(read_direct_frame T d reg).1, hd]⟩

/-- Both loops over `STPMIC_REGMAP`, for an access that never leaves the
array while the cache keeps its `L` elements and that rejects register
`0x29`: the loops finish, the counters agree with the accesses made, the
accesses are one scan per range, and the latest access failed. -/
theorem walk_regmap_facts (access : Driver → Nat → Option (stpmic_ret_t × Driver)) (L : Nat)
    (hacc : ∀ d reg, d.cache.length = L → reg < STPMIC_REG_LDOx_MAIN_CR + 6 →
      ∃ r d1, access d reg = some (r, d1) ∧ d1.cache.length = L)
    (hbad : ∀ d r d1, access d (STPMIC_REG_LDOx_MAIN_CR + 4) = some (r, d1) →
      r ≠ STPMIC_RET_OK)
    (d : Driver) (hd : d.cache.length = L) :
    ∃ w, walk_map access STPMIC_REGMAP (walk_init d) = some w ∧ walk_inv w ∧
      regmap_scan w.calls ∧ w.ret ≠ STPMIC_RET_OK ∧ w.drv.cache.length = L := by
  have tot := walk_range_total access L (STPMIC_REG_LDOx_MAIN_CR + 6) hacc
  obtain ⟨w1, h1, l1⟩ := tot 6 1 (walk_init d) hd (by decide)
  obtain ⟨w2, h2, l2⟩ := tot 7 0x10 w1 l1 (by decide)
  obtain ⟨w3, h3, l3⟩ := tot 1 0x18 w2 l2 (by decide)
  obtain ⟨w4, h4, l4⟩ := tot 3 0x1a w3 l3 (by decide)
  obtain ⟨w5, h5, l5⟩ := tot 4 0x20 w4 l4 (by decide)
  obtain ⟨w6, h6, l6⟩ := tot 6 0x25 w5 l5 (by decide)
  refine ⟨w6, (walk_map_regmap access _ w6).mpr ⟨w1, w2, w3, w4, w5, h1, h2, h3, h4, h5, h6⟩,
    ?_, ?_, ?_, l6⟩
  · have i1 := walk_range_inv access _ _ _ _ (walk_init_inv d) h1
    have i2 := walk_range_inv access _ _ _ _ i1 h2
    have i3 := walk_range_inv access _ _ _ _ i2 h3
    have i4 := walk_range_inv access _ _ _ _ i3 h4
    have i5 := walk_range_inv access _ _ _ _ i4 h5
    exact walk_range_inv access _ _ _ _ i5 h6
  · obtain ⟨s1, c1, r1⟩ := walk_range_scan access 5 1 _ _ h1
    obtain ⟨s2, c2, r2⟩ := walk_range_scan access 6 0x10 _ _ h2
    obtain ⟨s3, c3, r3⟩ := walk_range_scan access 0 0x18 _ _ h3
    obtain ⟨s4, c4, r4⟩ := walk_range_scan access 2 0x1a _ _ h4
    obtain ⟨s5, c5, r5⟩ := walk_range_scan access 3 0x20 _ _ h5
    obtain ⟨s6, c6, r6⟩ := walk_range_scan access 5 0x25 _ _ h6
    refine ⟨s1, s2, s3, s4, s5, s6, ?_, r1, r2, r3, r4, r5, r6⟩
    rw [c6, c5, c4, c3, c2, c1]
    simp [walk_init]
  · exact walk_range_ends_failed access _ hbad 6 0x25 w5 w6 (by decide) (by decide) h6

theorem flush_walk_facts (T : Transport) (d : Driver)
    (hlen : STPMIC_REG_LDOx_MAIN_CR + 6 ≤ d.cache.length) :
    ∃ w, batch_flush_walk T d = some w ∧ walk_inv w ∧ regmap_scan w.calls ∧
      w.ret ≠ STPMIC_RET_OK ∧ w.drv.cache.length = d.cache.length :=
  walk_regmap_facts (flush_access T) d.cache.length
    (fun d1 reg h1 h2 => flush_access_total T _ _ hlen d1 reg h1 h2)
    (flush_access_rejects T) d rfl

theorem reload_walk_facts (T : Transport) (d : Driver) :
    ∃ w, reload_cache_walk T d = some w ∧ walk_inv w ∧ regmap_scan w.calls ∧
      w.ret ≠ STPMIC_RET_OK ∧ w.drv.cache.length = d.cache.length :=
  walk_regmap_facts (reload_access T) d.cache.length
    (fun d1 reg h1 h2 => reload_access_total T _ _ d1 reg h1 h2)
    (reload_access_rejects T) d rfl

theorem walk_failed (w : Walk) (hinv : walk_inv w) (hscan : regmap_scan w.calls)
    (hret : w.ret ≠ STPMIC_RET_OK) :
    w.success < w.total ∧ last_failure w.calls w.ret := by
  obtain ⟨s1, s2, s3, s4, s5, s6, hcalls, _, _, _, _, _, k, r, hs6, _, _⟩ := hscan
  obtain ⟨htot, hsuc, hlast⟩ := hinv
  rw [hs6, ← List.append_assoc] at hcalls
  have hr : r = w.ret := by
    have := hlast (STPMIC_REG_LDOx_MAIN_CR + k, r) (by rw [hcalls]; simp)
    exact this
  constructor
  · rw [htot, hsuc, hcalls]
    simp only [List.countP_append, List.length_append, List.length_singleton,
      List.countP_singleton, hr, hret, decide_False]
    have := @List.countP_le_length _ (fun c : Nat × stpmic_ret_t => decide (c.2 = STPMIC_RET_OK))
      (s1 ++ s2 ++ s3 ++ s4 ++ s5 ++
        List.map (fun reg => (reg, STPMIC_RET_OK)) (List.range' STPMIC_REG_LDOx_MAIN_CR k))
    simp only [List.countP_append, List.length_append] at this
    simp only [Bool.false_eq_true, if_false]
    omega
  · exact ⟨_, _, [], hcalls, by rw [hr]; exact hret, by simp, hr.symm⟩

theorem walk_failed_result (w : Walk) (hinv : walk_inv w) (hscan : regmap_scan w.calls)
    (hret : w.ret ≠ STPMIC_RET_OK) :
    walk_result w = (w.ret, w.drv) ∧ result_rule w w.ret := by
  obtain ⟨hlt, hlf⟩ := walk_failed w hinv hscan hret
  refine ⟨?_, fun h => absurd h hret, fun _ => hlf⟩
  unfold walk_result
  simp [Nat.not_le.mpr hlt]

/-! ## Flush and reload: result rule and loop shape -/

/-- C8. Flush/reload result rule: on an attached device, for every transport
behaviour, `stpmic_batch_flush` (when the cache array holds every register of
the descriptor) and `stpmic_reload_cache` return the outcome of their loops,
whose counters agree with the accesses made; they return success only if the
attempted count is at most the succeeded count and every attempted access
succeeded, and when an attempted access failed the value returned is the
error of the last failed access. -/
theorem flush_reload_result_rule (T : Transport) (d : Driver)
    (hst : STPMIC_DRV_INIT ≤ d.state) :
    (STPMIC_REG_LDOx_MAIN_CR + 6 ≤ STPMIC_REG_CACHE_MAX d →
      ∃ w r, batch_flush_walk T d = some w ∧ stpmic_batch_flush T d = some (r, w.drv) ∧
        walk_inv w ∧ result_rule w r) ∧
    (∃ w r, reload_cache_walk T d = some w ∧ stpmic_reload_cache T d = some (r, w.drv) ∧
        walk_inv w ∧ result_rule w r) := by
  have hst1 : ¬ d.state < STPMIC_DRV_INIT := Nat.not_lt.mpr hst
  constructor
  · intro hlen
    obtain ⟨w, hw, hinv, hscan, hret, _⟩ := flush_walk_facts T d hlen
    obtain ⟨hres, hrule⟩ := walk_failed_result w hinv hscan hret
    refine ⟨w, w.ret, hw, ?_, hinv, hrule⟩
    unfold stpmic_batch_flush
    simp [hst1, hw, hres]
  · obtain ⟨w, hw, hinv, hscan, hret, _⟩ := reload_walk_facts T d
    obtain ⟨hres, hrule⟩ := walk_failed_result w hinv hscan hret
    refine ⟨w, w.ret, hw, ?_, hinv, hrule⟩
    unfold stpmic_reload_cache
    simp [hst1, hw, hres]

theorem flush_reload_result_rule_witness :
    (∃ w r, batch_flush_walk (transport_const 0) (attached 0x2b 0) = some w ∧
        stpmic_batch_flush (transport_const 0) (attached 0x2b 0) = some (r, w.drv) ∧
        walk_inv w ∧ result_rule w r) ∧
    (∃ w r, reload_cache_walk (transport_const 0) (attached 0x2b 0) = some w ∧
        stpmic_reload_cache (transport_const 0) (attached 0x2b 0) = some (r, w.drv) ∧
        walk_inv w ∧ result_rule w r) :=
  ⟨(flush_reload_result_rule (transport_const 0) (attached 0x2b 0) (by decide)).1
      (by decide),
    (flush_reload_result_rule (transport_const 0) (attached 0x2b 0) (by decide)).2⟩

/-- C9. Inner-stop / outer-continue: on an attached device, for every transport
behaviour, the register accesses made by `stpmic_batch_flush` (when the cache
array holds every register of the descriptor) and by `stpmic_reload_cache`
are one scan per range of `STPMIC_REGMAP`, in table order: each scan starts at
the first register of its range, goes on through consecutive registers while
the accesses succeed, and ends with the first failed access or with the last
register of the range. -/
theorem inner_stop_outer_continue (T : Transport) (d : Driver)
    (hst : STPMIC_DRV_INIT ≤ d.state) :
    (STPMIC_REG_LDOx_MAIN_CR + 6 ≤ STPMIC_REG_CACHE_MAX d →
      ∃ w, batch_flush_walk T d = some w ∧
        stpmic_batch_flush T d = some (walk_result w) ∧ regmap_scan w.calls) ∧
    (∃ w, reload_cache_walk T d = some w ∧
        stpmic_reload_cache T d = some (walk_result w) ∧ regmap_scan w.calls) := by
  have hst1 : ¬ d.state < STPMIC_DRV_INIT := Nat.not_lt.mpr hst
  constructor
  · intro hlen
    obtain ⟨w, hw, _, hscan, _, _⟩ := flush_walk_facts T d hlen
    refine ⟨w, hw, ?_, hscan⟩
    unfold stpmic_batch_flush
    simp [hst1, hw]
  · obtain ⟨w, hw, _, hscan, _, _⟩ := reload_walk_facts T d
    refine ⟨w, hw, ?_, hscan⟩
    unfold stpmic_reload_cache
    simp [hst1, hw]

theorem inner_stop_outer_continue_witness :
    (∃ w, batch_flush_walk (transport_const 0) (attached 0x2b 0) = some w ∧
        stpmic_batch_flush (transport_const 0) (attached 0x2b 0) = some (walk_result w) ∧
        regmap_scan w.calls) ∧
    (∃ w, reload_cache_walk (transport_const 0) (attached 0x2b 0) = some w ∧
        stpmic_reload_cache (transport_const 0) (attached 0x2b 0) = some (walk_result w) ∧
        regmap_scan w.calls) :=
  ⟨(inner_stop_outer_continue (transport_const 0) (attached 0x2b 0) (by decide)).1
      (by decide),
    (inner_stop_outer_continue (transport_const 0) (attached 0x2b 0) (by decide)).2⟩

/-! ## Bring-up -/

/-- C10. Init fails on an incomplete reload: with a peripheral handle, an
address not above `0x7f` and the driver not initialised, when the read of
`VERSION_SR` succeeds with the supported major version in its upper nibble and
at least one register access of the cache reload that follows fails,
`stpmic_init` returns `STPMIC_RET_UNKNOWN` and leaves the state at
`STPMIC_DRV_NOT_INIT`. -/
theorem init_fails_on_incomplete_reload (T : Transport) (d : Driver) (dev : Option Nat)
    (addr : Int) (b : Nat) (d2 : Driver)
    (hdev : dev ≠ none) (haddr : addr ≤ 0x7f) (hst : d.state = STPMIC_DRV_NOT_INIT)
    (hver : stpmic_read_direct T
        { d with
          dev := dev, addr := if addr < 0 then STPMIC1_DEF_ADDR else addr,
          state := STPMIC_DRV_INIT }
        STPMIC_REG_VERSION_SR = (STPMIC_RET_OK, some b, d2))
    (hmaj : b &&& 0xf0 = STPMIC1_MAJOR_VER <<< 4)
    (hfail : ∃ w, reload_cache_walk T d2 = some w ∧ ∃ c ∈ w.calls, c.2 ≠ STPMIC_RET_OK) :
    ∃ d3, stpmic_init T d dev addr = some (STPMIC_RET_UNKNOWN, d3) ∧
      d3.state = STPMIC_DRV_NOT_INIT := by
  obtain ⟨w, hw, _⟩ := hfail
  obtain ⟨w1, hw1, hinv, hscan, hret, _⟩ := reload_walk_facts T d2
  rw [hw] at hw1
  cases hw1
  obtain ⟨hres, _⟩ := walk_failed_result w hinv hscan hret
  have hst2 : d2.state = STPMIC_DRV_INIT := by
    have := (read_direct_frame T
      { d with
        dev := dev, addr := if addr < 0 then STPMIC1_DEF_ADDR else addr,
        state := STPMIC_DRV_INIT } STPMIC_REG_VERSION_SR).2
    rw [hver] at this
    exact this
  have hrel : stpmic_reload_cache T d2 = some (w.ret, w.drv) := by
    unfold stpmic_reload_cache
    simp [hst2, hw, hres, STPMIC_DRV_INIT]
  refine ⟨{ w.drv with state := STPMIC_DRV_NOT_INIT }, ?_, rfl⟩
  unfold stpmic_init
  simp [hdev, Int.not_lt.mpr haddr, hst, hver, hmaj, hrel, hret]

theorem init_fails_on_incomplete_reload_witness :
    ∃ d3, stpmic_init (transport_const 0x21) (STPMIC1 0x2b) (some 1) (-1)
        = some (STPMIC_RET_UNKNOWN, d3) ∧ d3.state = STPMIC_DRV_NOT_INIT :=
  init_fails_on_incomplete_reload (transport_const 0x21) (STPMIC1 0x2b) (some 1) (-1) 0x21
    (stpmic_read_direct (transport_const 0x21)
      { STPMIC1 0x2b with dev := some 1, addr := 0x33, state := STPMIC_DRV_INIT }
      STPMIC_REG_VERSION_SR).2.2
    (by decide) (by decide) (by decide) (by decide) (by decide)
    ⟨(reload_cache_walk (transport_const 0x21)
        (stpmic_read_direct (transport_const 0x21)
          { STPMIC1 0x2b with dev := some 1, addr := 0x33, state := STPMIC_DRV_INIT }
          STPMIC_REG_VERSION_SR).2.2).get (by decide),
      by simp,
      (STPMIC_REG_LDOx_MAIN_CR + 4, STPMIC_RET_INVALID), by decide, by decide⟩

/-! ## Flush on a transport that always succeeds -/

theorem write_direct_ok (T : Transport)
    (hT : ∀ past t, T.HAL_I2C_Master_Transmit past t = true) (d : Driver) (reg val : Nat)
    (hst : STPMIC_DRV_INIT ≤ d.state) (hid : reg < STPMIC_REG_MAX)
    (hc : reg < d.cache.length) :
    stpmic_write_direct T d reg val = (STPMIC_RET_OK,
      { d with
        bus := d.bus ++ [Txn.transmit d.dev (bus_addr d.addr 0) [reg, val] d.timeout_w],
        cache := d.cache.set reg val }) := by
  have hid256 : reg % 256 = reg := Nat.mod_eq_of_lt (by
    have : STPMIC_REG_MAX = 0x29 := rfl
    omega)
  unfold stpmic_write_direct
  simp [Nat.not_lt.mpr hst, Nat.not_le.mpr hid, hT, hc, hid256]

theorem write_direct_invalid (T : Transport) (d : Driver) (reg val : Nat)
    (hst : STPMIC_DRV_INIT ≤ d.state) (hid : STPMIC_REG_MAX ≤ reg) :
    stpmic_write_direct T d reg val = (STPMIC_RET_INVALID, d) := by
  unfold stpmic_write_direct
  simp [Nat.not_lt.mpr hst, hid]

/-- The inner loop of flush on a transport whose transmissions all succeed,
over `n` valid registers followed by `m` more: either `m = 0`, or the next
register is `STPMIC_REG_MAX`, which is rejected. -/
theorem flush_range_ok (T : Transport)
    (hT : ∀ past t, T.HAL_I2C_Master_Transmit past t = true) (m : Nat) :
    ∀ (n s : Nat) (w : Walk), STPMIC_DRV_INIT ≤ w.drv.state →
      s + n ≤ STPMIC_REG_MAX → s + n + m ≤ w.drv.cache.length →
      (m = 0 ∨ s + n = STPMIC_REG_MAX) →
      ∃ w1, walk_range (flush_access T) (n + m) s w = some w1 ∧
        w1.drv.bus = w.drv.bus ++ (List.range' s n).map (flush_packet w.drv) ∧
        w1.drv.dev = w.drv.dev ∧ w1.drv.addr = w.drv.addr ∧
        w1.drv.timeout_w = w.drv.timeout_w ∧ w1.drv.state = w.drv.state ∧
        w1.drv.cache.length = w.drv.cache.length ∧
        (∀ j, s + n ≤ j → w1.drv.cache[j]? = w.drv.cache[j]?) := by
  intro n
  induction n with
  | zero =>
    intro s w hst hs hlen hm
    cases m with
    | zero => exact ⟨w, rfl, by simp, rfl, rfl, rfl, rfl, rfl, fun _ _ => rfl⟩
    | succ m =>
      have hs1 : s = STPMIC_REG_MAX := by
        rcases hm with h | h
        · omega
        · simpa using h
      have hc : s < w.drv.cache.length := by omega
      refine ⟨{ ret := STPMIC_RET_INVALID, total := w.total + 1, success := w.success,
                drv := w.drv, calls := w.calls ++ [(s, STPMIC_RET_INVALID)] },
        ?_, by simp, rfl, rfl, rfl, rfl, rfl, fun _ _ => rfl⟩
      rw [Nat.zero_add]
      unfold walk_range flush_access
      simp only [cache_max_eq, hc, dite_true,
        write_direct_invalid T w.drv s _ hst (Nat.le_of_eq hs1.symm)]
      simp
  | succ n ih =>
    intro s w hst hs hlen hm
    have hc : s < w.drv.cache.length := by omega
    have hid : s < STPMIC_REG_MAX := by omega
    have hstep := write_direct_ok T hT w.drv s (w.drv.cache[s] % 256) hst hid hc
    obtain ⟨d1, hd1⟩ : ∃ d1, d1 = (stpmic_write_direct T w.drv s (w.drv.cache[s] % 256)).2 :=
      ⟨_, rfl⟩
    have hacc : flush_access T w.drv s = some (STPMIC_RET_OK, d1) := by
      unfold flush_access
      simp only [cache_max_eq, hc, dite_true, hd1, hstep]
    rw [hstep] at hd1
    have e1 : d1.bus = w.drv.bus ++ [flush_packet w.drv s] := by
      rw [hd1]; simp [flush_packet, List.getElem?_eq_getElem hc]
    have e2 : d1.cache = w.drv.cache.set s (w.drv.cache[s] % 256) := by rw [hd1]
    have e3 : d1.dev = w.drv.dev := by rw [hd1]
    have e4 : d1.addr = w.drv.addr := by rw [hd1]
    have e5 : d1.timeout_w = w.drv.timeout_w := by rw [hd1]
    have e6 : d1.state = w.drv.state := by rw [hd1]
    clear hd1 hstep
    obtain ⟨w1, h1, hbus, hdev, haddr, hto, hstate, hlen1, hlater⟩ :=
      ih (s + 1)
        { ret := STPMIC_RET_OK, total := w.total + 1, success := w.success + 1,
          drv := d1, calls := w.calls ++ [(s, STPMIC_RET_OK)] }
        (by simpa [e6] using hst) (by omega) (by simp only [e2, List.length_set]; omega)
        (by rcases hm with h | h
            · exact Or.inl h
            · exact Or.inr (by omega))
    simp only at hbus hdev haddr hto hstate hlen1 hlater
    refine ⟨w1, ?_, ?_, ?_, ?_, ?_, ?_, ?_, ?_⟩
    · rw [show n + 1 + m = (n + m) + 1 by omega]
      unfold walk_range
      simp only [hacc, ne_eq, not_true_eq_false, if_false]
      exact h1
    · rw [hbus, e1, List.range'_succ]
      simp only [List.map_cons, List.append_assoc, List.singleton_append]
      congr 2
      apply List.map_congr_left
      intro r hr
      have hr1 : s ≠ r := by
        have := (List.mem_range'_1.mp hr).1
        omega
      simp [flush_packet, e2, e3, e4, e5, List.getElem?_set_ne hr1]
    · rw [hdev, e3]
    · rw [haddr, e4]
    · rw [hto, e5]
    · rw [hstate, e6]
    · rw [hlen1, e2]; simp
    · intro j hj
      rw [hlater j (by omega), e2]
      simp [List.getElem?_set_ne (show s ≠ j by omega)]

theorem flush_range_sync (T : Transport)
    (hT : ∀ past t, T.HAL_I2C_Master_Transmit past t = true) (m n s : Nat)
    (d : Driver) (w : Walk) (regs : List Nat)
    (hst : STPMIC_DRV_INIT ≤ d.state) (hs : s + n ≤ STPMIC_REG_MAX)
    (hlen : s + n + m ≤ d.cache.length) (hm : m = 0 ∨ s + n = STPMIC_REG_MAX)
    (hw : flush_sync d w s regs) :
    ∃ w1, walk_range (flush_access T) (n + m) s w = some w1 ∧
      flush_sync d w1 (s + n) (regs ++ List.range' s n) := by
  obtain ⟨b0, dev0, addr0, to0, st0, len0, c0⟩ := hw
  obtain ⟨w1, h1, hbus, hdev, haddr, hto, hstate, hlen1, hlater⟩ :=
    flush_range_ok T hT m n s w (by rw [st0]; exact hst) hs (by rw [len0]; exact hlen) hm
  refine ⟨w1, h1, ?_, hdev.trans dev0, haddr.trans addr0, hto.trans to0,
    hstate.trans st0, hlen1.trans len0, fun j hj => (hlater j hj).trans (c0 j (by omega))⟩
  rw [hbus, b0, List.map_append, List.append_assoc]
  congr 2
  apply List.map_congr_left
  intro r hr
  have hr1 : s ≤ r := (List.mem_range'_1.mp hr).1
  simp [flush_packet, dev0, addr0, to0, c0 r hr1]

/-- On an attached device whose cache array holds every register of the
descriptor and whose transport always succeeds, flush sends one packet for
each valid register of the descriptor, in table order, with the value byte of
its cache slot, and nothing else. -/
theorem flush_all_ok (T : Transport)
    (hT : ∀ past t, T.HAL_I2C_Master_Transmit past t = true) (d : Driver)
    (hst : STPMIC_DRV_INIT ≤ d.state)
    (hlen : STPMIC_REG_LDOx_MAIN_CR + 6 ≤ d.cache.length) :
    ∃ w, batch_flush_walk T d = some w ∧
      w.drv.bus = d.bus ++ regmap_valid.map (flush_packet d) := by
  have hlen1 : 0x2b ≤ d.cache.length := hlen
  have h0 : flush_sync d (walk_init d) 1 [] :=
    ⟨by simp [walk_init], rfl, rfl, rfl, rfl, rfl, fun _ _ => rfl⟩
  obtain ⟨w1, h1, s1⟩ := flush_range_sync T hT 0 6 1 d _ _ hst (by decide) (by omega)
    (Or.inl rfl) h0
  obtain ⟨w2, h2, s2⟩ := flush_range_sync T hT 0 7 0x10 d w1 _ hst (by decide) (by omega)
    (Or.inl rfl) ⟨s1.1, s1.2.1, s1.2.2.1, s1.2.2.2.1, s1.2.2.2.2.1, s1.2.2.2.2.2.1,
      fun j hj => s1.2.2.2.2.2.2 j (by omega)⟩
  obtain ⟨w3, h3, s3⟩ := flush_range_sync T hT 0 1 0x18 d w2 _ hst (by decide) (by omega)
    (Or.inl rfl) ⟨s2.1, s2.2.1, s2.2.2.1, s2.2.2.2.1, s2.2.2.2.2.1, s2.2.2.2.2.2.1,
      fun j hj => s2.2.2.2.2.2.2 j (by omega)⟩
  obtain ⟨w4, h4, s4⟩ := flush_range_sync T hT 0 3 0x1a d w3 _ hst (by decide) (by omega)
    (Or.inl rfl) ⟨s3.1, s3.2.1, s3.2.2.1, s3.2.2.2.1, s3.2.2.2.2.1, s3.2.2.2.2.2.1,
      fun j hj => s3.2.2.2.2.2.2 j (by omega)⟩
  obtain ⟨w5, h5, s5⟩ := flush_range_sync T hT 0 4 0x20 d w4 _ hst (by decide) (by omega)
    (Or.inl rfl) ⟨s4.1, s4.2.1, s4.2.2.1, s4.2.2.2.1, s4.2.2.2.2.1, s4.2.2.2.2.2.1,
      fun j hj => s4.2.2.2.2.2.2 j (by omega)⟩
  obtain ⟨w6, h6, s6⟩ := flush_range_sync T hT 2 4 0x25 d w5 _ hst (by decide) (by omega)
    (Or.inr (by decide)) ⟨s5.1, s5.2.1, s5.2.2.1, s5.2.2.2.1, s5.2.2.2.2.1, s5.2.2.2.2.2.1,
      fun j hj => s5.2.2.2.2.2.2 j (by omega)⟩
  refine ⟨w6, (walk_map_regmap _ _ w6).mpr ⟨w1, w2, w3, w4, w5, h1, h2, h3, h4, h5, h6⟩, ?_⟩
  rw [s6.1]
  rfl

theorem walk_result_drv (w : Walk) : (walk_result w).2 = w.drv := by
  unfold walk_result
  split <;> rfl

/-! ## Flush: what reaches the bus -/

/-- C5, at the failing input: on an attached device with a transport that always
succeeds, staging `0x5a` for `MAIN_CR` and flushing sends the packet
`[0x10, 0x5a]` and leaves the slot holding `0x5a` with the mismatch flag clear,
but the flush returns `STPMIC_RET_INVALID`; and for `LDO5_MAIN_CR` (`0x29`),
which the descriptor covers, `stpmic_batch_write` itself returns
`STPMIC_RET_INVALID` and stages nothing. -/
theorem staged_write_flush_returns_invalid :
    ((stpmic_batch_write (attached 0x2b 0) STPMIC_REG_MAIN_CR 0x5a).bind
        (fun r => stpmic_batch_flush (transport_const 0) r.2)).map
        (fun r => (r.1, r.2.cache[STPMIC_REG_MAIN_CR]?,
          r.2.bus.filter (writes_to STPMIC_REG_MAIN_CR)))
      = some (STPMIC_RET_INVALID, some 0x5a, [Txn.transmit (some 1) 0x66 [0x10, 0x5a] 100]) ∧
    STPMIC_REG_LDOx_MAIN_CR + 4 ∈ regmap_covered STPMIC_REGMAP ∧
    stpmic_batch_write (attached 0x2b 0) (STPMIC_REG_LDOx_MAIN_CR + 4) 0x5a
      = some (STPMIC_RET_INVALID, attached 0x2b 0) := by
  decide

/-- C6, at the failing input: on an attached device with a transport that always
succeeds, flush makes 26 direct write calls, for the registers `0x01` to
`0x29` of the descriptor in table order, of which the last is rejected, and
none for `0x2a`; 25 packets reach the bus and the flush returns
`STPMIC_RET_INVALID`, while the descriptor covers 27 registers. -/
theorem flush_stops_at_reg_max :
    (batch_flush_walk (transport_const 0) (attached 0x2b 0)).map
        (fun w => (w.total, w.success, w.calls))
      = some (26, 25,
          (regmap_valid.map (fun reg => (reg, STPMIC_RET_OK)))
            ++ [(STPMIC_REG_LDOx_MAIN_CR + 4, STPMIC_RET_INVALID)]) ∧
    (stpmic_batch_flush (transport_const 0) (attached 0x2b 0)).map
        (fun r => (r.1, r.2.bus.length)) = some (STPMIC_RET_INVALID, 25) ∧
    (regmap_covered STPMIC_REGMAP).length = 27 ∧
    regmap_covered STPMIC_REGMAP
      = regmap_valid ++ [STPMIC_REG_LDOx_MAIN_CR + 4, STPMIC_REG_LDOx_MAIN_CR + 5] := by
  decide

/-- C7, as stated, fails: on an attached device where no cache slot is dirty,
with a transport that always succeeds, flush still writes `MAIN_CR`, a
register inside a descriptor range, to the bus with its cached value. -/
theorem flush_writes_clean_register :
    (∀ c ∈ (attached 0x2b 0x5a).cache, c &&& STPMIC_CACHE_MISMATCH = 0) ∧
    (stpmic_batch_flush (transport_const 0) (attached 0x2b 0x5a)).map
        (fun r => r.2.bus.filter (writes_to STPMIC_REG_MAIN_CR))
      = some [Txn.transmit (some 1) 0x66 [0x10, 0x5a] 100] := by
  decide

/-- C7, amended. Flush writes every register of the descriptor it reaches, dirty
or not: on an attached device whose cache array holds every register of the
descriptor, when every transport call succeeds, for each valid register ID
`id` inside a descriptor range, whatever its slot `c` holds (mismatch flag set
or clear), the transactions sent by `stpmic_batch_flush` contain exactly one
write packet for `id`, and it carries the value byte of the slot. -/
theorem flush_writes_every_register (T : Transport)
    (hT : ∀ past t, T.HAL_I2C_Master_Transmit past t = true) (d : Driver) (id c : Nat)
    (hst : STPMIC_DRV_INIT ≤ d.state)
    (hlen : STPMIC_REG_LDOx_MAIN_CR + 6 ≤ STPMIC_REG_CACHE_MAX d)
    (hid : id ∈ regmap_covered STPMIC_REGMAP) (hmax : id < STPMIC_REG_MAX)
    (hslot : d.cache[id]? = some c) :
    ∃ r d1 sent, stpmic_batch_flush T d = some (r, d1) ∧ d1.bus = d.bus ++ sent ∧
      sent.filter (writes_to id)
        = [Txn.transmit d.dev (bus_addr d.addr 0) [id, c % 256] d.timeout_w] := by
  obtain ⟨w, hw, hbus⟩ := flush_all_ok T hT d hst hlen
  refine ⟨(walk_result w).1, (walk_result w).2, regmap_valid.map (flush_packet d), ?_, ?_, ?_⟩
  · unfold stpmic_batch_flush
    simp [Nat.not_lt.mpr hst, hw]
  · rw [walk_result_drv, hbus]
  · have hmem : id ∈ regmap_valid := by
      unfold regmap_valid
      exact List.mem_filter.mpr ⟨hid, by simpa using hmax⟩
    have hnd : regmap_valid.Nodup := by decide
    have hcomp : (writes_to id ∘ flush_packet d) = (fun r => decide (r = id)) := by
      funext r
      simp only [Function.comp, writes_to, flush_packet]
      by_cases h : r = id <;> simp [h]
    rw [List.filter_map, hcomp, List.filter_eq, List.count_eq_one_of_mem hnd hmem]
    simp [flush_packet, hslot]

theorem flush_writes_every_register_witness :
    ∃ r d1 sent, stpmic_batch_flush (transport_const 0) (attached 0x2b 0x5a) = some (r, d1) ∧
      d1.bus = (attached 0x2b 0x5a).bus ++ sent ∧
      sent.filter (writes_to STPMIC_REG_MAIN_CR)
        = [Txn.transmit (attached 0x2b 0x5a).dev (bus_addr (attached 0x2b 0x5a).addr 0)
            [STPMIC_REG_MAIN_CR, 0x5a % 256] (attached 0x2b 0x5a).timeout_w] :=
  flush_writes_every_register (transport_const 0) (fun _ _ => rfl) (attached 0x2b 0x5a)
    STPMIC_REG_MAIN_CR 0x5a (by decide) (by decide) (by decide) (by decide) (by decide)

/-! ## Bring-up: rejection, outcome, version gate -/

/-- C14. Init argument and state rejection: `stpmic_init` returns
`STPMIC_RET_INVALID` when the peripheral handle is absent or the address is
greater than `0x7f`, and otherwise `STPMIC_RET_ALREADY` when the state is not
`STPMIC_DRV_NOT_INIT`; in both cases the driver state (state, address, handle,
cache, timeouts) and the bus history are unchanged. -/
theorem init_rejection (T : Transport) (d : Driver) (dev : Option Nat) (addr : Int) :
    (dev = none ∨ addr > 0x7f → stpmic_init T d dev addr = some (STPMIC_RET_INVALID, d)) ∧
    (¬ (dev = none ∨ addr > 0x7f) → d.state ≠ STPMIC_DRV_NOT_INIT →
      stpmic_init T d dev addr = some (STPMIC_RET_ALREADY, d)) := by
  constructor
  · intro h
    unfold stpmic_init
    simp only [h, if_true]
  · intro h hs
    unfold stpmic_init
    simp only [h, if_false, hs, ne_eq, not_false_eq_true, if_true]

theorem init_rejection_witness :
    stpmic_init (transport_const 0x21) (STPMIC1 0x2b) none 0x33
        = some (STPMIC_RET_INVALID, STPMIC1 0x2b) ∧
    stpmic_init (transport_const 0x21) (STPMIC1 0x2b) (some 1) 0x80
        = some (STPMIC_RET_INVALID, STPMIC1 0x2b) ∧
    stpmic_init (transport_const 0x21) (attached 0x2b 0) (some 1) 0x33
        = some (STPMIC_RET_ALREADY, attached 0x2b 0) :=
  ⟨(init_rejection (transport_const 0x21) (STPMIC1 0x2b) none 0x33).1 (by decide),
   (init_rejection (transport_const 0x21) (STPMIC1 0x2b) (some 1) 0x80).1 (by decide),
   (init_rejection (transport_const 0x21) (attached 0x2b 0) (some 1) 0x33).2
     (by decide) (by decide)⟩

/-! ## State and register-ID gating -/

/-- C15. NoDevice gating: in state `STPMIC_DRV_NOT_INIT` each of
`stpmic_read_direct`, `stpmic_write_direct`, `stpmic_read`, `stpmic_write`,
`stpmic_clear_cache`, `stpmic_batch_write`, `stpmic_batch_flush` and
`stpmic_reload_cache` returns `STPMIC_RET_NODEV` for every argument, stores no
output, and leaves the driver state, cache and bus history included,
unchanged. -/
theorem nodev_gating (T : Transport) (d : Driver) (reg val : Nat)
    (hst : d.state = STPMIC_DRV_NOT_INIT) :
    stpmic_read_direct T d reg = (STPMIC_RET_NODEV, none, d) ∧
    stpmic_write_direct T d reg val = (STPMIC_RET_NODEV, d) ∧
    stpmic_read T d reg = (STPMIC_RET_NODEV, none, d) ∧
    stpmic_write T d reg val = (STPMIC_RET_NODEV, d) ∧
    stpmic_clear_cache d reg = some (STPMIC_RET_NODEV, d) ∧
    stpmic_batch_write d reg val = some (STPMIC_RET_NODEV, d) ∧
    stpmic_batch_flush T d = some (STPMIC_RET_NODEV, d) ∧
    stpmic_reload_cache T d = some (STPMIC_RET_NODEV, d) := by
  have h : d.state < STPMIC_DRV_INIT := by rw [hst]; decide
  refine ⟨?_, ?_, ?_, ?_, ?_, ?_, ?_, ?_⟩
  · unfold stpmic_read_direct; simp only [h, if_true]
  · unfold stpmic_write_direct; simp only [h, if_true]
  · unfold stpmic_read; simp only [h, if_true]
  · unfold stpmic_write; simp only [h, if_true]
  · unfold stpmic_clear_cache; simp only [h, if_true]
  · unfold stpmic_batch_write; simp only [h, if_true]
  · unfold stpmic_batch_flush; simp only [h, if_true]
  · unfold stpmic_reload_cache; simp only [h, if_true]

theorem nodev_gating_witness :
    stpmic_read_direct (transport_const 0) (STPMIC1 0x2b) 0x40
        = (STPMIC_RET_NODEV, none, STPMIC1 0x2b) ∧
    stpmic_write_direct (transport_const 0) (STPMIC1 0x2b) 0x40 0x5a
        = (STPMIC_RET_NODEV, STPMIC1 0x2b) ∧
    stpmic_read (transport_const 0) (STPMIC1 0x2b) 0x40
        = (STPMIC_RET_NODEV, none, STPMIC1 0x2b) ∧
    stpmic_write (transport_const 0) (STPMIC1 0x2b) 0x40 0x5a
        = (STPMIC_RET_NODEV, STPMIC1 0x2b) ∧
    stpmic_clear_cache (STPMIC1 0x2b) 0x40 = some (STPMIC_RET_NODEV, STPMIC1 0x2b) ∧
    stpmic_batch_write (STPMIC1 0x2b) 0x40 0x5a = some (STPMIC_RET_NODEV, STPMIC1 0x2b) ∧
    stpmic_batch_flush (transport_const 0) (STPMIC1 0x2b)
        = some (STPMIC_RET_NODEV, STPMIC1 0x2b) ∧
    stpmic_reload_cache (transport_const 0) (STPMIC1 0x2b)
        = some (STPMIC_RET_NODEV, STPMIC1 0x2b) :=
  nodev_gating (transport_const 0) (STPMIC1 0x2b) 0x40 0x5a (by decide)

/-! ## Bring-up never completes -/

theorem reload_not_ok (T : Transport) (d : Driver) :
    ∃ r d1, stpmic_reload_cache T d = some (r, d1) ∧ r ≠ STPMIC_RET_OK := by
  unfold stpmic_reload_cache
  by_cases h : d.state < STPMIC_DRV_INIT
  · exact ⟨STPMIC_RET_NODEV, d, by simp only [h, if_true], by decide⟩
  · obtain ⟨w, hw, hinv, hscan, hret, _⟩ := reload_walk_facts T d
    obtain ⟨hres, _⟩ := walk_failed_result w hinv hscan hret
    exact ⟨w.ret, w.drv, by simp only [h, if_false, hw, hres], hret⟩

theorem init_not_ok (T : Transport) (d : Driver) (dev : Option Nat) (addr : Int) :
    ∃ r d1, stpmic_init T d dev addr = some (r, d1) ∧ r ≠ STPMIC_RET_OK ∧
      (d.state = STPMIC_DRV_NOT_INIT → d1.state = STPMIC_DRV_NOT_INIT) := by
  unfold stpmic_init
  by_cases hinv : dev = none ∨ addr > 0x7f
  · exact ⟨STPMIC_RET_INVALID, d, by simp only [hinv, if_true], by decide, fun h => h⟩
  by_cases hs : d.state ≠ STPMIC_DRV_NOT_INIT
  · exact ⟨STPMIC_RET_ALREADY, d, by rw [if_neg hinv, if_pos hs], by decide, fun h => h⟩
  rw [if_neg hinv, if_neg hs]
  rcases hrd : stpmic_read_direct T
      { d with
        dev := dev, addr := if addr < 0 then STPMIC1_DEF_ADDR else addr,
        state := STPMIC_DRV_INIT } STPMIC_REG_VERSION_SR with ⟨ret, out, d2⟩
  simp only [hrd]
  by_cases hret : ret ≠ STPMIC_RET_OK
  · exact ⟨ret, _, by rw [if_pos hret], hret, fun _ => rfl⟩
  rw [if_neg hret]
  by_cases hver : out.getD 0 &&& 0xf0 ≠ STPMIC1_MAJOR_VER <<< 4
  · exact ⟨STPMIC_RET_NOTSUP, _, by rw [if_pos hver], by decide, fun _ => rfl⟩
  rw [if_neg hver]
  obtain ⟨r, d3, hrel, hr⟩ := reload_not_ok T d2
  exact ⟨STPMIC_RET_UNKNOWN, _, by simp only [hrel]; rw [if_pos hr], by decide, fun _ => rfl⟩

/-- C11. Init outcome: for every call of `stpmic_init` made in state
`STPMIC_DRV_NOT_INIT`, whatever the arguments and the transport do, the call
returns; it returns `STPMIC_RET_OK` if and only if the state afterwards is
`STPMIC_DRV_READY`, and whenever it fails the state afterwards is
`STPMIC_DRV_NOT_INIT`, never `STPMIC_DRV_INIT`. -/
theorem init_outcome (T : Transport) (d : Driver) (dev : Option Nat) (addr : Int)
    (hst : d.state = STPMIC_DRV_NOT_INIT) :
    ∃ r d1, stpmic_init T d dev addr = some (r, d1) ∧
      (r = STPMIC_RET_OK ↔ d1.state = STPMIC_DRV_READY) ∧
      (r ≠ STPMIC_RET_OK → d1.state = STPMIC_DRV_NOT_INIT ∧ d1.state ≠ STPMIC_DRV_INIT) := by
  obtain ⟨r, d1, h, hr, hs⟩ := init_not_ok T d dev addr
  have h1 := hs hst
  refine ⟨r, d1, h, ⟨fun h2 => absurd h2 hr, fun h2 => ?_⟩, fun _ => ⟨h1, ?_⟩⟩
  · rw [h1] at h2
    exact absurd h2 (by decide)
  · rw [h1]
    decide

theorem init_outcome_witness :
    ∃ r d1, stpmic_init (transport_const 0x11) (STPMIC1 0x2b) (some 1) (-1) = some (r, d1) ∧
      (r = STPMIC_RET_OK ↔ d1.state = STPMIC_DRV_READY) ∧
      (r ≠ STPMIC_RET_OK → d1.state = STPMIC_DRV_NOT_INIT ∧ d1.state ≠ STPMIC_DRV_INIT) :=
  init_outcome (transport_const 0x11) (STPMIC1 0x2b) (some 1) (-1) (by decide)

theorem init_version_gate (T : Transport) (d : Driver) (dev : Option Nat) (addr : Int)
    (b : Nat) (d2 : Driver)
    (hdev : dev ≠ none) (haddr : addr ≤ 0x7f) (hst : d.state = STPMIC_DRV_NOT_INIT)
    (hver : stpmic_read_direct T
        { d with
          dev := dev, addr := if addr < 0 then STPMIC1_DEF_ADDR else addr,
          state := STPMIC_DRV_INIT }
        STPMIC_REG_VERSION_SR = (STPMIC_RET_OK, some b, d2))
    (hmaj : b &&& 0xf0 ≠ STPMIC1_MAJOR_VER <<< 4) :
    stpmic_init T d dev addr
      = some (STPMIC_RET_NOTSUP, { d2 with state := STPMIC_DRV_NOT_INIT }) := by
  unfold stpmic_init
  simp [hdev, Int.not_lt.mpr haddr, hst, hver, hmaj]

/-- C12, at the failing input: on a chip whose `VERSION_SR` reads `0x11`,
`stpmic_init` returns `STPMIC_RET_NOTSUP` after the two transactions of the
version read, with no cache reload, and leaves the state at
`STPMIC_DRV_NOT_INIT`, as it does for every status byte whose upper nibble is
not 2; the second attempt, on a chip whose `VERSION_SR` reads `0x21` and whose
transport always succeeds, is not rejected with `STPMIC_RET_ALREADY`, but
returns `STPMIC_RET_UNKNOWN`: no call of `stpmic_init` returns success. -/
theorem version_gate_second_init_fails :
    (stpmic_init (transport_const 0x11) (STPMIC1 0x2b) (some 1) (-1)).map
        (fun r => (r.1, r.2.state, r.2.bus))
      = some (STPMIC_RET_NOTSUP, STPMIC_DRV_NOT_INIT,
          [Txn.transmit (some 1) 0x66 [0x06] 100, Txn.receive (some 1) 0x67 1 100]) ∧
    ((stpmic_init (transport_const 0x11) (STPMIC1 0x2b) (some 1) (-1)).bind
        (fun r => stpmic_init (transport_const 0x21) r.2 (some 1) (-1))).map
        (fun r => (r.1, r.2.state))
      = some (STPMIC_RET_UNKNOWN, STPMIC_DRV_NOT_INIT) ∧
    (∀ (T : Transport) (d : Driver) (dev : Option Nat) (addr : Int) (b : Nat) (d2 : Driver),
      dev ≠ none → addr ≤ 0x7f → d.state = STPMIC_DRV_NOT_INIT →
      stpmic_read_direct T
        { d with
          dev := dev, addr := if addr < 0 then STPMIC1_DEF_ADDR else addr,
          state := STPMIC_DRV_INIT }
        STPMIC_REG_VERSION_SR = (STPMIC_RET_OK, some b, d2) →
      b &&& 0xf0 ≠ STPMIC1_MAJOR_VER <<< 4 →
      stpmic_init T d dev addr
        = some (STPMIC_RET_NOTSUP, { d2 with state := STPMIC_DRV_NOT_INIT })) ∧
    (∀ (T : Transport) (d : Driver) (dev : Option Nat) (addr : Int),
      ∃ r d1, stpmic_init T d dev addr = some (r, d1) ∧ r ≠ STPMIC_RET_OK) :=
  ⟨by decide, by decide, init_version_gate,
    fun T d dev addr =>
      (init_not_ok T d dev addr).imp fun _ h => h.imp fun _ h1 => ⟨h1.1, h1.2.1⟩⟩

/-- C13, at the failing input: with a transport on which every transaction
succeeds and every register, `VERSION_SR` included, reads `0x21`,
`stpmic_init` with address `-1` uses the device address `0x33` but returns
`STPMIC_RET_UNKNOWN` and leaves the state at `STPMIC_DRV_NOT_INIT`: the reload
stops at register `0x29`, which `stpmic_read_direct` rejects.  The
`stpmic_version` call that follows returns `STPMIC_RET_NODEV` and no version. -/
theorem bring_up_returns_unknown :
    (stpmic_init (transport_const 0x21) (STPMIC1 0x2b) (some 1) (-1)).map
        (fun r => (r.1, r.2.state, r.2.addr, r.2.bus.take 2))
      = some (STPMIC_RET_UNKNOWN, STPMIC_DRV_NOT_INIT, 0x33,
          [Txn.transmit (some 1) 0x66 [0x06] 100, Txn.receive (some 1) 0x67 1 100]) ∧
    (stpmic_init (transport_const 0x21) (STPMIC1 0x2b) (some 1) (-1)).map
        (fun r => ((stpmic_version (transport_const 0x21) r.2).1,
          (stpmic_version (transport_const 0x21) r.2).2.1))
      = some (STPMIC_RET_NODEV, none) ∧
    (reload_cache_walk (transport_const 0x21) (attached 0x2b 0)).map
        (fun w => (w.total, w.success, w.calls.getLast?))
      = some (26, 25, some (STPMIC_REG_LDOx_MAIN_CR + 4, STPMIC_RET_INVALID)) := by
  refine ⟨by decide, by decide, by decide⟩

/-! ## Register-ID validation -/

theorem invalid_iff (T : Transport) (d : Driver) (id v : Nat)
    (hst : STPMIC_DRV_INIT ≤ d.state) :
    ((stpmic_read_direct T d id).1 = STPMIC_RET_INVALID ↔ STPMIC_REG_MAX ≤ id) ∧
    ((stpmic_write_direct T d id v).1 = STPMIC_RET_INVALID ↔ STPMIC_REG_MAX ≤ id) ∧
    ((stpmic_read T d id).1 = STPMIC_RET_INVALID ↔ STPMIC_REG_MAX ≤ id) ∧
    ((stpmic_write T d id v).1 = STPMIC_RET_INVALID ↔ STPMIC_REG_MAX ≤ id) ∧
    (stpmic_clear_cache d id = some (STPMIC_RET_INVALID, d) ↔ STPMIC_REG_MAX ≤ id) ∧
    (stpmic_batch_write d id v = some (STPMIC_RET_INVALID, d) ↔ STPMIC_REG_MAX ≤ id) := by
  have hst1 : ¬ d.state < STPMIC_DRV_INIT := Nat.not_lt.mpr hst
  have hrd : (stpmic_read_direct T d id).1 = STPMIC_RET_INVALID ↔ STPMIC_REG_MAX ≤ id := by
    unfold stpmic_read_direct
    by_cases hid : id ≥ STPMIC_REG_MAX
    · simp [hst1, hid]
    · simp only [hst1, hid, if_false, iff_false]
      split
      · simp
      · split
        · simp
        · split <;> simp
  have hwd : (stpmic_write_direct T d id v).1 = STPMIC_RET_INVALID ↔ STPMIC_REG_MAX ≤ id := by
    unfold stpmic_write_direct
    by_cases hid : id ≥ STPMIC_REG_MAX
    · simp [hst1, hid]
    · simp only [hst1, hid, if_false, iff_false]
      split
      · simp
      · split <;> simp
  refine ⟨hrd, hwd, ?_, ?_, ?_, ?_⟩
  · by_cases hid : id ≥ STPMIC_REG_MAX
    · unfold stpmic_read
      simp [hst1, hid]
    · have : stpmic_read T d id = stpmic_read_direct T d id ∨
          (stpmic_read T d id).1 = STPMIC_RET_OK := by
        unfold stpmic_read
        simp only [hst1, hid, if_false]
        split
        · split
          · exact Or.inl rfl
          · exact Or.inr rfl
        · exact Or.inl rfl
      rcases this with h | h
      · rw [h]; exact hrd
      · rw [h]; simp [Nat.not_le.mp hid]
  · by_cases hid : id ≥ STPMIC_REG_MAX
    · unfold stpmic_write
      simp [hst1, hid]
    · have : stpmic_write T d id v = stpmic_write_direct T d id v ∨
          (stpmic_write T d id v).1 = STPMIC_RET_OK := by
        unfold stpmic_write
        simp only [hst1, hid, if_false]
        split
        · split
          · exact Or.inl rfl
          · split
            · exact Or.inl rfl
            · exact Or.inr rfl
        · exact Or.inl rfl
      rcases this with h | h
      · rw [h]; exact hwd
      · rw [h]; simp [Nat.not_le.mp hid]
  · unfold stpmic_clear_cache
    by_cases hid : id ≥ STPMIC_REG_MAX
    · simp [hst1, hid]
    · simp only [hst1, hid, if_false, iff_false]
      split <;> simp
  · unfold stpmic_batch_write
    by_cases hid : id ≥ STPMIC_REG_MAX
    · simp [hst1, hid]
    · simp only [hst1, hid, if_false, iff_false]
      split <;> simp

/-- C16, at the failing input: on an attached device the register ID `0x29`,
which is `STPMIC_REG_MAX` itself (and `LDO5_MAIN_CR`), is not bigger than
`STPMIC_REG_MAX`, yet each of the six operations returns `STPMIC_RET_INVALID`
for it, without bus traffic or state change; in general the operations return
`STPMIC_RET_INVALID` exactly for the IDs greater than or equal to
`STPMIC_REG_MAX`. -/
theorem reg_max_itself_is_rejected :
    STPMIC_REG_LDOx_MAIN_CR + 4 = STPMIC_REG_MAX ∧ ¬ (STPMIC_REG_MAX > STPMIC_REG_MAX) ∧
    stpmic_read_direct (transport_const 0) (attached 0x2b 0) STPMIC_REG_MAX
      = (STPMIC_RET_INVALID, none, attached 0x2b 0) ∧
    stpmic_write_direct (transport_const 0) (attached 0x2b 0) STPMIC_REG_MAX 0x5a
      = (STPMIC_RET_INVALID, attached 0x2b 0) ∧
    stpmic_read (transport_const 0) (attached 0x2b 0) STPMIC_REG_MAX
      = (STPMIC_RET_INVALID, none, attached 0x2b 0) ∧
    stpmic_write (transport_const 0) (attached 0x2b 0) STPMIC_REG_MAX 0x5a
      = (STPMIC_RET_INVALID, attached 0x2b 0) ∧
    stpmic_clear_cache (attached 0x2b 0) STPMIC_REG_MAX
      = some (STPMIC_RET_INVALID, attached 0x2b 0) ∧
    stpmic_batch_write (attached 0x2b 0) STPMIC_REG_MAX 0x5a
      = some (STPMIC_RET_INVALID, attached 0x2b 0) ∧
    (∀ (T : Transport) (d : Driver) (id v : Nat), STPMIC_DRV_INIT ≤ d.state →
      ((stpmic_read_direct T d id).1 = STPMIC_RET_INVALID ↔ STPMIC_REG_MAX ≤ id) ∧
      ((stpmic_write_direct T d id v).1 = STPMIC_RET_INVALID ↔ STPMIC_REG_MAX ≤ id) ∧
      ((stpmic_read T d id).1 = STPMIC_RET_INVALID ↔ STPMIC_REG_MAX ≤ id) ∧
      ((stpmic_write T d id v).1 = STPMIC_RET_INVALID ↔ STPMIC_REG_MAX ≤ id) ∧
      (stpmic_clear_cache d id = some (STPMIC_RET_INVALID, d) ↔ STPMIC_REG_MAX ≤ id) ∧
      (stpmic_batch_write d id v = some (STPMIC_RET_INVALID, d) ↔ STPMIC_REG_MAX ≤ id)) :=
  ⟨by decide, by decide, by decide, by decide, by decide, by decide, by decide, by decide,
    invalid_iff⟩

/-- C20, at the failing input: on an attached device whose cache array has `0x20`
elements, `stpmic_clear_cache` and `stpmic_batch_write` of the valid register
ID `0x28` index the array at `0x28`, outside its bounds; so it is for every
valid register ID that is not below the size of the array. -/
theorem clear_cache_out_of_bounds :
    stpmic_clear_cache (attached 0x20 0) STPMIC_REG_LDO4_MAIN_CR = none ∧
    stpmic_batch_write (attached 0x20 0) STPMIC_REG_LDO4_MAIN_CR 0x5a = none ∧
    (∀ (d : Driver) (id v : Nat), STPMIC_DRV_INIT ≤ d.state → id < STPMIC_REG_MAX →
      STPMIC_REG_CACHE_MAX d ≤ id →
      stpmic_clear_cache d id = none ∧ stpmic_batch_write d id v = none) := by
  refine ⟨by decide, by decide, ?_⟩
  intro d id v hst hid hcm
  have hcm1 : ¬ id < d.cache.length := Nat.not_lt.mpr hcm
  constructor
  · unfold stpmic_clear_cache
    simp [Nat.not_lt.mpr hst, Nat.not_le.mpr hid, hcm1]
  · unfold stpmic_batch_write
    simp [Nat.not_lt.mpr hst, Nat.not_le.mpr hid, hcm1]

/-! ## Direct access: cache update, transport failure, non-cacheable IDs -/

theorem reg_mod_256 (id : Nat) (hid : id < STPMIC_REG_MAX) : id % 256 = id :=
  Nat.mod_eq_of_lt (by
    have : STPMIC_REG_MAX = 0x29 := rfl
    omega)

/-- What `stpmic_write_direct` does on an attached device for a valid register
ID, by the answer of the transport. -/
theorem write_direct_cases (T : Transport) (d : Driver) (id v : Nat)
    (hst : STPMIC_DRV_INIT ≤ d.state) (hid : id < STPMIC_REG_MAX) :
    (T.HAL_I2C_Master_Transmit d.bus
        (Txn.transmit d.dev (bus_addr d.addr 0) [id, v] d.timeout_w) = false →
      stpmic_write_direct T d id v = (STPMIC_RET_TIMEOUT,
        { d with
          bus := d.bus ++ [Txn.transmit d.dev (bus_addr d.addr 0) [id, v] d.timeout_w] })) ∧
    (T.HAL_I2C_Master_Transmit d.bus
        (Txn.transmit d.dev (bus_addr d.addr 0) [id, v] d.timeout_w) = true →
      stpmic_write_direct T d id v = (STPMIC_RET_OK,
        { d with
          bus := d.bus ++ [Txn.transmit d.dev (bus_addr d.addr 0) [id, v] d.timeout_w],
          cache := if id < d.cache.length then d.cache.set id v else d.cache })) := by
  have hst1 : ¬ d.state < STPMIC_DRV_INIT := Nat.not_lt.mpr hst
  have hid1 : ¬ id ≥ STPMIC_REG_MAX := Nat.not_le.mpr hid
  constructor
  · intro h
    unfold stpmic_write_direct
    simp [hst1, hid1, reg_mod_256 id hid, h]
  · intro h
    unfold stpmic_write_direct
    by_cases hc : id < d.cache.length <;> simp [hst1, hid1, reg_mod_256 id hid, h, hc]

/-- What `stpmic_read_direct` does on an attached device for a valid register
ID, by the answers of the transport. -/
theorem read_direct_cases (T : Transport) (d : Driver) (id : Nat)
    (hst : STPMIC_DRV_INIT ≤ d.state) (hid : id < STPMIC_REG_MAX) :
    (T.HAL_I2C_Master_Transmit d.bus
        (Txn.transmit d.dev (bus_addr d.addr 0) [id] d.timeout_r) = false →
      stpmic_read_direct T d id = (STPMIC_RET_TIMEOUT, none,
        { d with
          bus := d.bus ++ [Txn.transmit d.dev (bus_addr d.addr 0) [id] d.timeout_r] })) ∧
    (T.HAL_I2C_Master_Transmit d.bus
        (Txn.transmit d.dev (bus_addr d.addr 0) [id] d.timeout_r) = true →
      T.HAL_I2C_Master_Receive
        (d.bus ++ [Txn.transmit d.dev (bus_addr d.addr 0) [id] d.timeout_r])
        (Txn.receive d.dev (bus_addr d.addr 1) 1 d.timeout_r) = none →
      stpmic_read_direct T d id = (STPMIC_RET_TIMEOUT, none,
        { d with
          bus := d.bus ++ [Txn.transmit d.dev (bus_addr d.addr 0) [id] d.timeout_r,
            Txn.receive d.dev (bus_addr d.addr 1) 1 d.timeout_r] })) ∧
    (∀ raw, T.HAL_I2C_Master_Transmit d.bus
        (Txn.transmit d.dev (bus_addr d.addr 0) [id] d.timeout_r) = true →
      T.HAL_I2C_Master_Receive
        (d.bus ++ [Txn.transmit d.dev (bus_addr d.addr 0) [id] d.timeout_r])
        (Txn.receive d.dev (bus_addr d.addr 1) 1 d.timeout_r) = some raw →
      stpmic_read_direct T d id = (STPMIC_RET_OK, some (raw % 256),
        { d with
          bus := d.bus ++ [Txn.transmit d.dev (bus_addr d.addr 0) [id] d.timeout_r,
            Txn.receive d.dev (bus_addr d.addr 1) 1 d.timeout_r],
          cache := if id < d.cache.length then d.cache.set id (raw % 256) else d.cache })) := by
  have hst1 : ¬ d.state < STPMIC_DRV_INIT := Nat.not_lt.mpr hst
  have hid1 : ¬ id ≥ STPMIC_REG_MAX := Nat.not_le.mpr hid
  refine ⟨?_, ?_, ?_⟩
  · intro h
    unfold stpmic_read_direct
    simp [hst1, hid1, reg_mod_256 id hid, h]
  · intro h h2
    unfold stpmic_read_direct
    simp [hst1, hid1, reg_mod_256 id hid, h, h2]
  · intro raw h h2
    unfold stpmic_read_direct
    by_cases hc : id < d.cache.length <;> simp [hst1, hid1, reg_mod_256 id hid, h, h2, hc]

/-- C17. Direct access is authoritative: for a register ID with a cache slot,
after a successful `stpmic_write_direct id v` the slot of `id` holds `v` with
the mismatch flag clear, and after a successful `stpmic_read_direct id` it
holds the byte the bus returned, with the mismatch flag clear, which is also
the value stored through `out`; in both cases every other cache slot, the size
of the cache and the device state are unchanged. -/
theorem direct_access_authoritative (T : Transport) (d : Driver) (id v : Nat)
    (hc : id < STPMIC_REG_CACHE_MAX d) (hv : v < 256) :
    (∀ d1, stpmic_write_direct T d id v = (STPMIC_RET_OK, d1) →
      slot_valid d1 id v ∧ (∀ j, j ≠ id → d1.cache[j]? = d.cache[j]?) ∧
      d1.cache.length = d.cache.length ∧ d1.state = d.state) ∧
    (∀ out d1, stpmic_read_direct T d id = (STPMIC_RET_OK, out, d1) →
      ∃ raw, T.HAL_I2C_Master_Receive
          (d.bus ++ [Txn.transmit d.dev (bus_addr d.addr 0) [id] d.timeout_r])
          (Txn.receive d.dev (bus_addr d.addr 1) 1 d.timeout_r) = some raw ∧
        out = some (raw % 256) ∧ slot_valid d1 id (raw % 256) ∧
        (∀ j, j ≠ id → d1.cache[j]? = d.cache[j]?) ∧
        d1.cache.length = d.cache.length ∧ d1.state = d.state) := by
  have hc1 : id < d.cache.length := hc
  constructor
  · intro d1 hw
    have hst : STPMIC_DRV_INIT ≤ d.state := by
      by_contra h
      unfold stpmic_write_direct at hw
      simp [Nat.lt_of_not_le h] at hw
    have hid : id < STPMIC_REG_MAX := by
      by_contra h
      unfold stpmic_write_direct at hw
      simp [Nat.not_lt.mpr hst, Nat.le_of_not_lt h] at hw
    cases htx : T.HAL_I2C_Master_Transmit d.bus
        (Txn.transmit d.dev (bus_addr d.addr 0) [id, v] d.timeout_w)
    · rw [(write_direct_cases T d id v hst hid).1 htx] at hw
      simp at hw
    · rw [(write_direct_cases T d id v hst hid).2 htx] at hw
      simp only [Prod.mk.injEq, true_and, hc1, if_true] at hw
      subst hw
      refine ⟨⟨v, by simp [hc1], byte_and_mismatch v hv, byte_and_ff v hv⟩, ?_, by simp, rfl⟩
      intro j hj
      simp [List.getElem?_set_ne (Ne.symm hj)]
  · intro out d1 hr
    have hst : STPMIC_DRV_INIT ≤ d.state := by
      by_contra h
      unfold stpmic_read_direct at hr
      simp [Nat.lt_of_not_le h] at hr
    have hid : id < STPMIC_REG_MAX := by
      by_contra h
      unfold stpmic_read_direct at hr
      simp [Nat.not_lt.mpr hst, Nat.le_of_not_lt h] at hr
    cases htx : T.HAL_I2C_Master_Transmit d.bus
        (Txn.transmit d.dev (bus_addr d.addr 0) [id] d.timeout_r)
    · rw [(read_direct_cases T d id hst hid).1 htx] at hr
      simp at hr
    · cases hrx : T.HAL_I2C_Master_Receive
          (d.bus ++ [Txn.transmit d.dev (bus_addr d.addr 0) [id] d.timeout_r])
          (Txn.receive d.dev (bus_addr d.addr 1) 1 d.timeout_r) with
      | none =>
        rw [(read_direct_cases T d id hst hid).2.1 htx hrx] at hr
        simp at hr
      | some raw =>
        rw [(read_direct_cases T d id hst hid).2.2 raw htx hrx] at hr
        simp only [Prod.mk.injEq, true_and, hc1, if_true] at hr
        obtain ⟨ho, hd⟩ := hr
        subst hd
        have hb : raw % 256 < 256 := Nat.mod_lt _ (by decide)
        refine ⟨raw, rfl, ho.symm,
          ⟨raw % 256, by simp [hc1], byte_and_mismatch _ hb, byte_and_ff _ hb⟩, ?_, by simp, rfl⟩
        intro j hj
        simp [List.getElem?_set_ne (Ne.symm hj)]

theorem direct_access_authoritative_witness :
    (slot_valid (stpmic_write_direct (transport_const 7) (attached 0x2b 0x1ff)
          STPMIC_REG_MAIN_CR 0x5a).2 STPMIC_REG_MAIN_CR 0x5a ∧
      (∀ j, j ≠ STPMIC_REG_MAIN_CR →
        (stpmic_write_direct (transport_const 7) (attached 0x2b 0x1ff)
          STPMIC_REG_MAIN_CR 0x5a).2.cache[j]? = (attached 0x2b 0x1ff).cache[j]?) ∧
      (stpmic_write_direct (transport_const 7) (attached 0x2b 0x1ff)
          STPMIC_REG_MAIN_CR 0x5a).2.cache.length = (attached 0x2b 0x1ff).cache.length ∧
      (stpmic_write_direct (transport_const 7) (attached 0x2b 0x1ff)
          STPMIC_REG_MAIN_CR 0x5a).2.state = (attached 0x2b 0x1ff).state) ∧
    (∃ raw, (transport_const 7).HAL_I2C_Master_Receive
          ((attached 0x2b 0x1ff).bus ++ [Txn.transmit (attached 0x2b 0x1ff).dev
            (bus_addr (attached 0x2b 0x1ff).addr 0) [STPMIC_REG_MAIN_CR]
            (attached 0x2b 0x1ff).timeout_r])
          (Txn.receive (attached 0x2b 0x1ff).dev (bus_addr (attached 0x2b 0x1ff).addr 1) 1
            (attached 0x2b 0x1ff).timeout_r) = some raw ∧
        some 7 = some (raw % 256) ∧
        slot_valid (stpmic_read_direct (transport_const 7) (attached 0x2b 0x1ff)
          STPMIC_REG_MAIN_CR).2.2 STPMIC_REG_MAIN_CR (raw % 256) ∧
        (∀ j, j ≠ STPMIC_REG_MAIN_CR →
          (stpmic_read_direct (transport_const 7) (attached 0x2b 0x1ff)
            STPMIC_REG_MAIN_CR).2.2.cache[j]? = (attached 0x2b 0x1ff).cache[j]?) ∧
        (stpmic_read_direct (transport_const 7) (attached 0x2b 0x1ff)
          STPMIC_REG_MAIN_CR).2.2.cache.length = (attached 0x2b 0x1ff).cache.length ∧
        (stpmic_read_direct (transport_const 7) (attached 0x2b 0x1ff)
          STPMIC_REG_MAIN_CR).2.2.state = (attached 0x2b 0x1ff).state) :=
  ⟨(direct_access_authoritative (transport_const 7) (attached 0x2b 0x1ff)
      STPMIC_REG_MAIN_CR 0x5a (by decide) (by decide)).1 _ (by decide),
   (direct_access_authoritative (transport_const 7) (attached 0x2b 0x1ff)
      STPMIC_REG_MAIN_CR 0x5a (by decide) (by decide)).2 (some 7) _ (by decide)⟩

/-- C18. Transport failure is Timeout and atomic: on an attached device, for a
valid register ID, when a transport call of `stpmic_read_direct` or
`stpmic_write_direct` returns a length other than the requested one (1 for the
register ID, 1 for the value byte, 2 for the write packet), the operation
returns `STPMIC_RET_TIMEOUT`, stores nothing through `out`, makes no further
transport call, and leaves the driver state, every cache slot included,
unchanged apart from the bus history. -/
theorem transport_failure_is_timeout (c : stpmic_i2c_t) (d : Driver) (id v : Nat)
    (hst : STPMIC_DRV_INIT ≤ d.state) (hid : id < STPMIC_REG_MAX) :
    (c.write_i2c d.bus (Txn.transmit d.dev (bus_addr d.addr 0) [id] d.timeout_r) ≠ 1 →
      stpmic_read_direct c.transport d id = (STPMIC_RET_TIMEOUT, none,
        { d with
          bus := d.bus ++ [Txn.transmit d.dev (bus_addr d.addr 0) [id] d.timeout_r] })) ∧
    (c.write_i2c d.bus (Txn.transmit d.dev (bus_addr d.addr 0) [id] d.timeout_r) = 1 →
      (c.read_i2c (d.bus ++ [Txn.transmit d.dev (bus_addr d.addr 0) [id] d.timeout_r])
        (Txn.receive d.dev (bus_addr d.addr 1) 1 d.timeout_r)).1 ≠ 1 →
      stpmic_read_direct c.transport d id = (STPMIC_RET_TIMEOUT, none,
        { d with
          bus := d.bus ++ [Txn.transmit d.dev (bus_addr d.addr 0) [id] d.timeout_r,
            Txn.receive d.dev (bus_addr d.addr 1) 1 d.timeout_r] })) ∧
    (c.write_i2c d.bus (Txn.transmit d.dev (bus_addr d.addr 0) [id, v] d.timeout_w) ≠ 2 →
      stpmic_write_direct c.transport d id v = (STPMIC_RET_TIMEOUT,
        { d with
          bus := d.bus ++ [Txn.transmit d.dev (bus_addr d.addr 0) [id, v] d.timeout_w] })) := by
  refine ⟨?_, ?_, ?_⟩
  · intro h
    exact (read_direct_cases c.transport d id hst hid).1
      (by simp [stpmic_i2c_t.transport, Txn.len, h])
  · intro h h2
    exact (read_direct_cases c.transport d id hst hid).2.1
      (by simp [stpmic_i2c_t.transport, Txn.len, h])
      (by simp [stpmic_i2c_t.transport, Txn.len, h2])
  · intro h
    exact (write_direct_cases c.transport d id v hst hid).1
      (by simp [stpmic_i2c_t.transport, Txn.len, h])

theorem transport_failure_is_timeout_witness :
    stpmic_read_direct i2c_dead.transport (attached 0x2b 0x5a) STPMIC_REG_MAIN_CR
      = (STPMIC_RET_TIMEOUT, none,
        { attached 0x2b 0x5a with
          bus := [Txn.transmit (some 1) 0x66 [0x10] 100] }) ∧
    stpmic_read_direct i2c_write_only.transport (attached 0x2b 0x5a) STPMIC_REG_MAIN_CR
      = (STPMIC_RET_TIMEOUT, none,
        { attached 0x2b 0x5a with
          bus := [Txn.transmit (some 1) 0x66 [0x10] 100, Txn.receive (some 1) 0x67 1 100] }) ∧
    stpmic_write_direct i2c_dead.transport (attached 0x2b 0x5a) STPMIC_REG_MAIN_CR 0x77
      = (STPMIC_RET_TIMEOUT,
        { attached 0x2b 0x5a with
          bus := [Txn.transmit (some 1) 0x66 [0x10, 0x77] 100] }) :=
  ⟨(transport_failure_is_timeout i2c_dead (attached 0x2b 0x5a) STPMIC_REG_MAIN_CR 0x77
      (by decide) (by decide)).1 (by decide),
   (transport_failure_is_timeout i2c_write_only (attached 0x2b 0x5a) STPMIC_REG_MAIN_CR 0x77
      (by decide) (by decide)).2.1 (by decide) (by decide),
   (transport_failure_is_timeout i2c_dead (attached 0x2b 0x5a) STPMIC_REG_MAIN_CR 0x77
      (by decide) (by decide)).2.2 (by decide)⟩

theorem write_direct_non_cacheable (T : Transport) (d : Driver) (id v : Nat)
    (hst : STPMIC_DRV_INIT ≤ d.state) (hid : id < STPMIC_REG_MAX)
    (hcm : d.cache.length ≤ id) :
    stpmic_write_direct T d id v =
      ((stpmic_write_direct T d id v).1,
        { d with
          bus := d.bus ++ [Txn.transmit d.dev (bus_addr d.addr 0) [id, v] d.timeout_w] }) := by
  have hc : ¬ id < d.cache.length := Nat.not_lt.mpr hcm
  cases htx : T.HAL_I2C_Master_Transmit d.bus
      (Txn.transmit d.dev (bus_addr d.addr 0) [id, v] d.timeout_w)
  · rw [(write_direct_cases T d id v hst hid).1 htx]
  · rw [(write_direct_cases T d id v hst hid).2 htx]
    simp [hc]

theorem read_direct_non_cacheable (T : Transport) (d : Driver) (id : Nat)
    (hst : STPMIC_DRV_INIT ≤ d.state) (hid : id < STPMIC_REG_MAX)
    (hcm : d.cache.length ≤ id) (c1 : List Nat) (hc1 : c1.length = d.cache.length) :
    (stpmic_read_direct T d id).2.2.cache = d.cache ∧
    stpmic_read_direct T { d with cache := c1 } id =
      ((stpmic_read_direct T d id).1, (stpmic_read_direct T d id).2.1,
        { (stpmic_read_direct T d id).2.2 with cache := c1 }) := by
  have hst1 : ¬ d.state < STPMIC_DRV_INIT := Nat.not_lt.mpr hst
  have hid1 : ¬ id ≥ STPMIC_REG_MAX := Nat.not_le.mpr hid
  have hc : ¬ id < d.cache.length := Nat.not_lt.mpr hcm
  have hc2 : ¬ id < c1.length := by rw [hc1]; exact hc
  unfold stpmic_read_direct
  simp only [hst1, hid1, if_false, reg_mod_256 id hid, cache_max_eq, hc, hc2]
  split
  · exact ⟨rfl, rfl⟩
  · split <;> exact ⟨rfl, rfl⟩

/-- C19. Non-cacheable registers always reach the bus: on an attached device,
for a valid register ID that has no cache slot, `stpmic_read` is
`stpmic_read_direct` and `stpmic_write` is `stpmic_write_direct`; each write
issues one write transaction, so writing the same value twice issues two; the
cache is left as it was, and its content has no influence on the outcome. -/
theorem non_cacheable_reaches_bus (T : Transport) (d : Driver) (id v : Nat)
    (hst : STPMIC_DRV_INIT ≤ d.state) (hid : id < STPMIC_REG_MAX)
    (hcm : STPMIC_REG_CACHE_MAX d ≤ id) :
    stpmic_read T d id = stpmic_read_direct T d id ∧
    stpmic_write T d id v = stpmic_write_direct T d id v ∧
    (stpmic_read T d id).2.2.cache = d.cache ∧
    (stpmic_write T d id v).2.cache = d.cache ∧
    (stpmic_write T (stpmic_write T d id v).2 id v).2.bus =
      d.bus ++ [Txn.transmit d.dev (bus_addr d.addr 0) [id, v] d.timeout_w,
        Txn.transmit d.dev (bus_addr d.addr 0) [id, v] d.timeout_w] ∧
    (∀ c1 : List Nat, c1.length = d.cache.length →
      stpmic_read T { d with cache := c1 } id =
        ((stpmic_read T d id).1, (stpmic_read T d id).2.1,
          { (stpmic_read T d id).2.2 with cache := c1 }) ∧
      stpmic_write T { d with cache := c1 } id v =
        ((stpmic_write T d id v).1, { (stpmic_write T d id v).2 with cache := c1 })) := by
  have hst1 : ¬ d.state < STPMIC_DRV_INIT := Nat.not_lt.mpr hst
  have hid1 : ¬ id ≥ STPMIC_REG_MAX := Nat.not_le.mpr hid
  have hcm1 : d.cache.length ≤ id := hcm
  have hc : ¬ id < d.cache.length := Nat.not_lt.mpr hcm1
  have hrd : ∀ d0 : Driver, STPMIC_DRV_INIT ≤ d0.state → d0.cache.length ≤ id →
      stpmic_read T d0 id = stpmic_read_direct T d0 id := by
    intro d0 h0 h1
    unfold stpmic_read
    simp [Nat.not_lt.mpr h0, hid1, Nat.not_lt.mpr h1]
  have hwr : ∀ d0 : Driver, STPMIC_DRV_INIT ≤ d0.state → d0.cache.length ≤ id →
      stpmic_write T d0 id v = stpmic_write_direct T d0 id v := by
    intro d0 h0 h1
    unfold stpmic_write
    simp [Nat.not_lt.mpr h0, hid1, Nat.not_lt.mpr h1]
  have hw2 : ∀ d0 : Driver, STPMIC_DRV_INIT ≤ d0.state → d0.cache.length ≤ id →
      (stpmic_write T d0 id v).2 =
        { d0 with
          bus := d0.bus ++ [Txn.transmit d0.dev (bus_addr d0.addr 0) [id, v] d0.timeout_w] } := by
    intro d0 h0 h1
    rw [hwr d0 h0 h1, write_direct_non_cacheable T d0 id v h0 hid h1]
  have hc1len : ∀ c1 : List Nat, c1.length = d.cache.length →
      ({ d with cache := c1 } : Driver).cache.length ≤ id := by
    intro c1 h
    simpa [h] using hcm1
  refine ⟨hrd d hst hcm1, hwr d hst hcm1, ?_, ?_, ?_, ?_⟩
  · rw [hrd d hst hcm1]
    exact (read_direct_non_cacheable T d id hst hid hcm1 d.cache rfl).1
  · rw [hw2 d hst hcm1]
  · rw [hw2 d hst hcm1, hw2]
    · simp
    · exact hst
    · exact hcm1
  · intro c1 hc1
    constructor
    · rw [hrd d hst hcm1, hrd { d with cache := c1 } hst (hc1len c1 hc1)]
      exact (read_direct_non_cacheable T d id hst hid hcm1 c1 hc1).2
    · rw [hwr d hst hcm1, hwr { d with cache := c1 } hst (hc1len c1 hc1)]
      cases htx : T.HAL_I2C_Master_Transmit d.bus
          (Txn.transmit d.dev (bus_addr d.addr 0) [id, v] d.timeout_w)
      · rw [((write_direct_cases T { d with cache := c1 } id v hst hid).1 htx),
          ((write_direct_cases T d id v hst hid).1 htx)]
      · rw [((write_direct_cases T { d with cache := c1 } id v hst hid).2 htx),
          ((write_direct_cases T d id v hst hid).2 htx)]
        have hc2 : ¬ id < c1.length := by rw [hc1]; exact hc
        simp [hc, hc2]

theorem non_cacheable_reaches_bus_witness :
    stpmic_read (transport_const 7) (attached 0x20 0x5a) STPMIC_REG_LDO4_MAIN_CR
      = stpmic_read_direct (transport_const 7) (attached 0x20 0x5a) STPMIC_REG_LDO4_MAIN_CR ∧
    stpmic_write (transport_const 7) (attached 0x20 0x5a) STPMIC_REG_LDO4_MAIN_CR 0x5a
      = stpmic_write_direct (transport_const 7) (attached 0x20 0x5a)
          STPMIC_REG_LDO4_MAIN_CR 0x5a ∧
    (stpmic_read (transport_const 7) (attached 0x20 0x5a) STPMIC_REG_LDO4_MAIN_CR).2.2.cache
      = (attached 0x20 0x5a).cache ∧
    (stpmic_write (transport_const 7) (attached 0x20 0x5a) STPMIC_REG_LDO4_MAIN_CR 0x5a).2.cache
      = (attached 0x20 0x5a).cache ∧
    (stpmic_write (transport_const 7)
        (stpmic_write (transport_const 7) (attached 0x20 0x5a) STPMIC_REG_LDO4_MAIN_CR 0x5a).2
        STPMIC_REG_LDO4_MAIN_CR 0x5a).2.bus =
      (attached 0x20 0x5a).bus ++
        [Txn.transmit (attached 0x20 0x5a).dev (bus_addr (attached 0x20 0x5a).addr 0)
            [STPMIC_REG_LDO4_MAIN_CR, 0x5a] (attached 0x20 0x5a).timeout_w,
          Txn.transmit (attached 0x20 0x5a).dev (bus_addr (attached 0x20 0x5a).addr 0)
            [STPMIC_REG_LDO4_MAIN_CR, 0x5a] (attached 0x20 0x5a).timeout_w] ∧
    (∀ c1 : List Nat, c1.length = (attached 0x20 0x5a).cache.length →
      stpmic_read (transport_const 7) { attached 0x20 0x5a with cache := c1 }
          STPMIC_REG_LDO4_MAIN_CR =
        ((stpmic_read (transport_const 7) (attached 0x20 0x5a) STPMIC_REG_LDO4_MAIN_CR).1,
          (stpmic_read (transport_const 7) (attached 0x20 0x5a) STPMIC_REG_LDO4_MAIN_CR).2.1,
          { (stpmic_read (transport_const 7) (attached 0x20 0x5a)
              STPMIC_REG_LDO4_MAIN_CR).2.2 with cache := c1 }) ∧
      stpmic_write (transport_const 7) { attached 0x20 0x5a with cache := c1 }
          STPMIC_REG_LDO4_MAIN_CR 0x5a =
        ((stpmic_write (transport_const 7) (attached 0x20 0x5a)
            STPMIC_REG_LDO4_MAIN_CR 0x5a).1,
          { (stpmic_write (transport_const 7) (attached 0x20 0x5a)
              STPMIC_REG_LDO4_MAIN_CR 0x5a).2 with cache := c1 })) :=
  non_cacheable_reaches_bus (transport_const 7) (attached 0x20 0x5a) STPMIC_REG_LDO4_MAIN_CR
    0x5a (by decide) (by decide) (by decide)

/-! ## Timeout configuration -/

/-- C23. Timeout configuration round trip: for every pair `(w, r)` and every
driver state, `stpmic_get_timeout` after `stpmic_set_timeout` of
`{write: w, read: r}` returns `{write: w, read: r}`; `stpmic_set_timeout`
changes nothing but the two timeouts (state, cache, handle, address and bus
history stay), a `NULL` argument changes nothing at all, and in the static
initialiser both timeouts are `STPMIC_INIT_DELAY`, which is 100. -/
theorem timeout_round_trip (d : Driver) (w r : Nat) :
    stpmic_get_timeout (stpmic_set_timeout d (some { write := w, read := r }))
      = { write := w, read := r } ∧
    stpmic_set_timeout d (some { write := w, read := r })
      = { d with timeout_w := w, timeout_r := r } ∧
    (stpmic_set_timeout d (some { write := w, read := r })).state = d.state ∧
    (stpmic_set_timeout d (some { write := w, read := r })).cache = d.cache ∧
    stpmic_set_timeout d none = d ∧
    (∀ n, stpmic_get_timeout (STPMIC1 n)
      = { write := STPMIC_INIT_DELAY, read := STPMIC_INIT_DELAY }) ∧
    STPMIC_INIT_DELAY = 100 :=
  ⟨rfl, rfl, rfl, rfl, rfl, fun _ => rfl, rfl⟩

/-! ## Watchdog -/

/-- C29. Watchdog zero means disable: for every driver state and transport,
`stpmic_watchdog_init 0` is `stpmic_watchdog_deinit`, same return value and
same resulting state, bus history included; it is the direct write of `0x02`
to `WDG_CR`, so that on an attached device the bus traffic is the single
packet `[WDG_CR, 0x02]`, whose enable bit is clear, and `WDG_TMR_CR` is not
written. -/
theorem watchdog_zero_is_deinit (T : Transport) (d : Driver) :
    stpmic_watchdog_init T d 0 = stpmic_watchdog_deinit T d ∧
    stpmic_watchdog_deinit T d = stpmic_write_direct T d STPMIC_REG_WDG_CR 0x02 ∧
    (0x02 : Nat) &&& 0x01 = 0 ∧
    (STPMIC_DRV_INIT ≤ d.state →
      (stpmic_watchdog_init T d 0).2.bus =
        d.bus ++ [Txn.transmit d.dev (bus_addr d.addr 0) [STPMIC_REG_WDG_CR, 0x02]
          d.timeout_w]) ∧
    (d.state < STPMIC_DRV_INIT →
      stpmic_watchdog_init T d 0 = (STPMIC_RET_NODEV, d)) := by
  have h0 : stpmic_watchdog_init T d 0 = stpmic_write_direct T d STPMIC_REG_WDG_CR 0x02 := by
    unfold stpmic_watchdog_init stpmic_watchdog_deinit
    rfl
  refine ⟨rfl, rfl, rfl, ?_, ?_⟩
  · intro hst
    rw [h0]
    cases htx : T.HAL_I2C_Master_Transmit d.bus
        (Txn.transmit d.dev (bus_addr d.addr 0) [STPMIC_REG_WDG_CR, 0x02] d.timeout_w)
    · rw [(write_direct_cases T d STPMIC_REG_WDG_CR 0x02 hst (by decide)).1 htx]
    · rw [(write_direct_cases T d STPMIC_REG_WDG_CR 0x02 hst (by decide)).2 htx]
  · intro hst
    rw [h0]
    unfold stpmic_write_direct
    simp only [hst, if_true]

theorem watchdog_zero_is_deinit_witness :
    stpmic_watchdog_init (transport_const 0) (attached 0x2b 0) 0
      = stpmic_watchdog_deinit (transport_const 0) (attached 0x2b 0) ∧
    (stpmic_watchdog_init (transport_const 0) (attached 0x2b 0) 0).2.bus =
      (attached 0x2b 0).bus ++ [Txn.transmit (attached 0x2b 0).dev
        (bus_addr (attached 0x2b 0).addr 0) [STPMIC_REG_WDG_CR, 0x02]
        (attached 0x2b 0).timeout_w] ∧
    stpmic_watchdog_init (transport_const 0) (STPMIC1 0x2b) 0
      = (STPMIC_RET_NODEV, STPMIC1 0x2b) :=
  ⟨(watchdog_zero_is_deinit (transport_const 0) (attached 0x2b 0)).1,
   (watchdog_zero_is_deinit (transport_const 0) (attached 0x2b 0)).2.2.2.1 (by decide),
   (watchdog_zero_is_deinit (transport_const 0) (STPMIC1 0x2b)).2.2.2.2 (by decide)⟩

/-! ## Regulator helpers: index range -/

/-- C26. Index range is validated first: for every buck number outside 1..4 the
buck setup helper (in both modes) and the main-mode buck enable and disable
helpers, and for every LDO number outside 1..6 the LDO setup, enable and
disable helpers (in both modes), return `STPMIC_RET_RANGE` in every device
state and leave the driver state, cache and bus history included, unchanged.
So do the alternate-mode buck enable and disable helpers when
`stpmic_buck_alt_cr`, which `stpmic.h` does not declare, validates the number
as `stpmic_buck_main_cr` does. -/
theorem index_range_first (X : Undeclared) (T : Transport) (d : Driver) (nth alt : Nat)
    (bopts : Option stpmic_buck_t) (lopts : Option stpmic_ldo_t) :
    (nth = 0 ∨ nth > 4 →
      __stpmic_buck_setup X T d nth alt bopts = some (STPMIC_RET_RANGE, d) ∧
      __stpmic_buck_enable X T d nth 0 = (STPMIC_RET_RANGE, d) ∧
      __stpmic_buck_disable X T d nth 0 = (STPMIC_RET_RANGE, d)) ∧
    (nth = 0 ∨ nth > 6 →
      __stpmic_ldo_setup X T d nth alt lopts = some (STPMIC_RET_RANGE, d) ∧
      __stpmic_ldo_enable X T d nth alt = (STPMIC_RET_RANGE, d) ∧
      __stpmic_ldo_disable X T d nth alt = (STPMIC_RET_RANGE, d)) ∧
    (nth = 0 ∨ nth > 4 →
      X.stpmic_buck_alt_cr T d nth = (STPMIC_RET_RANGE, none, d) →
      __stpmic_buck_enable X T d nth alt = (STPMIC_RET_RANGE, d) ∧
      __stpmic_buck_disable X T d nth alt = (STPMIC_RET_RANGE, d)) := by
  have hmain : nth = 0 ∨ nth > 4 →
      stpmic_buck_main_cr T d nth = (STPMIC_RET_RANGE, none, d) := by
    intro h
    have h1 : nth ≤ 0 ∨ nth > 4 := by omega
    unfold stpmic_buck_main_cr
    rw [if_pos h1]
  refine ⟨?_, ?_, ?_⟩
  · intro h
    have h1 : nth ≤ 0 ∨ nth > 4 := by omega
    have hcr := hmain h
    refine ⟨?_, ?_, ?_⟩
    · unfold __stpmic_buck_setup
      rw [if_pos h1]
    · unfold __stpmic_buck_enable
      simp [hcr]
    · unfold __stpmic_buck_disable
      simp [hcr]
  · intro h
    have h1 : nth ≤ 0 ∨ nth > 6 := by omega
    have h2 : ¬ (nth ≥ 1 ∧ nth ≤ 4) := by omega
    have h3 : ¬ (nth ≥ 5 ∧ nth ≤ 6) := by omega
    refine ⟨?_, ?_, ?_⟩
    · unfold __stpmic_ldo_setup
      rw [if_neg h2, if_neg h3]
    · unfold __stpmic_ldo_enable
      rw [if_pos h1]
    · unfold __stpmic_ldo_disable
      rw [if_pos h1]
  · intro h halt
    have hcr := hmain h
    constructor
    · unfold __stpmic_buck_enable
      by_cases ha : alt = 0 <;> simp [ha, hcr, halt]
    · unfold __stpmic_buck_disable
      by_cases ha : alt = 0 <;> simp [ha, hcr, halt]

theorem index_range_first_witness :
    (__stpmic_buck_setup stpmic1_undeclared (transport_const 0) (STPMIC1 0x2b) 5 0 none
        = some (STPMIC_RET_RANGE, STPMIC1 0x2b) ∧
      __stpmic_buck_enable stpmic1_undeclared (transport_const 0) (STPMIC1 0x2b) 5 0
        = (STPMIC_RET_RANGE, STPMIC1 0x2b) ∧
      __stpmic_buck_disable stpmic1_undeclared (transport_const 0) (STPMIC1 0x2b) 5 0
        = (STPMIC_RET_RANGE, STPMIC1 0x2b)) ∧
    (__stpmic_ldo_setup stpmic1_undeclared (transport_const 0) (attached 0x2b 0) 7 1 none
        = some (STPMIC_RET_RANGE, attached 0x2b 0) ∧
      __stpmic_ldo_enable stpmic1_undeclared (transport_const 0) (attached 0x2b 0) 7 1
        = (STPMIC_RET_RANGE, attached 0x2b 0) ∧
      __stpmic_ldo_disable stpmic1_undeclared (transport_const 0) (attached 0x2b 0) 7 1
        = (STPMIC_RET_RANGE, attached 0x2b 0)) ∧
    (__stpmic_buck_enable stpmic1_undeclared (transport_const 0) (attached 0x2b 0) 0 1
        = (STPMIC_RET_RANGE, attached 0x2b 0) ∧
      __stpmic_buck_disable stpmic1_undeclared (transport_const 0) (attached 0x2b 0) 0 1
        = (STPMIC_RET_RANGE, attached 0x2b 0)) :=
  ⟨(index_range_first stpmic1_undeclared (transport_const 0) (STPMIC1 0x2b) 5 0 none none).1
      (by decide),
   (index_range_first stpmic1_undeclared (transport_const 0) (attached 0x2b 0) 7 1 none
      none).2.1 (by decide),
   (index_range_first stpmic1_undeclared (transport_const 0) (attached 0x2b 0) 0 1 none
      none).2.2 (by decide) (by decide)⟩

/-! ## Pull-down bit fields -/

set_option maxRecDepth 1000000 in
theorem set_buckspd_field : ∀ nth, nth < 5 → ∀ val, val < 4 → ∀ org, org < 256 →
    1 ≤ nth → field_set (stpmic_set_buckspd org nth val) org (2 * (nth - 1)) val := by
  decide

set_option maxRecDepth 1000000 in
theorem set_ldo1234pd_field : ∀ nth, nth < 5 → ∀ val, val < 4 → ∀ org, org < 256 →
    1 ≤ nth → field_set (stpmic_set_ldo1234pd org nth val) org (2 * (nth - 1)) val := by
  decide

set_option maxRecDepth 1000000 in
theorem set_ldo56pd_field : ∀ nth, nth < 8 → ∀ val, val < 4 → ∀ org, org < 256 →
    5 ≤ nth → field_set (stpmic_set_ldo56pd org nth val) org (2 * (nth - 5)) val := by
  decide

/-- C28. Bitfield helpers touch only their own field: for every register byte
`org` and every mode `val` in 0..3, with `nth` in 1..4 `stpmic_set_buckspd` and
`stpmic_set_ldo1234pd` return a byte whose 2-bit field at bits `2(nth-1)`,
`2(nth-1)+1` is `val` and whose other six bits are those of `org`; with `nth`
in 5..7 so does `stpmic_set_ldo56pd` for the field at bits `2(nth-5)`,
`2(nth-5)+1`. -/
theorem bitfield_helpers_own_field (org nth val : Nat) (horg : org < 256) (hval : val ≤ 3) :
    (1 ≤ nth ∧ nth ≤ 4 →
      field_set (stpmic_set_buckspd org nth val) org (2 * (nth - 1)) val ∧
      field_set (stpmic_set_ldo1234pd org nth val) org (2 * (nth - 1)) val) ∧
    (5 ≤ nth ∧ nth ≤ 7 →
      field_set (stpmic_set_ldo56pd org nth val) org (2 * (nth - 5)) val) :=
  ⟨fun h => ⟨set_buckspd_field nth (by omega) val (by omega) org horg h.1,
      set_ldo1234pd_field nth (by omega) val (by omega) org horg h.1⟩,
    fun h => set_ldo56pd_field nth (by omega) val (by omega) org horg h.1⟩

theorem bitfield_helpers_own_field_witness :
    (field_set (stpmic_set_buckspd 0xa5 3 2) 0xa5 (2 * (3 - 1)) 2 ∧
      field_set (stpmic_set_ldo1234pd 0xa5 3 2) 0xa5 (2 * (3 - 1)) 2) ∧
    field_set (stpmic_set_ldo56pd 0xa5 7 2) 0xa5 (2 * (7 - 5)) 2 :=
  ⟨(bitfield_helpers_own_field 0xa5 3 2 (by decide) (by decide)).1 (by decide),
   (bitfield_helpers_own_field 0xa5 7 2 (by decide) (by decide)).2 (by decide)⟩

/-! ## What every register access keeps -/

theorem read_direct_keeps (T : Transport) (d : Driver) (reg : Nat) :
    (stpmic_read_direct T d reg).2.2.addr = d.addr ∧
    (stpmic_read_direct T d reg).2.2.dev = d.dev ∧
    (stpmic_read_direct T d reg).2.2.timeout_r = d.timeout_r ∧
    (stpmic_read_direct T d reg).2.2.timeout_w = d.timeout_w ∧
    ∃ rest, (stpmic_read_direct T d reg).2.2.bus = d.bus ++ rest := by
  unfold stpmic_read_direct
  split
  · exact ⟨rfl, rfl, rfl, rfl, [], by simp⟩
  · split
    · exact ⟨rfl, rfl, rfl, rfl, [], by simp⟩
    · simp only
      split
      · exact ⟨rfl, rfl, rfl, rfl, _, rfl⟩
      · split
        · exact ⟨rfl, rfl, rfl, rfl, _, List.append_assoc _ _ _⟩
        · split <;> exact ⟨rfl, rfl, rfl, rfl, _, List.append_assoc _ _ _⟩

theorem write_direct_keeps (T : Transport) (d : Driver) (reg val : Nat) :
    (stpmic_write_direct T d reg val).2.addr = d.addr ∧
    (stpmic_write_direct T d reg val).2.dev = d.dev ∧
    (stpmic_write_direct T d reg val).2.timeout_r = d.timeout_r ∧
    (stpmic_write_direct T d reg val).2.timeout_w = d.timeout_w ∧
    ∃ rest, (stpmic_write_direct T d reg val).2.bus = d.bus ++ rest := by
  unfold stpmic_write_direct
  split
  · exact ⟨rfl, rfl, rfl, rfl, [], by simp⟩
  · split
    · exact ⟨rfl, rfl, rfl, rfl, [], by simp⟩
    · simp only
      split
      · exact ⟨rfl, rfl, rfl, rfl, _, rfl⟩
      · split <;> exact ⟨rfl, rfl, rfl, rfl, _, rfl⟩

theorem walk_range_preserves (access : Driver → Nat → Option (stpmic_ret_t × Driver))
    (P : Driver → Prop)
    (hacc : ∀ d reg r d1, P d → access d reg = some (r, d1) → P d1) :
    ∀ (n s : Nat) (w w1 : Walk), P w.drv → walk_range access n s w = some w1 → P w1.drv := by
  intro n
  induction n with
  | zero =>
    intro s w w1 hw h
    simp only [walk_range, Option.some.injEq] at h
    exact h ▸ hw
  | succ n ih =>
    intro s w w1 hw h
    unfold walk_range at h
    cases ha : access w.drv s with
    | none => simp [ha] at h
    | some p =>
      obtain ⟨r, d1⟩ := p
      simp only [ha] at h
      have hd1 := hacc _ _ _ _ hw ha
      by_cases hr : r = STPMIC_RET_OK
      · simp only [hr, ne_eq, not_true_eq_false, if_false] at h
        exact ih (s + 1) _ w1 hd1 h
      · simp only [ne_eq, hr, not_false_eq_true, if_true, Option.some.injEq] at h
        subst h
        exact hd1

theorem walk_regmap_preserves (access : Driver → Nat → Option (stpmic_ret_t × Driver))
    (P : Driver → Prop)
    (hacc : ∀ d reg r d1, P d → access d reg = some (r, d1) → P d1)
    (d : Driver) (w : Walk) (hd : P d)
    (hw : walk_map access STPMIC_REGMAP (walk_init d) = some w) : P w.drv := by
  obtain ⟨w1, w2, w3, w4, w5, h1, h2, h3, h4, h5, h6⟩ := (walk_map_regmap access _ w).mp hw
  have p := walk_range_preserves access P hacc
  exact p _ _ _ _ (p _ _ _ _ (p _ _ _ _ (p _ _ _ _ (p _ _ _ _ (p _ _ _ _ hd h1) h2) h3) h4) h5) h6

theorem bus_addr_eq (a rw : Nat) (ha : a ≤ 0x7f) : bus_addr (a : Int) rw = (a <<< 1) ||| rw := by
  unfold bus_addr
  have h1 : ((a : Int) * 2) % 65536 = ((a * 2 : Nat) : Int) := by
    have : ((a : Int) * 2) = ((a * 2 : Nat) : Int) := by push_cast; ring
    rw [this]
    exact Int.emod_eq_of_lt (Int.natCast_nonneg _) (by exact_mod_cast (by omega : a * 2 < 65536))
  rw [h1, Int.toNat_natCast, Nat.shiftLeft_eq]

theorem reload_keeps (T : Transport) (d : Driver) (P : Driver → Prop)
    (hrd : ∀ d0 reg, P d0 → P (stpmic_read_direct T d0 reg).2.2) (hd : P d) :
    ∃ r d1, stpmic_reload_cache T d = some (r, d1) ∧ P d1 := by
  unfold stpmic_reload_cache
  by_cases h : d.state < STPMIC_DRV_INIT
  · exact ⟨STPMIC_RET_NODEV, d, by rw [if_pos h], hd⟩
  · obtain ⟨w, hw, _⟩ := reload_walk_facts T d
    refine ⟨(walk_result w).1, (walk_result w).2, by rw [if_neg h]; simp only [hw], ?_⟩
    rw [walk_result_drv]
    refine walk_regmap_preserves (reload_access T) P ?_ d w hd hw
    intro d0 reg r d1 h0 ha
    unfold reload_access at ha
    simp only [Option.some.injEq, Prod.mk.injEq] at ha
    rw [← ha.2]
    exact hrd d0 reg h0

/-- With a handle, a negative address and the driver not initialised,
`stpmic_init` resolves the address to `STPMIC1_DEF_ADDR` and addresses its
first transaction, the register-select write of the version read, to it. -/
theorem init_default_addr (T : Transport) (d : Driver) (dev : Option Nat) (addr : Int)
    (hdev : dev ≠ none) (haddr : addr < 0) (hst : d.state = STPMIC_DRV_NOT_INIT) :
    ∃ r d1, stpmic_init T d dev addr = some (r, d1) ∧ d1.addr = STPMIC1_DEF_ADDR ∧
      d1.dev = dev ∧
      ∃ rest, d1.bus = d.bus ++
        Txn.transmit dev (bus_addr STPMIC1_DEF_ADDR 0) [STPMIC_REG_VERSION_SR] d.timeout_r
          :: rest := by
  have hinv : ¬ (dev = none ∨ addr > 0x7f) := by
    intro h
    rcases h with h | h
    · exact hdev h
    · omega
  have hs : ¬ d.state ≠ STPMIC_DRV_NOT_INIT := fun h => h hst
  obtain ⟨d0, hd0⟩ : ∃ d0 : Driver, d0 =
      { d with dev := dev, addr := STPMIC1_DEF_ADDR, state := STPMIC_DRV_INIT } := ⟨_, rfl⟩
  have hst0 : STPMIC_DRV_INIT ≤ d0.state := by rw [hd0]
  -- the property kept by every later access
  let P : Driver → Prop := fun x => x.addr = STPMIC1_DEF_ADDR ∧ x.dev = dev ∧
    ∃ rest, x.bus = d.bus ++
      Txn.transmit dev (bus_addr STPMIC1_DEF_ADDR 0) [STPMIC_REG_VERSION_SR] d.timeout_r
        :: rest
  have hP : ∀ x reg, P x → P (stpmic_read_direct T x reg).2.2 := by
    intro x reg hx
    obtain ⟨k1, k2, _, _, rest, k5⟩ := read_direct_keeps T x reg
    obtain ⟨x1, x2, rest0, x3⟩ := hx
    exact ⟨k1.trans x1, k2.trans x2, rest0 ++ rest, by rw [k5, x3]; simp⟩
  have hP2 : P (stpmic_read_direct T d0 STPMIC_REG_VERSION_SR).2.2 := by
    obtain ⟨k1, k2, _, _, _⟩ := read_direct_keeps T d0 STPMIC_REG_VERSION_SR
    refine ⟨k1.trans (by rw [hd0]), k2.trans (by rw [hd0]), ?_⟩
    have c := read_direct_cases T d0 STPMIC_REG_VERSION_SR hst0 (by decide)
    cases htx : T.HAL_I2C_Master_Transmit d0.bus
        (Txn.transmit d0.dev (bus_addr d0.addr 0) [STPMIC_REG_VERSION_SR] d0.timeout_r)
    · rw [c.1 htx, hd0]
      exact ⟨[], rfl⟩
    · cases hrx : T.HAL_I2C_Master_Receive
          (d0.bus ++ [Txn.transmit d0.dev (bus_addr d0.addr 0) [STPMIC_REG_VERSION_SR]
            d0.timeout_r])
          (Txn.receive d0.dev (bus_addr d0.addr 1) 1 d0.timeout_r) with
      | none =>
        rw [c.2.1 htx hrx, hd0]
        exact ⟨_, rfl⟩
      | some raw =>
        rw [c.2.2 raw htx hrx, hd0]
        exact ⟨_, rfl⟩
  unfold stpmic_init
  rw [if_neg hinv, if_neg hs]
  simp only [haddr, if_true]
  rw [← hd0]
  rcases hrd : stpmic_read_direct T d0 STPMIC_REG_VERSION_SR with ⟨ret, out, d2⟩
  rw [hrd] at hP2
  simp only at hP2
  simp only
  by_cases hret : ret ≠ STPMIC_RET_OK
  · rw [if_pos hret]
    exact ⟨_, _, rfl, hP2.1, hP2.2.1, hP2.2.2⟩
  rw [if_neg hret]
  by_cases hver : out.getD 0 &&& 0xf0 ≠ STPMIC1_MAJOR_VER <<< 4
  · rw [if_pos hver]
    exact ⟨_, _, rfl, hP2.1, hP2.2.1, hP2.2.2⟩
  rw [if_neg hver]
  obtain ⟨r, d3, hrel, hd3⟩ := reload_keeps T d2 P hP hP2
  simp only [hrel]
  by_cases hr : r ≠ STPMIC_RET_OK
  · rw [if_pos hr]
    exact ⟨_, _, rfl, hd3.1, hd3.2.1, hd3.2.2⟩
  · rw [if_neg hr]
    exact ⟨_, _, rfl, hd3.1, hd3.2.1, hd3.2.2⟩

/-! ## Bus wire format -/

/-- C22. Bus wire format: on an attached device with the 7-bit device address
`a`, for a valid register ID, `stpmic_write_direct id v` issues exactly one
transaction, a write to `(a << 1) | 0` with the payload `[id, v]`;
`stpmic_read_direct id` issues a write of the single byte `[id]` to
`(a << 1) | 0`, followed, when that write succeeded, by one read of one byte
from `(a << 1) | 1`, and nothing else; and for every negative address passed
to `stpmic_init` the address kept is `0x33`, to which the first transaction of
the bring-up is addressed. -/
theorem bus_wire_format (T : Transport) (d : Driver) (id v a : Nat)
    (hst : STPMIC_DRV_INIT ≤ d.state) (hid : id < STPMIC_REG_MAX)
    (ha : a ≤ 0x7f) (haddr : d.addr = (a : Int)) :
    (stpmic_write_direct T d id v).2.bus =
      d.bus ++ [Txn.transmit d.dev ((a <<< 1) ||| 0) [id, v] d.timeout_w] ∧
    (stpmic_read_direct T d id).2.2.bus =
      d.bus ++ Txn.transmit d.dev ((a <<< 1) ||| 0) [id] d.timeout_r ::
        (if T.HAL_I2C_Master_Transmit d.bus
              (Txn.transmit d.dev ((a <<< 1) ||| 0) [id] d.timeout_r) = true
          then [Txn.receive d.dev ((a <<< 1) ||| 1) 1 d.timeout_r] else []) ∧
    (∀ (dev : Option Nat) (addr : Int) (d0 : Driver), dev ≠ none → addr < 0 →
      d0.state = STPMIC_DRV_NOT_INIT →
      ∃ r d1, stpmic_init T d0 dev addr = some (r, d1) ∧ d1.addr = 0x33 ∧
        ∃ rest, d1.bus = d0.bus ++
          Txn.transmit dev ((0x33 <<< 1) ||| 0) [STPMIC_REG_VERSION_SR] d0.timeout_r
            :: rest) := by
  have hw0 := bus_addr_eq a 0 ha
  have hw1 := bus_addr_eq a 1 ha
  rw [← haddr] at hw0 hw1
  rw [← hw0, ← hw1]
  refine ⟨?_, ?_, ?_⟩
  · cases htx : T.HAL_I2C_Master_Transmit d.bus
        (Txn.transmit d.dev (bus_addr d.addr 0) [id, v] d.timeout_w)
    · rw [(write_direct_cases T d id v hst hid).1 htx]
    · rw [(write_direct_cases T d id v hst hid).2 htx]
  · have c := read_direct_cases T d id hst hid
    cases htx : T.HAL_I2C_Master_Transmit d.bus
        (Txn.transmit d.dev (bus_addr d.addr 0) [id] d.timeout_r)
    · rw [c.1 htx]
      simp
    · cases hrx : T.HAL_I2C_Master_Receive
          (d.bus ++ [Txn.transmit d.dev (bus_addr d.addr 0) [id] d.timeout_r])
          (Txn.receive d.dev (bus_addr d.addr 1) 1 d.timeout_r) with
      | none => rw [c.2.1 htx hrx]; simp
      | some raw => rw [c.2.2 raw htx hrx]; simp
  · intro dev addr d0 hdev hneg hs0
    obtain ⟨r, d1, h1, h2, _, h4⟩ := init_default_addr T d0 dev addr hdev hneg hs0
    exact ⟨r, d1, h1, h2, h4⟩

theorem bus_wire_format_witness :
    (stpmic_write_direct (transport_const 7) (attached 0x2b 0) STPMIC_REG_MAIN_CR 0x5a).2.bus =
      (attached 0x2b 0).bus ++ [Txn.transmit (attached 0x2b 0).dev ((0x33 <<< 1) ||| 0)
        [STPMIC_REG_MAIN_CR, 0x5a] (attached 0x2b 0).timeout_w] ∧
    (stpmic_read_direct (transport_const 7) (attached 0x2b 0) STPMIC_REG_MAIN_CR).2.2.bus =
      (attached 0x2b 0).bus ++ Txn.transmit (attached 0x2b 0).dev ((0x33 <<< 1) ||| 0)
          [STPMIC_REG_MAIN_CR] (attached 0x2b 0).timeout_r ::
        (if (transport_const 7).HAL_I2C_Master_Transmit (attached 0x2b 0).bus
              (Txn.transmit (attached 0x2b 0).dev ((0x33 <<< 1) ||| 0) [STPMIC_REG_MAIN_CR]
                (attached 0x2b 0).timeout_r) = true
          then [Txn.receive (attached 0x2b 0).dev ((0x33 <<< 1) ||| 1) 1
            (attached 0x2b 0).timeout_r] else []) ∧
    (∃ r d1, stpmic_init (transport_const 7) (STPMIC1 0x2b) (some 1) (-1) = some (r, d1) ∧
      d1.addr = 0x33 ∧
      ∃ rest, d1.bus = (STPMIC1 0x2b).bus ++
        Txn.transmit (some 1) ((0x33 <<< 1) ||| 0) [STPMIC_REG_VERSION_SR]
          (STPMIC1 0x2b).timeout_r :: rest) :=
  ⟨(bus_wire_format (transport_const 7) (attached 0x2b 0) STPMIC_REG_MAIN_CR 0x5a 0x33
      (by decide) (by decide) (by decide) rfl).1,
   (bus_wire_format (transport_const 7) (attached 0x2b 0) STPMIC_REG_MAIN_CR 0x5a 0x33
      (by decide) (by decide) (by decide) rfl).2.1,
   (bus_wire_format (transport_const 7) (attached 0x2b 0) STPMIC_REG_MAIN_CR 0x5a 0x33
      (by decide) (by decide) (by decide) rfl).2.2 (some 1) (-1) (STPMIC1 0x2b)
      (by decide) (by decide) rfl⟩

/-! ## Reload -/

/-- C21, at the failing input: on an attached device whose slots are all
invalid, with a transport on which every call succeeds and every read gives
`0x5a`, `stpmic_reload_cache` reads the registers `0x01` to `0x28` of the
descriptor, whose slots then hold `0x5a` with the mismatch flag clear, but its
call for `0x29` is rejected: it returns `STPMIC_RET_INVALID`, never reads
`0x2a`, and leaves the slots of `0x29` and `0x2a` invalid.  No call of
`stpmic_reload_cache` returns success. -/
theorem reload_stops_at_reg_max :
    (reload_cache_walk (transport_const 0x5a) (attached 0x2b 0x100)).map
        (fun w => w.calls)
      = some ((regmap_valid.map (fun reg => (reg, STPMIC_RET_OK)))
          ++ [(STPMIC_REG_LDOx_MAIN_CR + 4, STPMIC_RET_INVALID)]) ∧
    (stpmic_reload_cache (transport_const 0x5a) (attached 0x2b 0x100)).map
        (fun r => (r.1, r.2.cache[STPMIC_REG_LDO4_MAIN_CR]?,
          r.2.cache[STPMIC_REG_LDOx_MAIN_CR + 4]?, r.2.cache[STPMIC_REG_LDOx_MAIN_CR + 5]?))
      = some (STPMIC_RET_INVALID, some 0x5a, some 0x100, some 0x100) ∧
    regmap_covered STPMIC_REGMAP
      = regmap_valid ++ [STPMIC_REG_LDOx_MAIN_CR + 4, STPMIC_REG_LDOx_MAIN_CR + 5] ∧
    (∀ (T : Transport) (d : Driver),
      ∃ r d1, stpmic_reload_cache T d = some (r, d1) ∧ r ≠ STPMIC_RET_OK) :=
  ⟨by decide, by decide, by decide, reload_not_ok⟩

/-! ## Results of the cached access layer -/

theorem read_direct_ne_already (T : Transport) (d : Driver) (reg : Nat) :
    (stpmic_read_direct T d reg).1 ≠ STPMIC_RET_ALREADY := by
  unfold stpmic_read_direct
  split
  · simp
  · split
    · simp
    · simp only
      split
      · simp
      · split
        · simp
        · split <;> simp

theorem write_direct_ne_already (T : Transport) (d : Driver) (reg val : Nat) :
    (stpmic_write_direct T d reg val).1 ≠ STPMIC_RET_ALREADY := by
  unfold stpmic_write_direct
  split
  · simp
  · split
    · simp
    · simp only
      split
      · simp
      · split <;> simp

theorem read_ne_already (T : Transport) (d : Driver) (reg : Nat) :
    (stpmic_read T d reg).1 ≠ STPMIC_RET_ALREADY := by
  unfold stpmic_read
  split
  · simp
  · split
    · simp
    · split
      · split
        · exact read_direct_ne_already T d reg
        · simp
      · exact read_direct_ne_already T d reg

theorem write_ne_already (T : Transport) (d : Driver) (reg val : Nat) :
    (stpmic_write T d reg val).1 ≠ STPMIC_RET_ALREADY := by
  unfold stpmic_write
  split
  · simp
  · split
    · simp
    · split
      · split
        · exact write_direct_ne_already T d reg val
        · split
          · exact write_direct_ne_already T d reg val
          · simp
      · exact write_direct_ne_already T d reg val

theorem read_cached (T : Transport) (d : Driver) (id v : Nat)
    (hst : STPMIC_DRV_INIT ≤ d.state) (hid : id < STPMIC_REG_MAX)
    (hslot : slot_valid d id v) :
    stpmic_read T d id = (STPMIC_RET_OK, some v, d) := by
  obtain ⟨c, hget, hm, hv⟩ := hslot
  obtain ⟨hc, hcv⟩ := List.getElem?_eq_some.mp hget
  have hb : (c &&& 0xff) % 256 = v := by rw [and_ff_mod, hv]
  unfold stpmic_read
  simp [Nat.not_lt.mpr hst, Nat.not_le.mpr hid, hc, hcv, hm, hb]

theorem read_invalid (T : Transport) (d : Driver) (id : Nat)
    (hst : STPMIC_DRV_INIT ≤ d.state) (hid : STPMIC_REG_MAX ≤ id) :
    stpmic_read T d id = (STPMIC_RET_INVALID, none, d) := by
  unfold stpmic_read
  simp [Nat.not_lt.mpr hst, hid]

theorem write_invalid (T : Transport) (d : Driver) (id v : Nat)
    (hst : STPMIC_DRV_INIT ≤ d.state) (hid : STPMIC_REG_MAX ≤ id) :
    stpmic_write T d id v = (STPMIC_RET_INVALID, d) := by
  unfold stpmic_write
  simp [Nat.not_lt.mpr hst, hid]

/-! ## REFDDR -/

/-- C25, at the failing input: with the REFDDR control register at `0x24`, on
an attached device whose slots all hold `0` with the mismatch flag clear
(the REFDDR enable bit is cached as clear), `__stpmic_refddr_disable` returns
`STPMIC_RET_OK`, not `STPMIC_RET_ALREADY`; after a first
`__stpmic_refddr_enable`, which writes `0x01` to the register, a second one
returns `STPMIC_RET_OK` too, with no further bus transaction.  The two
functions test the bit nowhere: for every register layout, transport and
state, neither of them returns `STPMIC_RET_ALREADY`, whereas
`__stpmic_ldo_enable` on the same kind of input does. -/
theorem refddr_never_already :
    __stpmic_refddr_disable stpmic1_undeclared (transport_const 0) (attached 0x2b 0) 0
      = (STPMIC_RET_OK, attached 0x2b 0) ∧
    (__stpmic_refddr_enable stpmic1_undeclared (transport_const 0) (attached 0x2b 0) 0).1
      = STPMIC_RET_OK ∧
    (__stpmic_refddr_enable stpmic1_undeclared (transport_const 0) (attached 0x2b 0) 0).2.bus
      = [Txn.transmit (some 1) 0x66 [0x24, 0x01] STPMIC_INIT_DELAY] ∧
    __stpmic_refddr_enable stpmic1_undeclared (transport_const 0)
        (__stpmic_refddr_enable stpmic1_undeclared (transport_const 0) (attached 0x2b 0) 0).2 0
      = (STPMIC_RET_OK,
        (__stpmic_refddr_enable stpmic1_undeclared (transport_const 0) (attached 0x2b 0) 0).2) ∧
    __stpmic_ldo_enable stpmic1_undeclared (transport_const 0) (attached 0x2b 1) 1 0
      = (STPMIC_RET_ALREADY, attached 0x2b 1) ∧
    (∀ (X : Undeclared) (T : Transport) (d : Driver) (alt : Nat),
      (__stpmic_refddr_enable X T d alt).1 ≠ STPMIC_RET_ALREADY ∧
      (__stpmic_refddr_disable X T d alt).1 ≠ STPMIC_RET_ALREADY) := by
  refine ⟨by decide, by decide, by decide, by decide, by decide, ?_⟩
  intro X T d alt
  constructor
  · unfold __stpmic_refddr_enable
    have hr := read_ne_already T d
      (if alt ≠ 0 then X.STPMIC_REG_REFDDR_ALT_CR else X.STPMIC_REG_REFDDR_MAIN_CR)
    rcases hrd : stpmic_read T d
      (if alt ≠ 0 then X.STPMIC_REG_REFDDR_ALT_CR else X.STPMIC_REG_REFDDR_MAIN_CR)
      with ⟨ret, out, d1⟩
    rw [hrd] at hr
    simp only
    split
    · exact hr
    · exact write_ne_already T d1 _ _
  · unfold __stpmic_refddr_disable
    have hr := read_ne_already T d
      (if alt ≠ 0 then X.STPMIC_REG_REFDDR_ALT_CR else X.STPMIC_REG_REFDDR_MAIN_CR)
    rcases hrd : stpmic_read T d
      (if alt ≠ 0 then X.STPMIC_REG_REFDDR_ALT_CR else X.STPMIC_REG_REFDDR_MAIN_CR)
      with ⟨ret, out, d1⟩
    rw [hrd] at hr
    simp only
    split
    · exact hr
    · exact write_ne_already T d1 _ _

/-! ## Watchdog reset -/

set_option maxRecDepth 1000000 in
theorem watchdog_odd_disabled : ∀ sec, sec < 256 → sec % 2 = 1 →
    (stpmic_watchdog_init (transport_const 0) (attached 0x2b 0) sec).1 = STPMIC_RET_OK ∧
    (stpmic_watchdog_reset (transport_const 0)
      (stpmic_watchdog_init (transport_const 0) (attached 0x2b 0) sec).2).1
      = STPMIC_RET_DISABLED := by
  decide

/-- C30, at the failing input: on an attached device whose slots all hold `0`
with the mismatch flag clear, with a transport on which every call succeeds,
`stpmic_watchdog_init 1` returns `STPMIC_RET_OK` and leaves `0x03` (ENA set)
in the slot of `STPMIC_REG_WDG_CR` and `0x00` in the slot of
`STPMIC_REG_WDG_TMR_CR`; the `stpmic_watchdog_reset` that follows returns
`STPMIC_RET_DISABLED` and issues no bus transaction.  With `sec = 2` it
returns `STPMIC_RET_OK` and writes `0x03` to `STPMIC_REG_WDG_CR`.  On a device
whose slots all hold `0x01`, after `stpmic_watchdog_deinit` (ENA clear) the
reset returns `STPMIC_RET_OK` and writes `0x03`: the bit tested is bit 0 of
`STPMIC_REG_WDG_TMR_CR`, not of `STPMIC_REG_WDG_CR`.  On the first device,
for every odd `sec` below 256 the init succeeds and the reset that follows
returns `STPMIC_RET_DISABLED`. -/
theorem watchdog_reset_tests_timer_register :
    (stpmic_watchdog_init (transport_const 0) (attached 0x2b 0) 1).1 = STPMIC_RET_OK ∧
    ((stpmic_watchdog_init (transport_const 0) (attached 0x2b 0) 1).2.cache[STPMIC_REG_WDG_CR]?,
     (stpmic_watchdog_init (transport_const 0) (attached 0x2b 0) 1).2.cache[STPMIC_REG_WDG_TMR_CR]?)
      = (some 0x03, some 0x00) ∧
    stpmic_watchdog_reset (transport_const 0)
        (stpmic_watchdog_init (transport_const 0) (attached 0x2b 0) 1).2
      = (STPMIC_RET_DISABLED, (stpmic_watchdog_init (transport_const 0) (attached 0x2b 0) 1).2) ∧
    (stpmic_watchdog_init (transport_const 0) (attached 0x2b 0) 2).1 = STPMIC_RET_OK ∧
    (let d1 := (stpmic_watchdog_init (transport_const 0) (attached 0x2b 0) 2).2
     (stpmic_watchdog_reset (transport_const 0) d1).1 = STPMIC_RET_OK ∧
     (stpmic_watchdog_reset (transport_const 0) d1).2.bus
       = d1.bus ++ [Txn.transmit (some 1) 0x66 [STPMIC_REG_WDG_CR, 0x03] STPMIC_INIT_DELAY]) ∧
    (let d2 := (stpmic_watchdog_deinit (transport_const 0) (attached 0x2b 1)).2
     d2.cache[STPMIC_REG_WDG_CR]? = some 0x02 ∧
     (stpmic_watchdog_reset (transport_const 0) d2).1 = STPMIC_RET_OK ∧
     (stpmic_watchdog_reset (transport_const 0) d2).2.bus
       = d2.bus ++ [Txn.transmit (some 1) 0x66 [STPMIC_REG_WDG_CR, 0x03] STPMIC_INIT_DELAY]) ∧
    (∀ sec, sec < 256 → sec % 2 = 1 →
      (stpmic_watchdog_init (transport_const 0) (attached 0x2b 0) sec).1 = STPMIC_RET_OK ∧
      (stpmic_watchdog_reset (transport_const 0)
        (stpmic_watchdog_init (transport_const 0) (attached 0x2b 0) sec).2).1
        = STPMIC_RET_DISABLED) :=
  ⟨by decide, by decide, by decide, by decide, by decide, by decide, watchdog_odd_disabled⟩

/-! ## Regulator helpers: enable and disable -/

theorem read_state (T : Transport) (d : Driver) (reg : Nat) :
    (stpmic_read T d reg).2.2.state = d.state := by
  unfold stpmic_read
  split
  · rfl
  · split
    · rfl
    · split
      · split
        · exact (read_direct_frame T d reg).2
        · rfl
      · exact (read_direct_frame T d reg).2

theorem write_state (T : Transport) (d : Driver) (reg val : Nat) :
    (stpmic_write T d reg val).2.state = d.state := by
  unfold stpmic_write
  split
  · rfl
  · split
    · rfl
    · split
      · split
        · exact (write_direct_frame T d reg val).2
        · split
          · exact (write_direct_frame T d reg val).2
          · rfl
      · exact (write_direct_frame T d reg val).2

theorem ldo56_invalid (X : Undeclared) (T : Transport) (d : Driver) (nth : Nat)
    (hst : STPMIC_DRV_INIT ≤ d.state) (h : nth = 5 ∨ nth = 6) :
    __stpmic_ldo_enable X T d nth 0 = (STPMIC_RET_INVALID, d) ∧
    __stpmic_ldo_disable X T d nth 0 = (STPMIC_RET_INVALID, d) := by
  have h1 : ¬ (nth ≤ 0 ∨ nth > 6) := by omega
  have hid : STPMIC_REG_MAX ≤ (STPMIC_REG_LDOx_MAIN_CR + (nth - 1)) % 256 := by
    rcases h with rfl | rfl <;> decide
  have hrd := read_invalid T d _ hst hid
  constructor
  · unfold __stpmic_ldo_enable
    rw [if_neg h1]
    simp [hrd]
  · unfold __stpmic_ldo_disable
    rw [if_neg h1]
    simp [hrd]

theorem buck_already (X : Undeclared) (T : Transport) (d : Driver) (nth v : Nat)
    (hst : STPMIC_DRV_INIT ≤ d.state) (h1 : 1 ≤ nth) (h4 : nth ≤ 4)
    (hslot : slot_valid d (STPMIC_REG_BUCKx_MAIN_CR + (nth - 1)) v) :
    (v &&& 1 ≠ 0 → __stpmic_buck_enable X T d nth 0 = (STPMIC_RET_ALREADY, d)) ∧
    (v &&& 1 = 0 → __stpmic_buck_disable X T d nth 0 = (STPMIC_RET_ALREADY, d)) := by
  have hr : ¬ (nth ≤ 0 ∨ nth > 4) := by omega
  have hid : STPMIC_REG_BUCKx_MAIN_CR + (nth - 1) < STPMIC_REG_MAX := by
    unfold STPMIC_REG_BUCKx_MAIN_CR STPMIC_REG_MAX
    omega
  have hcr : stpmic_buck_main_cr T d nth = (STPMIC_RET_OK, some v, d) := by
    unfold stpmic_buck_main_cr
    rw [if_neg hr]
    exact read_cached T d _ v hst hid hslot
  have hm : STPMIC_BIT_MASK 0 = 1 := by decide
  constructor
  · intro hv
    have hv1 := hv
    simp at hv1
    unfold __stpmic_buck_enable
    simp [hcr, hm, hv1]
  · intro hv
    unfold __stpmic_buck_disable
    simp [hcr, hm, hv]

theorem ldo_already (X : Undeclared) (T : Transport) (d : Driver) (nth v : Nat)
    (hst : STPMIC_DRV_INIT ≤ d.state) (h1 : 1 ≤ nth) (h4 : nth ≤ 4)
    (hslot : slot_valid d (STPMIC_REG_LDOx_MAIN_CR + (nth - 1)) v) :
    (v &&& 1 ≠ 0 → __stpmic_ldo_enable X T d nth 0 = (STPMIC_RET_ALREADY, d)) ∧
    (v &&& 1 = 0 → __stpmic_ldo_disable X T d nth 0 = (STPMIC_RET_ALREADY, d)) := by
  have hr : ¬ (nth ≤ 0 ∨ nth > 6) := by omega
  have hlt : STPMIC_REG_LDOx_MAIN_CR + (nth - 1) < STPMIC_REG_MAX := by
    unfold STPMIC_REG_LDOx_MAIN_CR STPMIC_REG_MAX
    omega
  have hmod : (STPMIC_REG_LDOx_MAIN_CR + (nth - 1)) % 256
      = STPMIC_REG_LDOx_MAIN_CR + (nth - 1) := reg_mod_256 _ hlt
  have hrd := read_cached T d _ v hst hlt hslot
  have hm : STPMIC_BIT_MASK 0 = 1 := by decide
  constructor
  · intro hv
    have hv1 := hv
    simp at hv1
    unfold __stpmic_ldo_enable
    rw [if_neg hr]
    simp [hmod, hrd, hm, hv1]
  · intro hv
    unfold __stpmic_ldo_disable
    rw [if_neg hr]
    simp [hmod, hrd, hm, hv]

/-- C24, at the failing input: on an attached device whose slots all hold `0`
with the mismatch flag clear (the state of the cache array before any access),
the main control register of LDO 5 is cached with the enable bit clear, and
`__stpmic_ldo_disable 5` returns `STPMIC_RET_INVALID`, not
`STPMIC_RET_ALREADY`; so does it for LDO 6, and so does `__stpmic_ldo_enable`
for LDO 5 and 6 when the slots hold `1`.  For every attached state, LDO 5 and
6 give `STPMIC_RET_INVALID` in main mode.  For the bucks 1 to 4 and the LDOs 1
to 4 the helpers do what is claimed: with the main control register cached,
enable returns `STPMIC_RET_ALREADY` when bit 0 is set, disable when it is
clear, the driver state, cache and bus log being unchanged. -/
theorem ldo5_ldo6_enable_disable_invalid :
    slot_valid (attached 0x2b 0) (STPMIC_REG_LDOx_MAIN_CR + (5 - 1)) 0 ∧
    slot_valid (attached 0x2b 1) (STPMIC_REG_LDOx_MAIN_CR + (5 - 1)) 1 ∧
    __stpmic_ldo_disable stpmic1_undeclared (transport_const 0) (attached 0x2b 0) 5 0
      = (STPMIC_RET_INVALID, attached 0x2b 0) ∧
    __stpmic_ldo_disable stpmic1_undeclared (transport_const 0) (attached 0x2b 0) 6 0
      = (STPMIC_RET_INVALID, attached 0x2b 0) ∧
    __stpmic_ldo_enable stpmic1_undeclared (transport_const 0) (attached 0x2b 1) 5 0
      = (STPMIC_RET_INVALID, attached 0x2b 1) ∧
    __stpmic_ldo_enable stpmic1_undeclared (transport_const 0) (attached 0x2b 1) 6 0
      = (STPMIC_RET_INVALID, attached 0x2b 1) ∧
    (∀ (X : Undeclared) (T : Transport) (d : Driver) (nth : Nat),
      STPMIC_DRV_INIT ≤ d.state → nth = 5 ∨ nth = 6 →
      __stpmic_ldo_enable X T d nth 0 = (STPMIC_RET_INVALID, d) ∧
      __stpmic_ldo_disable X T d nth 0 = (STPMIC_RET_INVALID, d)) ∧
    (∀ (X : Undeclared) (T : Transport) (d : Driver) (nth v : Nat),
      STPMIC_DRV_INIT ≤ d.state → 1 ≤ nth → nth ≤ 4 →
      (slot_valid d (STPMIC_REG_BUCKx_MAIN_CR + (nth - 1)) v →
        (v &&& 1 ≠ 0 → __stpmic_buck_enable X T d nth 0 = (STPMIC_RET_ALREADY, d)) ∧
        (v &&& 1 = 0 → __stpmic_buck_disable X T d nth 0 = (STPMIC_RET_ALREADY, d))) ∧
      (slot_valid d (STPMIC_REG_LDOx_MAIN_CR + (nth - 1)) v →
        (v &&& 1 ≠ 0 → __stpmic_ldo_enable X T d nth 0 = (STPMIC_RET_ALREADY, d)) ∧
        (v &&& 1 = 0 → __stpmic_ldo_disable X T d nth 0 = (STPMIC_RET_ALREADY, d)))) :=
  ⟨⟨0, by decide, by decide, by decide⟩, ⟨1, by decide, by decide, by decide⟩,
   by decide, by decide, by decide, by decide,
   fun X T d nth hst h => ldo56_invalid X T d nth hst h,
   fun X T d nth v hst h1 h4 =>
     ⟨buck_already X T d nth v hst h1 h4, ldo_already X T d nth v hst h1 h4⟩⟩

/-! ## Regulator indices and register IDs -/

theorem ldo56_setup_cr_invalid (X : Undeclared) (T : Transport) (d : Driver) (nth : Nat)
    (o : stpmic_ldo_t) (hst : STPMIC_DRV_INIT ≤ d.state) (h : nth = 5 ∨ nth = 6) :
    ldo_setup_cr X T d nth 0 o = (STPMIC_RET_INVALID, d) := by
  have hid : STPMIC_REG_MAX ≤ (STPMIC_REG_LDOx_MAIN_CR + (nth - 1)) % 256 := by
    rcases h with rfl | rfl <;> decide
  have hv : ∃ val, ldo_setup_val nth o = some val := by
    unfold ldo_setup_val
    rw [if_pos (by omega)]
    exact ⟨_, rfl⟩
  obtain ⟨val, hval⟩ := hv
  unfold ldo_setup_cr
  simp only [hval, ne_eq, not_true_eq_false, if_false]
  exact write_invalid T d _ _ hst hid

theorem ldo56_setup_not_ok (X : Undeclared) (T : Transport) (d : Driver) (nth : Nat)
    (o : stpmic_ldo_t) (hst : STPMIC_DRV_INIT ≤ d.state) (h : nth = 5 ∨ nth = 6) :
    ∃ r d1, __stpmic_ldo_setup X T d nth 0 (some o) = some (r, d1) ∧ r ≠ STPMIC_RET_OK := by
  have h2 : ¬ (nth ≥ 1 ∧ nth ≤ 4) := by omega
  have h3 : nth ≥ 5 ∧ nth ≤ 6 := by omega
  unfold __stpmic_ldo_setup
  rw [if_neg h2, if_pos h3]
  have hs1 := read_state T d STPMIC_REG_LDO56_VREF_PD_CR
  unfold stpmic_ldo56pd
  rcases hrd : stpmic_read T d STPMIC_REG_LDO56_VREF_PD_CR with ⟨ret, reg, d1⟩
  rw [hrd] at hs1
  simp only at hs1 ⊢
  by_cases hret : ret ≠ STPMIC_RET_OK
  · rw [if_pos hret]
    exact ⟨ret, d1, rfl, hret⟩
  · rw [if_neg hret]
    have hs2 := write_state T d1 STPMIC_REG_LDO56_VREF_PD_CR
      (stpmic_set_ldo56pd (reg.getD 0) nth o.pd)
    rcases hw : stpmic_write T d1 STPMIC_REG_LDO56_VREF_PD_CR
      (stpmic_set_ldo56pd (reg.getD 0) nth o.pd) with ⟨ret2, d2⟩
    rw [hw] at hs2
    simp only at hs2 ⊢
    by_cases hret2 : ret2 ≠ STPMIC_RET_OK
    · rw [if_pos hret2]
      exact ⟨ret2, d2, rfl, hret2⟩
    · rw [if_neg hret2]
      have hst2 : STPMIC_DRV_INIT ≤ d2.state := by rw [hs2, hs1]; exact hst
      rw [ldo56_setup_cr_invalid X T d2 nth o hst2 h]
      exact ⟨STPMIC_RET_INVALID, d2, rfl, by decide⟩

/-- C27, at the failing input: the register IDs of the bucks 1 to 4 and of the
LDOs 1 to 4 are below `STPMIC_REG_MAX`, but those of LDO 5 and LDO 6,
`STPMIC_REG_LDOx_MAIN_CR + 4 = 0x29` and `STPMIC_REG_LDOx_MAIN_CR + 5 = 0x2a`,
are not, and the access layer rejects them.  On a device in state
`STPMIC_DRV_READY` with a transport on which every call succeeds,
`__stpmic_ldo_enable 5`, `__stpmic_ldo_disable 6` and `__stpmic_ldo_setup 5`
in main mode return `STPMIC_RET_INVALID`, the setup after it has written the
pull-down register `STPMIC_REG_LDO56_VREF_PD_CR`.  For every attached state
and every transport, enable and disable of LDO 5 and 6 in main mode return
`STPMIC_RET_INVALID` and the setup returns a failure. -/
theorem ldo5_ldo6_register_ids_rejected :
    (∀ nth, 1 ≤ nth → nth ≤ 4 →
      STPMIC_REG_BUCKx_MAIN_CR + (nth - 1) < STPMIC_REG_MAX ∧
      STPMIC_REG_LDOx_MAIN_CR + (nth - 1) < STPMIC_REG_MAX) ∧
    STPMIC_REG_MAX ≤ STPMIC_REG_LDOx_MAIN_CR + (5 - 1) ∧
    STPMIC_REG_MAX ≤ STPMIC_REG_LDOx_MAIN_CR + (6 - 1) ∧
    __stpmic_ldo_enable stpmic1_undeclared (transport_const 0) (ready 0x2b 0) 5 0
      = (STPMIC_RET_INVALID, ready 0x2b 0) ∧
    __stpmic_ldo_disable stpmic1_undeclared (transport_const 0) (ready 0x2b 1) 6 0
      = (STPMIC_RET_INVALID, ready 0x2b 1) ∧
    (__stpmic_ldo_setup stpmic1_undeclared (transport_const 0) (ready 0x2b 0) 5 0
        (some { pd := 1, enable := 1, volts := 9, bypass := 0, src := 0 })).map
        (fun r => (r.1, r.2.bus))
      = some (STPMIC_RET_INVALID,
          [Txn.transmit (some 1) 0x66 [STPMIC_REG_LDO56_VREF_PD_CR, 0x01] STPMIC_INIT_DELAY]) ∧
    (∀ nth, 1 ≤ nth → nth ≤ 4 →
      (__stpmic_ldo_enable stpmic1_undeclared (transport_const 0) (ready 0x2b 0) nth 0).1
        = STPMIC_RET_OK) ∧
    (∀ (X : Undeclared) (T : Transport) (d : Driver) (nth : Nat) (o : stpmic_ldo_t),
      STPMIC_DRV_INIT ≤ d.state → nth = 5 ∨ nth = 6 →
      __stpmic_ldo_enable X T d nth 0 = (STPMIC_RET_INVALID, d) ∧
      __stpmic_ldo_disable X T d nth 0 = (STPMIC_RET_INVALID, d) ∧
      ∃ r d1, __stpmic_ldo_setup X T d nth 0 (some o) = some (r, d1) ∧ r ≠ STPMIC_RET_OK) := by
  refine ⟨?_, by decide, by decide, by decide, by decide, by decide, ?_, ?_⟩
  · intro nth h1 h4
    unfold STPMIC_REG_BUCKx_MAIN_CR STPMIC_REG_LDOx_MAIN_CR STPMIC_REG_MAX
    omega
  · intro nth h1 h4
    have h : nth = 1 ∨ nth = 2 ∨ nth = 3 ∨ nth = 4 := by omega
    rcases h with rfl | rfl | rfl | rfl <;> decide
  · intro X T d nth o hst h
    exact ⟨(ldo56_invalid X T d nth hst h).1, (ldo56_invalid X T d nth hst h).2,
      ldo56_setup_not_ok X T d nth o hst h⟩

/-! ## Successful accesses and the cache slot -/

theorem read_direct_ok_slot (T : Transport) (d : Driver) (id v : Nat) (d1 : Driver)
    (hst : STPMIC_DRV_INIT ≤ d.state) (hid : id < STPMIC_REG_MAX)
    (h : stpmic_read_direct T d id = (STPMIC_RET_OK, some v, d1)) :
    ∃ raw, T.HAL_I2C_Master_Receive
        (d.bus ++ [Txn.transmit d.dev (bus_addr d.addr 0) [id] d.timeout_r])
        (Txn.receive d.dev (bus_addr d.addr 1) 1 d.timeout_r) = some raw ∧
      v = raw % 256 ∧
      d1 = { d with
        bus := d.bus ++ [Txn.transmit d.dev (bus_addr d.addr 0) [id] d.timeout_r,
          Txn.receive d.dev (bus_addr d.addr 1) 1 d.timeout_r],
        cache := if id < d.cache.length then d.cache.set id v else d.cache } := by
  have c := read_direct_cases T d id hst hid
  cases htx : T.HAL_I2C_Master_Transmit d.bus
      (Txn.transmit d.dev (bus_addr d.addr 0) [id] d.timeout_r)
  · rw [c.1 htx] at h
    simp at h
  · cases hrx : T.HAL_I2C_Master_Receive
        (d.bus ++ [Txn.transmit d.dev (bus_addr d.addr 0) [id] d.timeout_r])
        (Txn.receive d.dev (bus_addr d.addr 1) 1 d.timeout_r) with
    | none =>
      rw [c.2.1 htx hrx] at h
      simp at h
    | some raw =>
      rw [c.2.2 raw htx hrx] at h
      simp only [Prod.mk.injEq, Option.some.injEq, true_and] at h
      refine ⟨raw, rfl, h.1.symm, ?_⟩
      rw [← h.2, ← h.1]

theorem set_slot_valid (cache : List Nat) (id v : Nat) (hc : id < cache.length)
    (hv : v < 256) (d : Driver) (hd : d.cache = cache.set id v) : slot_valid d id v := by
  refine ⟨v, ?_, byte_and_mismatch v hv, byte_and_ff v hv⟩
  rw [hd]
  simp [hc]

theorem read_ok_slot (T : Transport) (d : Driver) (id v : Nat) (d1 : Driver)
    (hst : STPMIC_DRV_INIT ≤ d.state) (hid : id < STPMIC_REG_MAX) (hc : id < d.cache.length)
    (h : stpmic_read T d id = (STPMIC_RET_OK, some v, d1)) :
    slot_valid d1 id v ∧ (∀ j, j ≠ id → d1.cache[j]? = d.cache[j]?) ∧
      d1.cache.length = d.cache.length ∧ d1.state = d.state := by
  unfold stpmic_read at h
  simp only [Nat.not_lt.mpr hst, Nat.not_le.mpr hid, cache_max_eq, hc, if_false, dite_true,
    ge_iff_le] at h
  by_cases hm : d.cache[id] &&& STPMIC_CACHE_MISMATCH ≠ 0
  · rw [if_pos hm] at h
    obtain ⟨raw, _, hv, hd1⟩ := read_direct_ok_slot T d id v d1 hst hid h
    rw [if_pos hc] at hd1
    have hvlt : v < 256 := by rw [hv]; exact Nat.mod_lt _ (by norm_num)
    refine ⟨set_slot_valid d.cache id v hc hvlt d1 (by rw [hd1]), ?_, ?_, ?_⟩
    · intro j hj
      rw [hd1]
      simp [List.getElem?_set_ne (Ne.symm hj)]
    · rw [hd1]; simp
    · rw [hd1]
  · rw [if_neg hm] at h
    simp only [Prod.mk.injEq, Option.some.injEq, true_and] at h
    obtain ⟨hv, hd1⟩ := h
    subst hd1
    refine ⟨⟨d.cache[id], List.getElem?_eq_getElem hc, by simpa using hm, ?_⟩,
      fun _ _ => rfl, rfl, rfl⟩
    rw [← hv, and_ff_mod]

theorem read_out_byte (T : Transport) (d : Driver) (id v : Nat) (d1 : Driver)
    (h : stpmic_read T d id = (STPMIC_RET_OK, some v, d1)) : v < 256 := by
  have hb : ∀ d0 : Driver, stpmic_read_direct T d0 id = (STPMIC_RET_OK, some v, d1) →
      v < 256 := by
    intro d0 h0
    unfold stpmic_read_direct at h0
    split at h0
    · simp at h0
    · split at h0
      · simp at h0
      · simp only at h0
        split at h0
        · simp at h0
        · split at h0
          · simp at h0
          · split at h0 <;>
            · simp only [Prod.mk.injEq, Option.some.injEq, true_and] at h0
              rw [← h0.1]
              exact Nat.mod_lt _ (by norm_num)
  unfold stpmic_read at h
  split at h
  · simp at h
  · split at h
    · simp at h
    · split at h
      · split at h
        · exact hb d h
        · simp only [Prod.mk.injEq, Option.some.injEq, true_and] at h
          rw [← h.1]
          exact Nat.mod_lt _ (by norm_num)
      · exact hb d h

theorem write_ok_slot (T : Transport) (d : Driver) (id v : Nat) (d1 : Driver)
    (hst : STPMIC_DRV_INIT ≤ d.state) (hid : id < STPMIC_REG_MAX) (hc : id < d.cache.length)
    (hv : v < 256) (h : stpmic_write T d id v = (STPMIC_RET_OK, d1)) :
    slot_valid d1 id v ∧ (∀ j, j ≠ id → d1.cache[j]? = d.cache[j]?) ∧
      d1.cache.length = d.cache.length ∧ d1.state = d.state := by
  have hdirect : stpmic_write_direct T d id v = (STPMIC_RET_OK, d1) →
      slot_valid d1 id v ∧ (∀ j, j ≠ id → d1.cache[j]? = d.cache[j]?) ∧
        d1.cache.length = d.cache.length ∧ d1.state = d.state := by
    intro h0
    have c := write_direct_cases T d id v hst hid
    cases htx : T.HAL_I2C_Master_Transmit d.bus
        (Txn.transmit d.dev (bus_addr d.addr 0) [id, v] d.timeout_w)
    · rw [c.1 htx] at h0
      simp at h0
    · rw [c.2 htx, if_pos hc] at h0
      simp only [Prod.mk.injEq, true_and] at h0
      refine ⟨set_slot_valid d.cache id v hc hv d1 (by rw [← h0]), ?_, ?_, ?_⟩
      · intro j hj
        rw [← h0]
        simp [List.getElem?_set_ne (Ne.symm hj)]
      · rw [← h0]; simp
      · rw [← h0]
  unfold stpmic_write at h
  simp only [Nat.not_lt.mpr hst, Nat.not_le.mpr hid, cache_max_eq, hc, if_false, dite_true,
    ge_iff_le] at h
  by_cases hm : d.cache[id] &&& STPMIC_CACHE_MISMATCH ≠ 0
  · rw [if_pos hm] at h
    exact hdirect h
  · rw [if_neg hm] at h
    by_cases hne : (d.cache[id] &&& 0xff) % 256 ≠ v
    · rw [if_pos hne] at h
      exact hdirect h
    · rw [if_neg hne] at h
      simp only [Prod.mk.injEq, true_and] at h
      subst h
      refine ⟨⟨d.cache[id], List.getElem?_eq_getElem hc, by simpa using hm, ?_⟩,
        fun _ _ => rfl, rfl, rfl⟩
      have := not_not.mp hne
      rw [← this, and_ff_mod]

/-! ## MRST masks -/

theorem mrst_new_bits (B L val : Nat) :
    ((set_mrst_bytes B L val).2 ||| ((set_mrst_bytes B L val).1 <<< 8)) % 65536 &&& 0x0f7f
      = val &&& 0x0f7f := by
  unfold set_mrst_bytes
  apply Nat.eq_of_testBit_eq
  intro i
  simp only [show (256 : Nat) = 2 ^ 8 from rfl, show (65536 : Nat) = 2 ^ 16 from rfl,
    Nat.testBit_and, Nat.testBit_or, Nat.testBit_mod_two_pow, Nat.testBit_shiftLeft,
    Nat.testBit_shiftRight, Nat.testBit_xor]
  by_cases hi : i < 16
  · interval_cases i <;> simp [Nat.testBit]
  · have h1 : Nat.testBit 0x0f7f i = false :=
      Nat.testBit_lt_two_pow (lt_of_lt_of_le (by norm_num)
        (Nat.pow_le_pow_right (by norm_num) (Nat.le_of_not_lt hi)))
    simp [h1]

theorem mrst_old_bits (B L val : Nat) (hL : L < 256) :
    ((set_mrst_bytes B L val).2 ||| ((set_mrst_bytes B L val).1 <<< 8)) % 65536 &&& 0xf080
      = (L ||| (B <<< 8)) % 65536 &&& 0xf080 := by
  unfold set_mrst_bytes
  have hL1 : L = L % 2 ^ 8 := (Nat.mod_eq_of_lt hL).symm
  rw [hL1]
  apply Nat.eq_of_testBit_eq
  intro i
  simp only [show (256 : Nat) = 2 ^ 8 from rfl, show (65536 : Nat) = 2 ^ 16 from rfl,
    Nat.testBit_and, Nat.testBit_or, Nat.testBit_mod_two_pow, Nat.testBit_shiftLeft,
    Nat.testBit_shiftRight, Nat.testBit_xor]
  by_cases hi : i < 16
  · interval_cases i <;> simp [Nat.testBit]
  · have h1 : Nat.testBit 0xf080 i = false :=
      Nat.testBit_lt_two_pow (lt_of_lt_of_le (by norm_num)
        (Nat.pow_le_pow_right (by norm_num) (Nat.le_of_not_lt hi)))
    simp [h1]

theorem mrst_value (B L : Nat) (hB : B < 256) (hL : L < 256) :
    (L ||| (B <<< 8)) % 65536 = (B <<< 8) ||| L := by
  have h : L ||| (B <<< 8) < 2 ^ 16 :=
    Nat.or_lt_two_pow (by omega) (by rw [Nat.shiftLeft_eq]; omega)
  have h1 : L ||| (B <<< 8) < 65536 := h
  rw [Nat.mod_eq_of_lt h1, Nat.or_comm]

theorem set_mrst_bytes_lt (B L val : Nat) :
    (set_mrst_bytes B L val).1 < 256 ∧ (set_mrst_bytes B L val).2 < 256 :=
  ⟨Nat.mod_lt _ (by norm_num), Nat.mod_lt _ (by norm_num)⟩

theorem mrst_of_reads (T : Transport) (d : Driver) (B L : Nat) (dB d1 : Driver)
    (h1 : stpmic_read T d STPMIC_REG_BUCKS_MRST_CR = (STPMIC_RET_OK, some B, dB))
    (h2 : stpmic_read T dB STPMIC_REG_LDOS_MRST_CR = (STPMIC_RET_OK, some L, d1)) :
    stpmic_mrst T d = (STPMIC_RET_OK, some ((L ||| (B <<< 8)) % 65536), d1) := by
  unfold stpmic_mrst
  simp [h1, h2]

/-- C31. MRST byte order: on an attached device whose cache array holds the two
MRST registers, when both reads succeed, with the value `B` for `BUCKS_MRST_CR`
(`0x18`) and `L` for `LDOS_MRST_CR` (`0x1a`), `stpmic_mrst` returns
`(B << 8) | L`; and after a successful `stpmic_set_mrst val` the value `new`
that `stpmic_mrst` returns, without bus traffic, agrees with `val` on the mask
`0x0F7F` and, on all other bits (mask `0xF080`), with the value `old` that
`stpmic_mrst` returned for the registers before. -/
theorem mrst_byte_order (T : Transport) (d : Driver) (val : Nat)
    (hst : STPMIC_DRV_INIT ≤ d.state)
    (hc : STPMIC_REG_LDOS_MRST_CR < STPMIC_REG_CACHE_MAX d) :
    (∀ B L dB d1,
      stpmic_read T d STPMIC_REG_BUCKS_MRST_CR = (STPMIC_RET_OK, some B, dB) →
      stpmic_read T dB STPMIC_REG_LDOS_MRST_CR = (STPMIC_RET_OK, some L, d1) →
      stpmic_mrst T d = (STPMIC_RET_OK, some ((B <<< 8) ||| L), d1)) ∧
    (∀ d2, stpmic_set_mrst T d val = (STPMIC_RET_OK, d2) →
      ∃ old new d1, stpmic_mrst T d = (STPMIC_RET_OK, some old, d1) ∧
        stpmic_mrst T d2 = (STPMIC_RET_OK, some new, d2) ∧
        new &&& 0x0f7f = val &&& 0x0f7f ∧ new &&& 0xf080 = old &&& 0xf080) := by
  have hc1 : 0x1a < d.cache.length := hc
  constructor
  · intro B L dB d1 h1 h2
    rw [mrst_of_reads T d B L dB d1 h1 h2,
      mrst_value B L (read_out_byte T d _ B dB h1) (read_out_byte T dB _ L d1 h2)]
  · intro d2 hset
    unfold stpmic_set_mrst at hset
    rcases hr1 : stpmic_read T d STPMIC_REG_BUCKS_MRST_CR with ⟨ret1, t0, dB⟩
    rw [hr1] at hset
    simp only at hset
    by_cases e1 : ret1 ≠ STPMIC_RET_OK
    · rw [if_pos e1] at hset
      exact absurd (Prod.mk.inj hset).1 e1
    rw [if_neg e1] at hset
    rcases hr2 : stpmic_read T dB STPMIC_REG_LDOS_MRST_CR with ⟨ret2, t1, dL⟩
    rw [hr2] at hset
    simp only at hset
    by_cases e2 : ret2 ≠ STPMIC_RET_OK
    · rw [if_pos e2] at hset
      exact absurd (Prod.mk.inj hset).1 e2
    rw [if_neg e2] at hset
    rcases hw1 : stpmic_write T dL STPMIC_REG_BUCKS_MRST_CR
      (set_mrst_bytes (t0.getD 0) (t1.getD 0) val).1 with ⟨ret3, d3⟩
    rw [hw1] at hset
    simp only at hset
    by_cases e3 : ret3 ≠ STPMIC_RET_OK
    · rw [if_pos e3] at hset
      exact absurd (Prod.mk.inj hset).1 e3
    rw [if_neg e3] at hset
    have e1 := not_not.mp e1
    have e2 := not_not.mp e2
    have e3 := not_not.mp e3
    subst e1 e2 e3
    -- the state and the array length along the four steps
    have sB := read_state T d STPMIC_REG_BUCKS_MRST_CR
    rw [hr1] at sB
    have sL := read_state T dB STPMIC_REG_LDOS_MRST_CR
    rw [hr2] at sL
    simp only at sB sL
    have hstL : STPMIC_DRV_INIT ≤ dL.state := by rw [sL, sB]; exact hst
    have hstB : STPMIC_DRV_INIT ≤ dB.state := by rw [sB]; exact hst
    have lB : dB.cache.length = d.cache.length := by
      unfold stpmic_read at hr1
      have hh := congrArg (fun r => r.2.2.cache.length) hr1
      simp only at hh
      rw [← hh]
      split
      · rfl
      · split
        · rfl
        · split
          · split
            · exact (read_direct_frame T d _).1
            · rfl
          · exact (read_direct_frame T d _).1
    have lL : dL.cache.length = dB.cache.length := by
      unfold stpmic_read at hr2
      have hh := congrArg (fun r => r.2.2.cache.length) hr2
      simp only at hh
      rw [← hh]
      split
      · rfl
      · split
        · rfl
        · split
          · split
            · exact (read_direct_frame T dB _).1
            · rfl
          · exact (read_direct_frame T dB _).1
    obtain ⟨b1, b2⟩ := set_mrst_bytes_lt (t0.getD 0) (t1.getD 0) val
    obtain ⟨v3, k3, l3, s3⟩ := write_ok_slot T dL STPMIC_REG_BUCKS_MRST_CR _ d3 hstL
      (by decide) (by rw [lL, lB]; unfold STPMIC_REG_BUCKS_MRST_CR; omega) b1 hw1
    have hst3 : STPMIC_DRV_INIT ≤ d3.state := by rw [s3]; exact hstL
    obtain ⟨v4, k4, l4, s4⟩ := write_ok_slot T d3 STPMIC_REG_LDOS_MRST_CR _ d2 hst3
      (by decide) (by rw [l3, lL, lB]; exact hc1) b2 hset
    have hst4 : STPMIC_DRV_INIT ≤ d2.state := by rw [s4]; exact hst3
    have v3' : slot_valid d2 STPMIC_REG_BUCKS_MRST_CR
        (set_mrst_bytes (t0.getD 0) (t1.getD 0) val).1 := by
      obtain ⟨c, hget, hm, hv⟩ := v3
      exact ⟨c, by rw [k4 _ (by decide)]; exact hget, hm, hv⟩
    have rd1 := read_cached T d2 _ _ hst4 (by decide) v3'
    have rd2 := read_cached T d2 _ _ hst4 (by decide) v4
    cases t0 with
    | none =>
      exfalso
      unfold stpmic_read at hr1
      simp only [Nat.not_lt.mpr hst, if_false] at hr1
      have hb : ∀ d0 : Driver, stpmic_read_direct T d0 STPMIC_REG_BUCKS_MRST_CR
          ≠ (STPMIC_RET_OK, none, dB) := by
        intro d0 h0
        unfold stpmic_read_direct at h0
        split at h0
        · simp at h0
        · split at h0
          · simp at h0
          · simp only at h0
            split at h0
            · simp at h0
            · split at h0
              · simp at h0
              · split at h0 <;> simp at h0
      split at hr1
      · simp at hr1
      · split at hr1
        · split at hr1
          · exact hb d hr1
          · simp at hr1
        · exact hb d hr1
    | some B =>
      cases t1 with
      | none =>
        exfalso
        unfold stpmic_read at hr2
        simp only [Nat.not_lt.mpr hstB, if_false] at hr2
        have hb : ∀ d0 : Driver, stpmic_read_direct T d0 STPMIC_REG_LDOS_MRST_CR
            ≠ (STPMIC_RET_OK, none, dL) := by
          intro d0 h0
          unfold stpmic_read_direct at h0
          split at h0
          · simp at h0
          · split at h0
            · simp at h0
            · simp only at h0
              split at h0
              · simp at h0
              · split at h0
                · simp at h0
                · split at h0 <;> simp at h0
        split at hr2
        · simp at hr2
        · split at hr2
          · split at hr2
            · exact hb dB hr2
            · simp at hr2
          · exact hb dB hr2
      | some L =>
        refine ⟨_, _, dL, mrst_of_reads T d B L dB dL hr1 hr2,
          mrst_of_reads T d2 _ _ d2 d2 rd1 rd2, ?_, ?_⟩
        · exact mrst_new_bits B L val
        · exact mrst_old_bits B L val (read_out_byte T dB _ L dL hr2)

theorem mrst_byte_order_witness :
    stpmic_mrst (transport_hw hw_example) (attached 0x2b 0x100)
      = (STPMIC_RET_OK, some ((0xb8 <<< 8) ||| 0xba),
          (stpmic_read (transport_hw hw_example)
            (stpmic_read (transport_hw hw_example) (attached 0x2b 0x100)
              STPMIC_REG_BUCKS_MRST_CR).2.2 STPMIC_REG_LDOS_MRST_CR).2.2) ∧
    (∃ old new d1,
      stpmic_mrst (transport_hw hw_example) (attached 0x2b 0x100)
        = (STPMIC_RET_OK, some old, d1) ∧
      stpmic_mrst (transport_hw hw_example)
          (stpmic_set_mrst (transport_hw hw_example) (attached 0x2b 0x100) 0x0545).2
        = (STPMIC_RET_OK, some new,
          (stpmic_set_mrst (transport_hw hw_example) (attached 0x2b 0x100) 0x0545).2) ∧
      new &&& 0x0f7f = 0x0545 &&& 0x0f7f ∧ new &&& 0xf080 = old &&& 0xf080) :=
  ⟨(mrst_byte_order (transport_hw hw_example) (attached 0x2b 0x100) 0x0545
      (by decide) (by decide)).1 0xb8 0xba
      (stpmic_read (transport_hw hw_example) (attached 0x2b 0x100)
        STPMIC_REG_BUCKS_MRST_CR).2.2
      (stpmic_read (transport_hw hw_example)
        (stpmic_read (transport_hw hw_example) (attached 0x2b 0x100)
          STPMIC_REG_BUCKS_MRST_CR).2.2 STPMIC_REG_LDOS_MRST_CR).2.2
      (by decide) (by decide),
   (mrst_byte_order (transport_hw hw_example) (attached 0x2b 0x100) 0x0545
      (by decide) (by decide)).2 _ (by decide)⟩

/-! ## Interrupt bitmaps -/

theorem interrupt_loop_invalid (T : Transport) (d : Driver) (n i val : Nat)
    (hst : STPMIC_DRV_INIT ≤ d.state) (hi : STPMIC_REG_MAX ≤ i) :
    interrupt_read_loop T (n + 1) i val d = some (STPMIC_RET_INVALID, none, d) := by
  unfold interrupt_read_loop
  simp [read_invalid T d i hst hi]

theorem interrupt_data_sheet_ids :
    stpmic_interrupt_pending stpmic1_int (transport_hw hw_example) (attached 0x2b 0x100)
      = some (STPMIC_RET_INVALID, none, attached 0x2b 0x100) ∧
    stpmic_interrupt_read_mask stpmic1_int (transport_hw hw_example) (attached 0x2b 0x100)
      = some (STPMIC_RET_INVALID, none, attached 0x2b 0x100) ∧
    stpmic_interrupt_read_source stpmic1_int (transport_hw hw_example) (attached 0x2b 0x100)
      = some (STPMIC_RET_INVALID, none, attached 0x2b 0x100) :=
  ⟨by decide, by decide, by decide⟩

theorem interrupt_ids_0_to_3 :
    (stpmic_interrupt_pending (int_at 0) (transport_hw hw_example) (attached 0x2b 0x100)).map
        (fun r => (r.1, r.2.1, r.2.2.bus.filterMap (fun t =>
          match t with
          | Txn.transmit _ _ [reg] _ => some reg
          | _ => none)))
      = some (STPMIC_RET_OK, some 0x00a2a1a0, [0, 1, 2]) ∧
    bitmap_of hw_example 0 = 0xa3a2a1a0 :=
  ⟨by decide!, by decide⟩

theorem interrupt_ids_1_to_4 :
    (stpmic_interrupt_read_mask (int_at 1) (transport_hw hw_example) (attached 0x2b 0x100)).map
        (fun r => (r.1, r.2.1))
      = some (STPMIC_RET_OK, some 0xa3a2a100) ∧
    bitmap_of hw_example 1 = 0xa4a3a2a1 :=
  ⟨by decide!, by decide⟩

theorem interrupt_ids_4_to_7 :
    stpmic_interrupt_read_source (int_at 4) (transport_hw hw_example) (attached 0x2b 0x100)
      = none := by
  decide

/-- C32, at the failing input: with the interrupt register IDs of the data
sheet (`0x50..0x53`, `0x80..0x83`, `0xb0..0xb3`), on an attached device the
three functions return `STPMIC_RET_INVALID` at their first read, without bus
traffic, and so they do for every layout whose first register ID is not below
`STPMIC_REG_MAX`.  With a group at the IDs 0 to 3, which the access layer
accepts, on a device whose register `id` holds `0xa0 + id`, the function reads
the registers 0, 1 and 2 only and returns `0x00a2a1a0`, not `0xa3a2a1a0`: the
loop stops before `R4`.  With a group at the IDs 1 to 4 it returns
`0xa3a2a100`, not `0xa4a3a2a1`: the byte of register `i` is shifted by `8 * i`,
`i` being the register ID, not the offset in the group.  With a group at the
IDs 4 to 7 the shift count is 32 and the result is not defined. -/
theorem interrupt_bitmap_misses_r4 :
    stpmic_interrupt_pending stpmic1_int (transport_hw hw_example) (attached 0x2b 0x100)
      = some (STPMIC_RET_INVALID, none, attached 0x2b 0x100) ∧
    stpmic_interrupt_read_mask stpmic1_int (transport_hw hw_example) (attached 0x2b 0x100)
      = some (STPMIC_RET_INVALID, none, attached 0x2b 0x100) ∧
    stpmic_interrupt_read_source stpmic1_int (transport_hw hw_example) (attached 0x2b 0x100)
      = some (STPMIC_RET_INVALID, none, attached 0x2b 0x100) ∧
    (stpmic_interrupt_pending (int_at 0) (transport_hw hw_example) (attached 0x2b 0x100)).map
        (fun r => (r.1, r.2.1, r.2.2.bus.filterMap (fun t =>
          match t with
          | Txn.transmit _ _ [reg] _ => some reg
          | _ => none)))
      = some (STPMIC_RET_OK, some 0x00a2a1a0, [0, 1, 2]) ∧
    bitmap_of hw_example 0 = 0xa3a2a1a0 ∧
    (stpmic_interrupt_read_mask (int_at 1) (transport_hw hw_example) (attached 0x2b 0x100)).map
        (fun r => (r.1, r.2.1))
      = some (STPMIC_RET_OK, some 0xa3a2a100) ∧
    bitmap_of hw_example 1 = 0xa4a3a2a1 ∧
    stpmic_interrupt_read_source (int_at 4) (transport_hw hw_example) (attached 0x2b 0x100)
      = none ∧
    (∀ (I : UndeclaredInt) (T : Transport) (d : Driver), STPMIC_DRV_INIT ≤ d.state →
      (STPMIC_REG_MAX ≤ I.STPMIC_REG_INT_PENDING_R1 →
        I.STPMIC_REG_INT_PENDING_R4 = I.STPMIC_REG_INT_PENDING_R1 + 3 →
        stpmic_interrupt_pending I T d = some (STPMIC_RET_INVALID, none, d)) ∧
      (STPMIC_REG_MAX ≤ I.STPMIC_REG_INT_MASK_R1 →
        I.STPMIC_REG_INT_MASK_R4 = I.STPMIC_REG_INT_MASK_R1 + 3 →
        stpmic_interrupt_read_mask I T d = some (STPMIC_RET_INVALID, none, d)) ∧
      (STPMIC_REG_MAX ≤ I.STPMIC_REG_INT_SRC_R1 →
        I.STPMIC_REG_INT_SRC_R4 = I.STPMIC_REG_INT_SRC_R1 + 3 →
        stpmic_interrupt_read_source I T d = some (STPMIC_RET_INVALID, none, d))) := by
  refine ⟨interrupt_data_sheet_ids.1, interrupt_data_sheet_ids.2.1,
    interrupt_data_sheet_ids.2.2, interrupt_ids_0_to_3.1, interrupt_ids_0_to_3.2,
    interrupt_ids_1_to_4.1, interrupt_ids_1_to_4.2, interrupt_ids_4_to_7, ?_⟩
  intro I T d hst
  refine ⟨?_, ?_, ?_⟩
  · intro h1 h4
    unfold stpmic_interrupt_pending
    rw [h4, Nat.add_sub_cancel_left]
    exact interrupt_loop_invalid T d 2 _ 0 hst h1
  · intro h1 h4
    unfold stpmic_interrupt_read_mask
    rw [h4, Nat.add_sub_cancel_left]
    exact interrupt_loop_invalid T d 2 _ 0 hst h1
  · intro h1 h4
    unfold stpmic_interrupt_read_source
    rw [h4, Nat.add_sub_cancel_left]
    exact interrupt_loop_invalid T d 2 _ 0 hst h1

/-! ## Status getters -/

/-- C33, at the failing input: on an attached device whose register `0x03`
(`OCP_LDOS_SR`) holds `0xa3` and whose register `0x04` (`OCP_BUCKS_BSW_SR`)
holds `0xa4`, `stpmic_ocpbucksbsw` selects register `0x03` on the bus and
outputs `0xa3`.  For every transport and driver state it is the direct read of
`STPMIC_REG_OCP_LDOS_SR`, the same call as `stpmic_ocpldosr`. -/
theorem ocpbucksbsw_reads_ocp_ldos :
    hw_example STPMIC_REG_OCP_LDOS_SR = 0xa3 ∧
    hw_example STPMIC_REG_OCP_BUCKS_BSW_SR = 0xa4 ∧
    (stpmic_ocpbucksbsw (transport_hw hw_example) (attached 0x2b 0x100)).1 = STPMIC_RET_OK ∧
    (stpmic_ocpbucksbsw (transport_hw hw_example) (attached 0x2b 0x100)).2.1 = some 0xa3 ∧
    (stpmic_ocpbucksbsw (transport_hw hw_example) (attached 0x2b 0x100)).2.2.bus
      = [Txn.transmit (some 1) 0x66 [0x03] STPMIC_INIT_DELAY,
         Txn.receive (some 1) 0x67 1 STPMIC_INIT_DELAY] ∧
    STPMIC_REG_OCP_LDOS_SR ≠ STPMIC_REG_OCP_BUCKS_BSW_SR ∧
    (∀ (T : Transport) (d : Driver),
      stpmic_ocpbucksbsw T d = stpmic_read_direct T d STPMIC_REG_OCP_LDOS_SR ∧
      stpmic_ocpbucksbsw T d = stpmic_ocpldosr T d) :=
  ⟨by decide, by decide, by decide, by decide, by decide, by decide,
    fun _ _ => ⟨rfl, rfl⟩⟩

/-! ## The register map -/

theorem read_direct_invalid (T : Transport) (d : Driver) (reg : Nat)
    (hst : STPMIC_DRV_INIT ≤ d.state) (hid : STPMIC_REG_MAX ≤ reg) :
    stpmic_read_direct T d reg = (STPMIC_RET_INVALID, none, d) := by
  unfold stpmic_read_direct
  simp [Nat.not_lt.mpr hst, hid]

/-- C37, at the failing input: the pairs of `STPMIC_REGMAP` before the sentinel
satisfy `start < end` and are ascending and disjoint (each end is at most the
next start), but the last pair, `0x25, 0x2b`, covers the register IDs `0x29`
and `0x2a`, which are not below `STPMIC_REG_MAX`; `stpmic_read_direct` and
`stpmic_write_direct` reject both with `STPMIC_RET_INVALID` in every attached
state, for every transport. -/
theorem regmap_reaches_past_reg_max :
    regmap_pairs STPMIC_REGMAP
      = [(0x01, 0x07), (0x10, 0x17), (0x18, 0x19), (0x1a, 0x1d), (0x20, 0x24), (0x25, 0x2b)] ∧
    (∀ p ∈ regmap_pairs STPMIC_REGMAP, p.1 < p.2) ∧
    List.Chain' (fun p q => p.2 ≤ q.1) (regmap_pairs STPMIC_REGMAP) ∧
    (regmap_covered STPMIC_REGMAP).filter (fun id => decide (STPMIC_REG_MAX ≤ id))
      = [0x29, 0x2a] ∧
    stpmic_read_direct (transport_const 0) (attached 0x2b 0) 0x29
      = (STPMIC_RET_INVALID, none, attached 0x2b 0) ∧
    stpmic_write_direct (transport_const 0) (attached 0x2b 0) 0x2a 0
      = (STPMIC_RET_INVALID, attached 0x2b 0) ∧
    (∀ (T : Transport) (d : Driver) (id v : Nat), STPMIC_DRV_INIT ≤ d.state →
      id = 0x29 ∨ id = 0x2a →
      stpmic_read_direct T d id = (STPMIC_RET_INVALID, none, d) ∧
      stpmic_write_direct T d id v = (STPMIC_RET_INVALID, d)) := by
  have hp : regmap_pairs STPMIC_REGMAP
      = [(0x01, 0x07), (0x10, 0x17), (0x18, 0x19), (0x1a, 0x1d), (0x20, 0x24), (0x25, 0x2b)] := by
    decide
  refine ⟨hp, by decide, by rw [hp]; simp, by decide, by decide, by decide, ?_⟩
  intro T d id v hst hid
  have h : STPMIC_REG_MAX ≤ id := by
    rcases hid with rfl | rfl <;> decide
  exact ⟨read_direct_invalid T d id hst h, write_direct_invalid T d id v hst h⟩

/-! ## What a register access sends -/

theorem no_write_to_refl (id : Nat) (d : Driver) : no_write_to id d d :=
  ⟨[], by simp, by simp⟩

theorem no_write_to_trans (id : Nat) (d d1 d2 : Driver) (h1 : no_write_to id d d1)
    (h2 : no_write_to id d1 d2) : no_write_to id d d2 := by
  obtain ⟨s1, e1, n1⟩ := h1
  obtain ⟨s2, e2, n2⟩ := h2
  refine ⟨s1 ++ s2, by rw [e2, e1, List.append_assoc], ?_⟩
  intro t ht
  rcases List.mem_append.mp ht with h | h
  · exact n1 t h
  · exact n2 t h

theorem read_direct_no_write (T : Transport) (d : Driver) (reg id : Nat) :
    no_write_to id d (stpmic_read_direct T d reg).2.2 := by
  unfold stpmic_read_direct
  split
  · exact no_write_to_refl id d
  · split
    · exact no_write_to_refl id d
    · simp only
      split
      · exact ⟨[_], rfl, by simp [writes_to]⟩
      · split
        · exact ⟨[Txn.transmit d.dev (bus_addr d.addr 0) [reg % 256] d.timeout_r,
            Txn.receive d.dev (bus_addr d.addr 1) 1 d.timeout_r], by simp, by simp [writes_to]⟩
        · split
          · exact ⟨[Txn.transmit d.dev (bus_addr d.addr 0) [reg % 256] d.timeout_r,
            Txn.receive d.dev (bus_addr d.addr 1) 1 d.timeout_r], by simp, by simp [writes_to]⟩
          · exact ⟨[Txn.transmit d.dev (bus_addr d.addr 0) [reg % 256] d.timeout_r,
            Txn.receive d.dev (bus_addr d.addr 1) 1 d.timeout_r], by simp, by simp [writes_to]⟩

theorem read_no_write (T : Transport) (d : Driver) (reg id : Nat) :
    no_write_to id d (stpmic_read T d reg).2.2 := by
  unfold stpmic_read
  split
  · exact no_write_to_refl id d
  · split
    · exact no_write_to_refl id d
    · split
      · split
        · exact read_direct_no_write T d reg id
        · exact no_write_to_refl id d
      · exact read_direct_no_write T d reg id

theorem write_direct_no_write_to (T : Transport) (d : Driver) (reg v id : Nat)
    (h : reg % 256 ≠ id) : no_write_to id d (stpmic_write_direct T d reg v).2 := by
  have hb : (reg % 256 == id) = false := by simpa using h
  unfold stpmic_write_direct
  split
  · exact no_write_to_refl id d
  · split
    · exact no_write_to_refl id d
    · simp only
      split
      · exact ⟨[_], rfl, by simp [writes_to, hb]⟩
      · split
        · exact ⟨[_], rfl, by simp [writes_to, hb]⟩
        · exact ⟨[_], rfl, by simp [writes_to, hb]⟩

theorem write_no_write_to (T : Transport) (d : Driver) (reg v id : Nat)
    (h : reg % 256 ≠ id) : no_write_to id d (stpmic_write T d reg v).2 := by
  unfold stpmic_write
  split
  · exact no_write_to_refl id d
  · split
    · exact no_write_to_refl id d
    · split
      · split
        · exact write_direct_no_write_to T d reg v id h
        · split
          · exact write_direct_no_write_to T d reg v id h
          · exact no_write_to_refl id d
      · exact write_direct_no_write_to T d reg v id h

/-- Two reads followed by two writes, each step made only if the earlier ones
succeeded: the shape of `stpmic_set_mrst`, `stpmic_pwrctrl_init` and
`stpmic_pwrctrl_deinit`. -/
theorem two_reads_two_writes (T : Transport) (d : Driver) (a b c e : Nat)
    (v1 v2 : Nat → Nat → Nat) (hce : c % 256 ≠ e) (res : stpmic_ret_t × Driver)
    (hres : res =
      if (stpmic_read T d a).1 ≠ STPMIC_RET_OK then
        ((stpmic_read T d a).1, (stpmic_read T d a).2.2)
      else if (stpmic_read T (stpmic_read T d a).2.2 b).1 ≠ STPMIC_RET_OK then
        ((stpmic_read T (stpmic_read T d a).2.2 b).1,
          (stpmic_read T (stpmic_read T d a).2.2 b).2.2)
      else if (stpmic_write T (stpmic_read T (stpmic_read T d a).2.2 b).2.2 c
          (v1 ((stpmic_read T d a).2.1.getD 0)
            ((stpmic_read T (stpmic_read T d a).2.2 b).2.1.getD 0))).1 ≠ STPMIC_RET_OK then
        stpmic_write T (stpmic_read T (stpmic_read T d a).2.2 b).2.2 c
          (v1 ((stpmic_read T d a).2.1.getD 0)
            ((stpmic_read T (stpmic_read T d a).2.2 b).2.1.getD 0))
      else
        stpmic_write T
          (stpmic_write T (stpmic_read T (stpmic_read T d a).2.2 b).2.2 c
            (v1 ((stpmic_read T d a).2.1.getD 0)
              ((stpmic_read T (stpmic_read T d a).2.2 b).2.1.getD 0))).2 e
          (v2 ((stpmic_read T d a).2.1.getD 0)
            ((stpmic_read T (stpmic_read T d a).2.2 b).2.1.getD 0))) :
    first_failure d e (stpmic_read T d a) (stpmic_read T (stpmic_read T d a).2.2 b)
      (stpmic_write T (stpmic_read T (stpmic_read T d a).2.2 b).2.2 c
        (v1 ((stpmic_read T d a).2.1.getD 0)
          ((stpmic_read T (stpmic_read T d a).2.2 b).2.1.getD 0)))
      (stpmic_write T
        (stpmic_write T (stpmic_read T (stpmic_read T d a).2.2 b).2.2 c
          (v1 ((stpmic_read T d a).2.1.getD 0)
            ((stpmic_read T (stpmic_read T d a).2.2 b).2.1.getD 0))).2 e
        (v2 ((stpmic_read T d a).2.1.getD 0)
          ((stpmic_read T (stpmic_read T d a).2.2 b).2.1.getD 0)))
      res := by
  have n1 := fun id => read_no_write T d a id
  have n2 := fun id => read_no_write T (stpmic_read T d a).2.2 b id
  have n3 := write_no_write_to T (stpmic_read T (stpmic_read T d a).2.2 b).2.2 c
    (v1 ((stpmic_read T d a).2.1.getD 0)
      ((stpmic_read T (stpmic_read T d a).2.2 b).2.1.getD 0)) e hce
  by_cases e1 : (stpmic_read T d a).1 ≠ STPMIC_RET_OK
  · rw [if_pos e1] at hres
    exact Or.inl ⟨e1, hres, fun id => by rw [hres]; exact n1 id⟩
  rw [if_neg e1] at hres
  by_cases e2 : (stpmic_read T (stpmic_read T d a).2.2 b).1 ≠ STPMIC_RET_OK
  · rw [if_pos e2] at hres
    exact Or.inr (Or.inl ⟨not_not.mp e1, e2, hres, fun id => by
      rw [hres]; exact no_write_to_trans id _ _ _ (n1 id) (n2 id)⟩)
  rw [if_neg e2] at hres
  by_cases e3 : (stpmic_write T (stpmic_read T (stpmic_read T d a).2.2 b).2.2 c
      (v1 ((stpmic_read T d a).2.1.getD 0)
        ((stpmic_read T (stpmic_read T d a).2.2 b).2.1.getD 0))).1 ≠ STPMIC_RET_OK
  · rw [if_pos e3] at hres
    exact Or.inr (Or.inr (Or.inl ⟨not_not.mp e1, not_not.mp e2, e3, hres, by
      rw [hres]
      exact no_write_to_trans e _ _ _ (no_write_to_trans e _ _ _ (n1 e) (n2 e)) n3⟩))
  rw [if_neg e3] at hres
  exact Or.inr (Or.inr (Or.inr ⟨not_not.mp e1, not_not.mp e2, not_not.mp e3, hres⟩))

/-! ## Multi-step helpers -/

theorem set_mrst_abort_examples :
    (stpmic_set_mrst (transport_fail_after 0 0) (attached 0x2b 0x100) 0x0f7f).1
      = STPMIC_RET_TIMEOUT ∧
    (stpmic_set_mrst (transport_fail_after 0 0) (attached 0x2b 0x100) 0x0f7f).2.bus
      = [Txn.transmit (some 1) 0x66 [0x18] STPMIC_INIT_DELAY] ∧
    (stpmic_set_mrst (transport_fail_after 2 0) (attached 0x2b 0x100) 0x0f7f).1
      = STPMIC_RET_TIMEOUT ∧
    (stpmic_set_mrst (transport_fail_after 2 0) (attached 0x2b 0x100) 0x0f7f).2.bus
      = [Txn.transmit (some 1) 0x66 [0x18] STPMIC_INIT_DELAY,
         Txn.receive (some 1) 0x67 1 STPMIC_INIT_DELAY,
         Txn.transmit (some 1) 0x66 [0x1a] STPMIC_INIT_DELAY] ∧
    (stpmic_set_mrst (transport_fail_after 4 0) (attached 0x2b 0x100) 0x0f7f).1
      = STPMIC_RET_TIMEOUT ∧
    ((stpmic_set_mrst (transport_fail_after 4 0) (attached 0x2b 0x100) 0x0f7f).2.bus.drop 4)
      = [Txn.transmit (some 1) 0x66 [0x18, 0x0f] STPMIC_INIT_DELAY] ∧
    (stpmic_set_mrst (transport_fail_after 5 0) (attached 0x2b 0x100) 0x0f7f).1
      = STPMIC_RET_TIMEOUT ∧
    ((stpmic_set_mrst (transport_fail_after 5 0) (attached 0x2b 0x100) 0x0f7f).2.bus.drop 4)
      = [Txn.transmit (some 1) 0x66 [0x18, 0x0f] STPMIC_INIT_DELAY,
         Txn.transmit (some 1) 0x66 [0x1a, 0x7f] STPMIC_INIT_DELAY] :=
  ⟨by decide!, by decide!, by decide!, by decide!, by decide!, by decide!, by decide!,
    by decide!⟩

theorem pwrctrl_init_steps (T : Transport) (d : Driver) (p : stpmic_pwrctrl_t) :
    stpmic_pwrctrl_init T d (some p) = some
      (if (stpmic_read T d STPMIC_REG_MAIN_CR).1 ≠ STPMIC_RET_OK then
        ((stpmic_read T d STPMIC_REG_MAIN_CR).1, (stpmic_read T d STPMIC_REG_MAIN_CR).2.2)
      else if (stpmic_read T (stpmic_read T d STPMIC_REG_MAIN_CR).2.2
          STPMIC_REG_PADS_PULL_CR).1 ≠ STPMIC_RET_OK then
        ((stpmic_read T (stpmic_read T d STPMIC_REG_MAIN_CR).2.2 STPMIC_REG_PADS_PULL_CR).1,
          (stpmic_read T (stpmic_read T d STPMIC_REG_MAIN_CR).2.2
            STPMIC_REG_PADS_PULL_CR).2.2)
      else if (stpmic_write T
          (stpmic_read T (stpmic_read T d STPMIC_REG_MAIN_CR).2.2 STPMIC_REG_PADS_PULL_CR).2.2
          STPMIC_REG_PADS_PULL_CR
          (pwrctrl_init_ppcr ((stpmic_read T (stpmic_read T d STPMIC_REG_MAIN_CR).2.2
            STPMIC_REG_PADS_PULL_CR).2.1.getD 0) p)).1 ≠ STPMIC_RET_OK then
        stpmic_write T
          (stpmic_read T (stpmic_read T d STPMIC_REG_MAIN_CR).2.2 STPMIC_REG_PADS_PULL_CR).2.2
          STPMIC_REG_PADS_PULL_CR
          (pwrctrl_init_ppcr ((stpmic_read T (stpmic_read T d STPMIC_REG_MAIN_CR).2.2
            STPMIC_REG_PADS_PULL_CR).2.1.getD 0) p)
      else
        stpmic_write T
          (stpmic_write T
            (stpmic_read T (stpmic_read T d STPMIC_REG_MAIN_CR).2.2
              STPMIC_REG_PADS_PULL_CR).2.2
            STPMIC_REG_PADS_PULL_CR
            (pwrctrl_init_ppcr ((stpmic_read T (stpmic_read T d STPMIC_REG_MAIN_CR).2.2
              STPMIC_REG_PADS_PULL_CR).2.1.getD 0) p)).2
          STPMIC_REG_MAIN_CR
          (pwrctrl_init_mcr ((stpmic_read T d STPMIC_REG_MAIN_CR).2.1.getD 0) p)) := by
  unfold stpmic_pwrctrl_init stpmic_maincr stpmic_padspullcr
  rcases stpmic_read T d STPMIC_REG_MAIN_CR with ⟨ret1, mcr, d1⟩
  simp only
  by_cases e1 : ret1 ≠ STPMIC_RET_OK
  · simp only [if_pos e1]
  · simp only [if_neg e1]
    rcases stpmic_read T d1 STPMIC_REG_PADS_PULL_CR with ⟨ret2, ppcr, d2⟩
    simp only
    by_cases e2 : ret2 ≠ STPMIC_RET_OK
    · simp only [if_pos e2]
    · simp only [if_neg e2]
      rcases stpmic_write T d2 STPMIC_REG_PADS_PULL_CR (pwrctrl_init_ppcr (ppcr.getD 0) p)
        with ⟨ret3, d3⟩
      simp only
      by_cases e3 : ret3 ≠ STPMIC_RET_OK
      · simp only [if_pos e3]
      · simp only [if_neg e3]

/-- C34. Multi-step helpers abort on the first failure: in every driver state
and for every transport, `stpmic_set_mrst`, `stpmic_pwrctrl_init` (given a
structure) and `stpmic_pwrctrl_deinit` make their two register reads and
their two register writes in turn and stop at the first step that fails,
returning its error; when a read failed no write packet has been sent, and
when the first write failed no packet has been sent for the register of the
second write.  When no step before it failed, the result is that of the second
write.  On a transport that fails from its first, third, fifth or sixth
transaction on, `stpmic_set_mrst` stops at that transaction. -/
theorem multi_step_abort (T : Transport) (d : Driver) (val : Nat) (p : stpmic_pwrctrl_t) :
    first_failure d STPMIC_REG_LDOS_MRST_CR
      (stpmic_read T d STPMIC_REG_BUCKS_MRST_CR)
      (stpmic_read T (stpmic_read T d STPMIC_REG_BUCKS_MRST_CR).2.2 STPMIC_REG_LDOS_MRST_CR)
      (stpmic_write T (stpmic_read T (stpmic_read T d STPMIC_REG_BUCKS_MRST_CR).2.2 STPMIC_REG_LDOS_MRST_CR).2.2 STPMIC_REG_BUCKS_MRST_CR ((set_mrst_bytes ((stpmic_read T d STPMIC_REG_BUCKS_MRST_CR).2.1.getD 0) ((stpmic_read T (stpmic_read T d STPMIC_REG_BUCKS_MRST_CR).2.2 STPMIC_REG_LDOS_MRST_CR).2.1.getD 0) val).1))
      (stpmic_write T (stpmic_write T (stpmic_read T (stpmic_read T d STPMIC_REG_BUCKS_MRST_CR).2.2 STPMIC_REG_LDOS_MRST_CR).2.2 STPMIC_REG_BUCKS_MRST_CR ((set_mrst_bytes ((stpmic_read T d STPMIC_REG_BUCKS_MRST_CR).2.1.getD 0) ((stpmic_read T (stpmic_read T d STPMIC_REG_BUCKS_MRST_CR).2.2 STPMIC_REG_LDOS_MRST_CR).2.1.getD 0) val).1)).2 STPMIC_REG_LDOS_MRST_CR ((set_mrst_bytes ((stpmic_read T d STPMIC_REG_BUCKS_MRST_CR).2.1.getD 0) ((stpmic_read T (stpmic_read T d STPMIC_REG_BUCKS_MRST_CR).2.2 STPMIC_REG_LDOS_MRST_CR).2.1.getD 0) val).2))
      (stpmic_set_mrst T d val) ∧
    (∃ res, stpmic_pwrctrl_init T d (some p) = some res ∧
      first_failure d STPMIC_REG_MAIN_CR
      (stpmic_read T d STPMIC_REG_MAIN_CR)
      (stpmic_read T (stpmic_read T d STPMIC_REG_MAIN_CR).2.2 STPMIC_REG_PADS_PULL_CR)
      (stpmic_write T (stpmic_read T (stpmic_read T d STPMIC_REG_MAIN_CR).2.2 STPMIC_REG_PADS_PULL_CR).2.2 STPMIC_REG_PADS_PULL_CR (pwrctrl_init_ppcr ((stpmic_read T (stpmic_read T d STPMIC_REG_MAIN_CR).2.2 STPMIC_REG_PADS_PULL_CR).2.1.getD 0) p))
      (stpmic_write T (stpmic_write T (stpmic_read T (stpmic_read T d STPMIC_REG_MAIN_CR).2.2 STPMIC_REG_PADS_PULL_CR).2.2 STPMIC_REG_PADS_PULL_CR (pwrctrl_init_ppcr ((stpmic_read T (stpmic_read T d STPMIC_REG_MAIN_CR).2.2 STPMIC_REG_PADS_PULL_CR).2.1.getD 0) p)).2 STPMIC_REG_MAIN_CR (pwrctrl_init_mcr ((stpmic_read T d STPMIC_REG_MAIN_CR).2.1.getD 0) p))
      res) ∧
    first_failure d STPMIC_REG_MAIN_CR
      (stpmic_read T d STPMIC_REG_MAIN_CR)
      (stpmic_read T (stpmic_read T d STPMIC_REG_MAIN_CR).2.2 STPMIC_REG_PADS_PULL_CR)
      (stpmic_write T (stpmic_read T (stpmic_read T d STPMIC_REG_MAIN_CR).2.2 STPMIC_REG_PADS_PULL_CR).2.2 STPMIC_REG_PADS_PULL_CR ((((stpmic_read T (stpmic_read T d STPMIC_REG_MAIN_CR).2.2 STPMIC_REG_PADS_PULL_CR).2.1.getD 0) &&& (0xffffffff ^^^ (STPMIC_PADSPULLCR_PWRCTRL_PD ||| STPMIC_PADSPULLCR_PWRCTRL_PU))) % 256))
      (stpmic_write T (stpmic_write T (stpmic_read T (stpmic_read T d STPMIC_REG_MAIN_CR).2.2 STPMIC_REG_PADS_PULL_CR).2.2 STPMIC_REG_PADS_PULL_CR ((((stpmic_read T (stpmic_read T d STPMIC_REG_MAIN_CR).2.2 STPMIC_REG_PADS_PULL_CR).2.1.getD 0) &&& (0xffffffff ^^^ (STPMIC_PADSPULLCR_PWRCTRL_PD ||| STPMIC_PADSPULLCR_PWRCTRL_PU))) % 256)).2 STPMIC_REG_MAIN_CR ((((stpmic_read T d STPMIC_REG_MAIN_CR).2.1.getD 0) &&& (0xffffffff ^^^ STPMIC_MAINCR_PWRCTL_EN)) % 256))
      (stpmic_pwrctrl_deinit T d) ∧
    (stpmic_set_mrst (transport_fail_after 0 0) (attached 0x2b 0x100) 0x0f7f).2.bus
      = [Txn.transmit (some 1) 0x66 [0x18] STPMIC_INIT_DELAY] ∧
    (stpmic_set_mrst (transport_fail_after 2 0) (attached 0x2b 0x100) 0x0f7f).2.bus
      = [Txn.transmit (some 1) 0x66 [0x18] STPMIC_INIT_DELAY,
         Txn.receive (some 1) 0x67 1 STPMIC_INIT_DELAY,
         Txn.transmit (some 1) 0x66 [0x1a] STPMIC_INIT_DELAY] ∧
    ((stpmic_set_mrst (transport_fail_after 4 0) (attached 0x2b 0x100) 0x0f7f).2.bus.drop 4)
      = [Txn.transmit (some 1) 0x66 [0x18, 0x0f] STPMIC_INIT_DELAY] ∧
    ((stpmic_set_mrst (transport_fail_after 5 0) (attached 0x2b 0x100) 0x0f7f).2.bus.drop 4)
      = [Txn.transmit (some 1) 0x66 [0x18, 0x0f] STPMIC_INIT_DELAY,
         Txn.transmit (some 1) 0x66 [0x1a, 0x7f] STPMIC_INIT_DELAY] := by
  refine ⟨?_, ?_, ?_, set_mrst_abort_examples.2.1, set_mrst_abort_examples.2.2.2.1,
    set_mrst_abort_examples.2.2.2.2.2.1, set_mrst_abort_examples.2.2.2.2.2.2.2⟩
  · exact two_reads_two_writes T d _ _ _ _
      (fun x y => (set_mrst_bytes x y val).1) (fun x y => (set_mrst_bytes x y val).2)
      (by decide) _ rfl
  · refine ⟨_, pwrctrl_init_steps T d p, ?_⟩
    exact two_reads_two_writes T d _ _ _ _
      (fun _ y => pwrctrl_init_ppcr y p) (fun x _ => pwrctrl_init_mcr x p)
      (by decide) _ rfl
  · exact two_reads_two_writes T d _ _ _ _
      (fun _ y => (y &&& (0xffffffff ^^^ (STPMIC_PADSPULLCR_PWRCTRL_PD ||| STPMIC_PADSPULLCR_PWRCTRL_PU))) % 256)
      (fun x _ => (x &&& (0xffffffff ^^^ STPMIC_MAINCR_PWRCTL_EN)) % 256)
      (by decide) _ rfl

/-! ## Watchdog arming -/

theorem write_direct_ok_slot (T : Transport) (d : Driver) (id v : Nat) (d1 : Driver)
    (hst : STPMIC_DRV_INIT ≤ d.state) (hid : id < STPMIC_REG_MAX) (hc : id < d.cache.length)
    (hv : v < 256) (h : stpmic_write_direct T d id v = (STPMIC_RET_OK, d1)) :
    slot_valid d1 id v ∧ (∀ j, j ≠ id → d1.cache[j]? = d.cache[j]?) ∧
      d1.cache.length = d.cache.length ∧ d1.state = d.state := by
  have c := write_direct_cases T d id v hst hid
  cases htx : T.HAL_I2C_Master_Transmit d.bus
      (Txn.transmit d.dev (bus_addr d.addr 0) [id, v] d.timeout_w)
  · rw [c.1 htx] at h
    simp at h
  · rw [c.2 htx, if_pos hc] at h
    simp only [Prod.mk.injEq, true_and] at h
    refine ⟨set_slot_valid d.cache id v hc hv d1 (by rw [← h]), ?_, ?_, ?_⟩
    · intro j hj
      rw [← h]
      simp [List.getElem?_set_ne (Ne.symm hj)]
    · rw [← h]; simp
    · rw [← h]

theorem watchdog_init_steps (T : Transport) (d : Driver) (sec : Nat)
    (h1 : 1 ≤ sec) (h255 : sec ≤ 255) :
    stpmic_watchdog_init T d sec =
      if (stpmic_write T d STPMIC_REG_WDG_TMR_CR (sec - 1)).1 ≠ STPMIC_RET_OK then
        stpmic_write T d STPMIC_REG_WDG_TMR_CR (sec - 1)
      else
        stpmic_write_direct T (stpmic_write T d STPMIC_REG_WDG_TMR_CR (sec - 1)).2
          STPMIC_REG_WDG_CR 0x03 := by
  have hs : ¬ sec = 0 := by omega
  have hm : (sec - 1) % 256 = sec - 1 := Nat.mod_eq_of_lt (by omega)
  have hv : ((1 <<< 1) ||| (if sec > 0 then 0x01 else 0)) % 256 = 0x03 := by
    rw [if_pos (by omega)]
    rfl
  unfold stpmic_watchdog_init
  rw [if_neg hs, hm, hv]

/-- C38. Watchdog arming: on an attached device whose cache array holds
`WDG_TMR_CR`, for every `sec` in 1..255, `stpmic_watchdog_init sec` first
writes `sec - 1` to `WDG_TMR_CR` through the cached layer, a write that is
elided (success, no bus transaction) when the slot holds that value with the
mismatch flag clear; when that write failed, its error is returned and no
packet is sent for `WDG_CR`; when it succeeded, the result is that of the
direct write of `0x03` to `WDG_CR`; and when the function returns success the
cache holds `sec - 1` for `WDG_TMR_CR` and `0x03` for `WDG_CR`, both with the
mismatch flag clear. -/
theorem watchdog_arming (T : Transport) (d : Driver) (sec : Nat)
    (h1 : 1 ≤ sec) (h255 : sec ≤ 255) (hst : STPMIC_DRV_INIT ≤ d.state)
    (hc : STPMIC_REG_WDG_TMR_CR < STPMIC_REG_CACHE_MAX d) :
    ((stpmic_write T d STPMIC_REG_WDG_TMR_CR (sec - 1)).1 ≠ STPMIC_RET_OK →
      stpmic_watchdog_init T d sec = stpmic_write T d STPMIC_REG_WDG_TMR_CR (sec - 1) ∧
      no_write_to STPMIC_REG_WDG_CR d (stpmic_watchdog_init T d sec).2) ∧
    ((stpmic_write T d STPMIC_REG_WDG_TMR_CR (sec - 1)).1 = STPMIC_RET_OK →
      stpmic_watchdog_init T d sec =
        stpmic_write_direct T (stpmic_write T d STPMIC_REG_WDG_TMR_CR (sec - 1)).2
          STPMIC_REG_WDG_CR 0x03) ∧
    (slot_valid d STPMIC_REG_WDG_TMR_CR (sec - 1) →
      stpmic_write T d STPMIC_REG_WDG_TMR_CR (sec - 1) = (STPMIC_RET_OK, d)) ∧
    ((stpmic_watchdog_init T d sec).1 = STPMIC_RET_OK →
      slot_valid (stpmic_watchdog_init T d sec).2 STPMIC_REG_WDG_TMR_CR (sec - 1) ∧
      slot_valid (stpmic_watchdog_init T d sec).2 STPMIC_REG_WDG_CR 0x03) := by
  have hc1 : 0x1c < d.cache.length := hc
  have hsteps := watchdog_init_steps T d sec h1 h255
  refine ⟨?_, ?_, ?_, ?_⟩
  · intro hf
    rw [hsteps, if_pos hf]
    exact ⟨rfl, write_no_write_to T d _ _ _ (by decide)⟩
  · intro hok
    rw [hsteps, if_neg (not_not.mpr hok)]
  · intro hslot
    exact write_elision T d _ _ hst (by decide) hc hslot
  · intro hok
    by_cases hf : (stpmic_write T d STPMIC_REG_WDG_TMR_CR (sec - 1)).1 ≠ STPMIC_RET_OK
    · rw [hsteps, if_pos hf] at hok
      exact absurd hok hf
    · rw [hsteps, if_neg hf] at hok ⊢
      have hw1 : stpmic_write T d STPMIC_REG_WDG_TMR_CR (sec - 1)
          = (STPMIC_RET_OK, (stpmic_write T d STPMIC_REG_WDG_TMR_CR (sec - 1)).2) := by
        rw [← not_not.mp hf]
      obtain ⟨v1, _, l1, s1⟩ := write_ok_slot T d _ _ _ hst (by decide)
        (by unfold STPMIC_REG_WDG_TMR_CR; omega) (by omega) hw1
      have hw2 : stpmic_write_direct T (stpmic_write T d STPMIC_REG_WDG_TMR_CR (sec - 1)).2
            STPMIC_REG_WDG_CR 0x03
          = (STPMIC_RET_OK,
            (stpmic_write_direct T (stpmic_write T d STPMIC_REG_WDG_TMR_CR (sec - 1)).2
              STPMIC_REG_WDG_CR 0x03).2) := by
        rw [← hok]
      obtain ⟨v2, k2, _, _⟩ := write_direct_ok_slot T _ _ _ _ (by rw [s1]; exact hst)
        (by decide) (by rw [l1]; unfold STPMIC_REG_WDG_CR; omega) (by decide) hw2
      refine ⟨?_, v2⟩
      obtain ⟨c, hget, hm, hv⟩ := v1
      exact ⟨c, by rw [k2 _ (by decide)]; exact hget, hm, hv⟩

theorem watchdog_arming_witness :
    (stpmic_watchdog_init (transport_fail_after 0 0) (attached 0x2b 0x100) 5
        = stpmic_write (transport_fail_after 0 0) (attached 0x2b 0x100)
            STPMIC_REG_WDG_TMR_CR (5 - 1) ∧
      no_write_to STPMIC_REG_WDG_CR (attached 0x2b 0x100)
        (stpmic_watchdog_init (transport_fail_after 0 0) (attached 0x2b 0x100) 5).2) ∧
    stpmic_watchdog_init (transport_const 0) (attached 0x2b 0x100) 5 =
      stpmic_write_direct (transport_const 0)
        (stpmic_write (transport_const 0) (attached 0x2b 0x100)
          STPMIC_REG_WDG_TMR_CR (5 - 1)).2
        STPMIC_REG_WDG_CR 0x03 ∧
    stpmic_write (transport_const 0) (attached 0x2b 4) STPMIC_REG_WDG_TMR_CR (5 - 1)
      = (STPMIC_RET_OK, attached 0x2b 4) ∧
    (slot_valid (stpmic_watchdog_init (transport_const 0) (attached 0x2b 0x100) 5).2
        STPMIC_REG_WDG_TMR_CR (5 - 1) ∧
      slot_valid (stpmic_watchdog_init (transport_const 0) (attached 0x2b 0x100) 5).2
        STPMIC_REG_WDG_CR 0x03) :=
  ⟨(watchdog_arming (transport_fail_after 0 0) (attached 0x2b 0x100) 5 (by decide)
      (by decide) (by decide) (by decide)).1 (by decide),
   (watchdog_arming (transport_const 0) (attached 0x2b 0x100) 5 (by decide)
      (by decide) (by decide) (by decide)).2.1 (by decide),
   (watchdog_arming (transport_const 0) (attached 0x2b 4) 5 (by decide)
      (by decide) (by decide) (by decide)).2.2.1 ⟨4, by decide, by decide, by decide⟩,
   (watchdog_arming (transport_const 0) (attached 0x2b 0x100) 5 (by decide)
      (by decide) (by decide) (by decide)).2.2.2 (by decide)⟩

/-! ## The device state across the calls -/

theorem clear_cache_state (d : Driver) (reg : Nat) (r : stpmic_ret_t) (d1 : Driver)
    (h : stpmic_clear_cache d reg = some (r, d1)) : d1.state = d.state := by
  unfold stpmic_clear_cache at h
  split at h
  · simp only [Option.some.injEq, Prod.mk.injEq] at h
    rw [← h.2]
  · split at h
    · simp only [Option.some.injEq, Prod.mk.injEq] at h
      rw [← h.2]
    · split at h
      · simp only [Option.some.injEq, Prod.mk.injEq] at h
        rw [← h.2]
      · simp at h

theorem batch_write_state (d : Driver) (reg val : Nat) (r : stpmic_ret_t) (d1 : Driver)
    (h : stpmic_batch_write d reg val = some (r, d1)) : d1.state = d.state := by
  unfold stpmic_batch_write at h
  split at h
  · simp only [Option.some.injEq, Prod.mk.injEq] at h
    rw [← h.2]
  · split at h
    · simp only [Option.some.injEq, Prod.mk.injEq] at h
      rw [← h.2]
    · split at h
      · simp only [Option.some.injEq, Prod.mk.injEq] at h
        rw [← h.2]
      · simp at h

theorem flush_preserves (T : Transport) (P : Driver → Prop)
    (hwr : ∀ d0 reg val, P d0 → P (stpmic_write_direct T d0 reg val).2)
    (d : Driver) (hd : P d) (r : stpmic_ret_t) (d1 : Driver)
    (h : stpmic_batch_flush T d = some (r, d1)) : P d1 := by
  unfold stpmic_batch_flush at h
  split at h
  · simp only [Option.some.injEq, Prod.mk.injEq] at h
    rw [← h.2]
    exact hd
  · cases hw : batch_flush_walk T d with
    | none => simp [hw] at h
    | some w =>
      simp only [hw, Option.some.injEq] at h
      have hdrv : d1 = w.drv := by
        rw [← walk_result_drv w, h]
      rw [hdrv]
      refine walk_regmap_preserves (flush_access T) P ?_ d w hd hw
      intro d0 reg r0 d2 h0 ha
      unfold flush_access at ha
      split at ha
      · simp only [Option.some.injEq] at ha
        have := hwr d0 reg (d0.cache[reg] % 256) h0
        rw [ha] at this
        exact this
      · simp at ha

theorem reload_preserves (T : Transport) (P : Driver → Prop)
    (hrd : ∀ d0 reg, P d0 → P (stpmic_read_direct T d0 reg).2.2)
    (d : Driver) (hd : P d) (r : stpmic_ret_t) (d1 : Driver)
    (h : stpmic_reload_cache T d = some (r, d1)) : P d1 := by
  obtain ⟨r0, d0, h0, hp⟩ := reload_keeps T d P hrd hd
  rw [h0] at h
  simp only [Option.some.injEq, Prod.mk.injEq] at h
  rw [← h.2]
  exact hp

theorem init_state (T : Transport) (d : Driver) (dev : Option Nat) (addr : Int)
    (r : stpmic_ret_t) (d1 : Driver) (h : stpmic_init T d dev addr = some (r, d1)) :
    d1.state = d.state := by
  by_cases hs : d.state = STPMIC_DRV_NOT_INIT
  · obtain ⟨r0, d0, h0, _, hst⟩ := init_not_ok T d dev addr
    rw [h0] at h
    simp only [Option.some.injEq, Prod.mk.injEq] at h
    rw [← h.2, hst hs, hs]
  · unfold stpmic_init at h
    by_cases hinv : dev = none ∨ addr > 0x7f
    · rw [if_pos hinv] at h
      simp only [Option.some.injEq, Prod.mk.injEq] at h
      rw [← h.2]
    · rw [if_neg hinv, if_pos hs] at h
      simp only [Option.some.injEq, Prod.mk.injEq] at h
      rw [← h.2]

theorem version_state (T : Transport) (d : Driver) :
    (stpmic_version T d).2.2.state = d.state := by
  unfold stpmic_version
  have h1 := read_state T d STPMIC_REG_VERSION_SR
  rcases hr : stpmic_read T d STPMIC_REG_VERSION_SR with ⟨ret, out, d1⟩
  rw [hr] at h1
  simp only at h1 ⊢
  split <;> exact h1

theorem mrst_state (T : Transport) (d : Driver) : (stpmic_mrst T d).2.2.state = d.state := by
  unfold stpmic_mrst
  have h1 := read_state T d STPMIC_REG_BUCKS_MRST_CR
  rcases hr : stpmic_read T d STPMIC_REG_BUCKS_MRST_CR with ⟨ret, out, d1⟩
  rw [hr] at h1
  simp only at h1 ⊢
  split
  · exact h1
  · have h2 := read_state T d1 STPMIC_REG_LDOS_MRST_CR
    rcases hr2 : stpmic_read T d1 STPMIC_REG_LDOS_MRST_CR with ⟨ret2, out2, d2⟩
    rw [hr2] at h2
    simp only at h2 ⊢
    split <;> exact h2.trans h1

theorem first_failure_state (d : Driver) (e : Nat) (r1 r2 : stpmic_ret_t × Option Nat × Driver)
    (w1 w2 res : stpmic_ret_t × Driver) (h : first_failure d e r1 r2 w1 w2 res)
    (s1 : r1.2.2.state = d.state) (s2 : r2.2.2.state = d.state) (s3 : w1.2.state = d.state)
    (s4 : w2.2.state = d.state) : res.2.state = d.state := by
  rcases h with ⟨_, h, _⟩ | ⟨_, _, h, _⟩ | ⟨_, _, _, h, _⟩ | ⟨_, _, _, h⟩
  · rw [h]; exact s1
  · rw [h]; exact s2
  · rw [h]; exact s3
  · rw [h]; exact s4

theorem set_mrst_state (T : Transport) (d : Driver) (val : Nat) :
    (stpmic_set_mrst T d val).2.state = d.state := by
  have h := two_reads_two_writes T d STPMIC_REG_BUCKS_MRST_CR STPMIC_REG_LDOS_MRST_CR
    STPMIC_REG_BUCKS_MRST_CR STPMIC_REG_LDOS_MRST_CR
    (fun x y => (set_mrst_bytes x y val).1) (fun x y => (set_mrst_bytes x y val).2)
    (by decide) (stpmic_set_mrst T d val) rfl
  refine first_failure_state d _ _ _ _ _ _ h ?_ ?_ ?_ ?_
  · rw [read_state]
  · rw [read_state, read_state]
  · rw [write_state, read_state, read_state]
  · rw [write_state, write_state, read_state, read_state]

theorem pwrctrl_deinit_state (T : Transport) (d : Driver) :
    (stpmic_pwrctrl_deinit T d).2.state = d.state := by
  have h := two_reads_two_writes T d STPMIC_REG_MAIN_CR STPMIC_REG_PADS_PULL_CR
    STPMIC_REG_PADS_PULL_CR STPMIC_REG_MAIN_CR
    (fun _ y => (y &&& (0xffffffff ^^^
      (STPMIC_PADSPULLCR_PWRCTRL_PD ||| STPMIC_PADSPULLCR_PWRCTRL_PU))) % 256)
    (fun x _ => (x &&& (0xffffffff ^^^ STPMIC_MAINCR_PWRCTL_EN)) % 256)
    (by decide) (stpmic_pwrctrl_deinit T d) rfl
  refine first_failure_state d _ _ _ _ _ _ h ?_ ?_ ?_ ?_
  · rw [read_state]
  · rw [read_state, read_state]
  · rw [write_state, read_state, read_state]
  · rw [write_state, write_state, read_state, read_state]

theorem pwrctrl_init_state (T : Transport) (d : Driver) (pwrctrl : Option stpmic_pwrctrl_t)
    (r : stpmic_ret_t) (d1 : Driver) (h : stpmic_pwrctrl_init T d pwrctrl = some (r, d1)) :
    d1.state = d.state := by
  cases pwrctrl with
  | none =>
    unfold stpmic_pwrctrl_init stpmic_maincr stpmic_padspullcr at h
    have h1 := read_state T d STPMIC_REG_MAIN_CR
    rcases hr : stpmic_read T d STPMIC_REG_MAIN_CR with ⟨ret, out, d2⟩
    rw [hr] at h1 h
    simp only at h1 h
    split at h
    · simp only [Option.some.injEq, Prod.mk.injEq] at h
      rw [← h.2]
      exact h1
    · have h2 := read_state T d2 STPMIC_REG_PADS_PULL_CR
      rcases hr2 : stpmic_read T d2 STPMIC_REG_PADS_PULL_CR with ⟨ret2, out2, d3⟩
      rw [hr2] at h2 h
      simp only at h2 h
      split at h
      · simp only [Option.some.injEq, Prod.mk.injEq] at h
        rw [← h.2]
        exact h2.trans h1
      · simp at h
  | some p =>
    rw [pwrctrl_init_steps] at h
    simp only [Option.some.injEq] at h
    have hf := two_reads_two_writes T d STPMIC_REG_MAIN_CR STPMIC_REG_PADS_PULL_CR
      STPMIC_REG_PADS_PULL_CR STPMIC_REG_MAIN_CR
      (fun _ y => pwrctrl_init_ppcr y p) (fun x _ => pwrctrl_init_mcr x p)
      (by decide) (r, d1) h.symm
    refine first_failure_state d _ _ _ _ _ _ hf ?_ ?_ ?_ ?_
    · rw [read_state]
    · rw [read_state, read_state]
    · rw [write_state, read_state, read_state]
    · rw [write_state, write_state, read_state, read_state]

theorem watchdog_init_state (T : Transport) (d : Driver) (sec : Nat) :
    (stpmic_watchdog_init T d sec).2.state = d.state := by
  unfold stpmic_watchdog_init stpmic_watchdog_deinit
  split
  · exact (write_direct_frame T d _ _).2
  · have h1 := write_state T d STPMIC_REG_WDG_TMR_CR ((sec - 1) % 256)
    rcases hr : stpmic_write T d STPMIC_REG_WDG_TMR_CR ((sec - 1) % 256) with ⟨ret, d1⟩
    rw [hr] at h1
    simp only at h1 ⊢
    split
    · exact h1
    · rw [(write_direct_frame T d1 _ _).2]
      exact h1

theorem watchdog_reset_state (T : Transport) (d : Driver) :
    (stpmic_watchdog_reset T d).2.state = d.state := by
  unfold stpmic_watchdog_reset
  have h1 := read_state T d STPMIC_REG_WDG_TMR_CR
  rcases hr : stpmic_read T d STPMIC_REG_WDG_TMR_CR with ⟨ret, out, d1⟩
  rw [hr] at h1
  simp only at h1 ⊢
  split
  · exact h1
  · split
    · exact h1
    · rw [(write_direct_frame T d1 _ _).2]
      exact h1

theorem buck_main_cr_state (T : Transport) (d : Driver) (nth : Nat) :
    (stpmic_buck_main_cr T d nth).2.2.state = d.state := by
  unfold stpmic_buck_main_cr
  split
  · rfl
  · exact read_state T d _

theorem buck_enable_state (X : Undeclared) (T : Transport) (d : Driver) (nth : Nat) :
    (__stpmic_buck_enable X T d nth 0).2.state = d.state := by
  unfold __stpmic_buck_enable
  simp only [ne_eq, not_true_eq_false, if_false]
  have h1 := buck_main_cr_state T d nth
  rcases hr : stpmic_buck_main_cr T d nth with ⟨ret, out, d1⟩
  rw [hr] at h1
  simp only at h1 ⊢
  split
  · exact h1
  · split
    · exact h1
    · rw [write_state]
      exact h1

theorem buck_disable_state (X : Undeclared) (T : Transport) (d : Driver) (nth : Nat) :
    (__stpmic_buck_disable X T d nth 0).2.state = d.state := by
  unfold __stpmic_buck_disable
  simp only [ne_eq, not_true_eq_false, if_false]
  have h1 := buck_main_cr_state T d nth
  rcases hr : stpmic_buck_main_cr T d nth with ⟨ret, out, d1⟩
  rw [hr] at h1
  simp only at h1 ⊢
  split
  · exact h1
  · split
    · exact h1
    · rw [write_state]
      exact h1

theorem buck_setup_state (X : Undeclared) (T : Transport) (d : Driver) (nth alt : Nat)
    (opts : Option stpmic_buck_t) (r : stpmic_ret_t) (d1 : Driver)
    (h : __stpmic_buck_setup X T d nth alt opts = some (r, d1)) : d1.state = d.state := by
  unfold __stpmic_buck_setup stpmic_buckspd at h
  split at h
  · simp only [Option.some.injEq, Prod.mk.injEq] at h
    rw [← h.2]
  · have h1 := read_state T d STPMIC_REG_BUCKS_PD_CR
    rcases hr : stpmic_read T d STPMIC_REG_BUCKS_PD_CR with ⟨ret, out, d2⟩
    rw [hr] at h1 h
    simp only at h1 h
    split at h
    · simp only [Option.some.injEq, Prod.mk.injEq] at h
      rw [← h.2]
      exact h1
    · cases opts with
      | none => simp at h
      | some o =>
        simp only at h
        have h2 := write_state T d2 STPMIC_REG_BUCKS_PD_CR
          (stpmic_set_buckspd (out.getD 0) nth o.pd)
        rcases hw : stpmic_write T d2 STPMIC_REG_BUCKS_PD_CR
          (stpmic_set_buckspd (out.getD 0) nth o.pd) with ⟨ret2, d3⟩
        rw [hw] at h2 h
        simp only at h2 h
        split at h
        · simp only [Option.some.injEq, Prod.mk.injEq] at h
          rw [← h.2]
          exact h2.trans h1
        · simp only [Option.some.injEq] at h
          have h3 := congrArg (fun x => x.2.state) h
          simp only at h3
          rw [← h3, write_state]
          exact h2.trans h1

theorem ldo_setup_cr_state (X : Undeclared) (T : Transport) (d : Driver) (nth alt : Nat)
    (o : stpmic_ldo_t) : (ldo_setup_cr X T d nth alt o).2.state = d.state := by
  unfold ldo_setup_cr
  simp only
  split
  · rfl
  · exact write_state T d _ _

theorem ldo_setup_state (X : Undeclared) (T : Transport) (d : Driver) (nth alt : Nat)
    (opts : Option stpmic_ldo_t) (r : stpmic_ret_t) (d1 : Driver)
    (h : __stpmic_ldo_setup X T d nth alt opts = some (r, d1)) : d1.state = d.state := by
  unfold __stpmic_ldo_setup stpmic_ldo1234pd stpmic_ldo56pd at h
  split at h
  · have h1 := read_state T d STPMIC_REG_LDO1234_PD_CR
    rcases hr : stpmic_read T d STPMIC_REG_LDO1234_PD_CR with ⟨ret, out, d2⟩
    rw [hr] at h1 h
    simp only at h1 h
    split at h
    · simp only [Option.some.injEq, Prod.mk.injEq] at h
      rw [← h.2]
      exact h1
    · cases opts with
      | none => simp at h
      | some o =>
        simp only at h
        have h2 := write_state T d2 STPMIC_REG_LDO1234_PD_CR
          (stpmic_set_ldo1234pd (out.getD 0) nth o.pd)
        rcases hw : stpmic_write T d2 STPMIC_REG_LDO1234_PD_CR
          (stpmic_set_ldo1234pd (out.getD 0) nth o.pd) with ⟨ret2, d3⟩
        rw [hw] at h2 h
        simp only at h2 h
        split at h
        · simp only [Option.some.injEq, Prod.mk.injEq] at h
          rw [← h.2]
          exact h2.trans h1
        · simp only [Option.some.injEq] at h
          have h3 := congrArg (fun x => x.2.state) h
          simp only at h3
          rw [← h3, ldo_setup_cr_state]
          exact h2.trans h1
  · split at h
    · have h1 := read_state T d STPMIC_REG_LDO56_VREF_PD_CR
      rcases hr : stpmic_read T d STPMIC_REG_LDO56_VREF_PD_CR with ⟨ret, out, d2⟩
      rw [hr] at h1 h
      simp only at h1 h
      split at h
      · simp only [Option.some.injEq, Prod.mk.injEq] at h
        rw [← h.2]
        exact h1
      · cases opts with
        | none => simp at h
        | some o =>
          simp only at h
          have h2 := write_state T d2 STPMIC_REG_LDO56_VREF_PD_CR
            (stpmic_set_ldo56pd (out.getD 0) nth o.pd)
          rcases hw : stpmic_write T d2 STPMIC_REG_LDO56_VREF_PD_CR
            (stpmic_set_ldo56pd (out.getD 0) nth o.pd) with ⟨ret2, d3⟩
          rw [hw] at h2 h
          simp only at h2 h
          split at h
          · simp only [Option.some.injEq, Prod.mk.injEq] at h
            rw [← h.2]
            exact h2.trans h1
          · simp only [Option.some.injEq] at h
            have h3 := congrArg (fun x => x.2.state) h
            simp only at h3
            rw [← h3, ldo_setup_cr_state]
            exact h2.trans h1
    · simp only [Option.some.injEq, Prod.mk.injEq] at h
      rw [← h.2]

theorem ldo_enable_state (X : Undeclared) (T : Transport) (d : Driver) (nth alt : Nat) :
    (__stpmic_ldo_enable X T d nth alt).2.state = d.state := by
  unfold __stpmic_ldo_enable
  split
  · rfl
  · simp only
    have h1 := read_state T d
      (((if alt ≠ 0 then X.STPMIC_REG_LDOx_ALT_CR else STPMIC_REG_LDOx_MAIN_CR)
        + (nth - 1)) % 256)
    rcases hr : stpmic_read T d
      (((if alt ≠ 0 then X.STPMIC_REG_LDOx_ALT_CR else STPMIC_REG_LDOx_MAIN_CR)
        + (nth - 1)) % 256) with ⟨ret, out, d1⟩
    rw [hr] at h1
    simp only at h1 ⊢
    split
    · exact h1
    · split
      · exact h1
      · rw [write_state]
        exact h1

theorem ldo_disable_state (X : Undeclared) (T : Transport) (d : Driver) (nth alt : Nat) :
    (__stpmic_ldo_disable X T d nth alt).2.state = d.state := by
  unfold __stpmic_ldo_disable
  split
  · rfl
  · simp only
    have h1 := read_state T d
      (((if alt ≠ 0 then X.STPMIC_REG_LDOx_ALT_CR else STPMIC_REG_LDOx_MAIN_CR)
        + (nth - 1)) % 256)
    rcases hr : stpmic_read T d
      (((if alt ≠ 0 then X.STPMIC_REG_LDOx_ALT_CR else STPMIC_REG_LDOx_MAIN_CR)
        + (nth - 1)) % 256) with ⟨ret, out, d1⟩
    rw [hr] at h1
    simp only at h1 ⊢
    split
    · exact h1
    · split
      · exact h1
      · rw [write_state]
        exact h1

theorem refddr_enable_state (X : Undeclared) (T : Transport) (d : Driver) (alt : Nat) :
    (__stpmic_refddr_enable X T d alt).2.state = d.state := by
  unfold __stpmic_refddr_enable
  have h1 := read_state T d
    (if alt ≠ 0 then X.STPMIC_REG_REFDDR_ALT_CR else X.STPMIC_REG_REFDDR_MAIN_CR)
  rcases hr : stpmic_read T d
    (if alt ≠ 0 then X.STPMIC_REG_REFDDR_ALT_CR else X.STPMIC_REG_REFDDR_MAIN_CR)
    with ⟨ret, out, d1⟩
  rw [hr] at h1
  simp only at h1 ⊢
  split
  · exact h1
  · rw [write_state]
    exact h1

theorem refddr_disable_state (X : Undeclared) (T : Transport) (d : Driver) (alt : Nat) :
    (__stpmic_refddr_disable X T d alt).2.state = d.state := by
  unfold __stpmic_refddr_disable
  have h1 := read_state T d
    (if alt ≠ 0 then X.STPMIC_REG_REFDDR_ALT_CR else X.STPMIC_REG_REFDDR_MAIN_CR)
  rcases hr : stpmic_read T d
    (if alt ≠ 0 then X.STPMIC_REG_REFDDR_ALT_CR else X.STPMIC_REG_REFDDR_MAIN_CR)
    with ⟨ret, out, d1⟩
  rw [hr] at h1
  simp only at h1 ⊢
  split
  · exact h1
  · rw [write_state]
    exact h1

theorem interrupt_loop_state (T : Transport) :
    ∀ (n i val : Nat) (d : Driver) (r : stpmic_ret_t) (out : Option Nat) (d1 : Driver),
      interrupt_read_loop T n i val d = some (r, out, d1) → d1.state = d.state := by
  intro n
  induction n with
  | zero =>
    intro i val d r out d1 h
    simp only [interrupt_read_loop, Option.some.injEq, Prod.mk.injEq] at h
    rw [← h.2.2]
  | succ n ih =>
    intro i val d r out d1 h
    unfold interrupt_read_loop at h
    have h1 := read_state T d i
    rcases hr : stpmic_read T d i with ⟨ret, reg, d2⟩
    rw [hr] at h1 h
    simp only at h1 h
    split at h
    · simp only [Option.some.injEq, Prod.mk.injEq] at h
      rw [← h.2.2]
      exact h1
    · split at h
      · simp at h
      · exact (ih _ _ _ _ _ _ h).trans h1

theorem set_timeout_state (d : Driver) (inp : Option stpmic_timeout_t) :
    (stpmic_set_timeout d inp).state = d.state := by
  unfold stpmic_set_timeout
  cases inp <;> rfl

theorem call_keeps_state (X : Undeclared) (I : UndeclaredInt) (T : Transport) (c : Call)
    (d d1 : Driver) (h : c.run X I T d = some d1) : d1.state = d.state := by
  cases c with
  | init dev addr =>
    simp only [Call.run, Option.map_eq_some'] at h
    obtain ⟨⟨r, d2⟩, h2, rfl⟩ := h
    exact init_state T d dev addr r _ h2
  | set_timeout inp =>
    simp only [Call.run, Option.some.injEq] at h
    rw [← h, set_timeout_state]
  | read_direct reg =>
    simp only [Call.run, Option.some.injEq] at h
    rw [← h, (read_direct_frame T d reg).2]
  | write_direct reg val =>
    simp only [Call.run, Option.some.injEq] at h
    rw [← h, (write_direct_frame T d reg val).2]
  | read reg =>
    simp only [Call.run, Option.some.injEq] at h
    rw [← h, read_state]
  | write reg val =>
    simp only [Call.run, Option.some.injEq] at h
    rw [← h, write_state]
  | clear_cache reg =>
    simp only [Call.run, Option.map_eq_some'] at h
    obtain ⟨⟨r, d2⟩, h2, rfl⟩ := h
    exact clear_cache_state d reg r _ h2
  | batch_write reg val =>
    simp only [Call.run, Option.map_eq_some'] at h
    obtain ⟨⟨r, d2⟩, h2, rfl⟩ := h
    exact batch_write_state d reg val r _ h2
  | batch_flush =>
    simp only [Call.run, Option.map_eq_some'] at h
    obtain ⟨⟨r, d2⟩, h2, rfl⟩ := h
    exact flush_preserves T (fun x => x.state = d.state)
      (fun d0 reg val h0 => ((write_direct_frame T d0 reg val).2).trans h0) d rfl r _ h2
  | reload_cache =>
    simp only [Call.run, Option.map_eq_some'] at h
    obtain ⟨⟨r, d2⟩, h2, rfl⟩ := h
    exact reload_preserves T (fun x => x.state = d.state)
      (fun d0 reg h0 => ((read_direct_frame T d0 reg).2).trans h0) d rfl r _ h2
  | version =>
    simp only [Call.run, Option.some.injEq] at h
    rw [← h, version_state]
  | ocpldosr =>
    simp only [Call.run, Option.some.injEq] at h
    rw [← h]
    exact (read_direct_frame T d _).2
  | ocpbucksbsw =>
    simp only [Call.run, Option.some.injEq] at h
    rw [← h]
    exact (read_direct_frame T d _).2
  | pwrctrl_init pwrctrl =>
    simp only [Call.run, Option.map_eq_some'] at h
    obtain ⟨⟨r, d2⟩, h2, rfl⟩ := h
    exact pwrctrl_init_state T d pwrctrl r _ h2
  | pwrctrl_deinit =>
    simp only [Call.run, Option.some.injEq] at h
    rw [← h, pwrctrl_deinit_state]
  | mrst =>
    simp only [Call.run, Option.some.injEq] at h
    rw [← h, mrst_state]
  | set_mrst val =>
    simp only [Call.run, Option.some.injEq] at h
    rw [← h, set_mrst_state]
  | watchdog_init sec =>
    simp only [Call.run, Option.some.injEq] at h
    rw [← h, watchdog_init_state]
  | watchdog_deinit =>
    simp only [Call.run, Option.some.injEq] at h
    rw [← h]
    exact (write_direct_frame T d _ _).2
  | watchdog_reset =>
    simp only [Call.run, Option.some.injEq] at h
    rw [← h, watchdog_reset_state]
  | buck_setup nth alt opts =>
    simp only [Call.run, Option.map_eq_some'] at h
    obtain ⟨⟨r, d2⟩, h2, rfl⟩ := h
    exact buck_setup_state X T d nth alt opts r _ h2
  | buck_enable nth =>
    simp only [Call.run, Option.some.injEq] at h
    rw [← h, buck_enable_state]
  | buck_disable nth =>
    simp only [Call.run, Option.some.injEq] at h
    rw [← h, buck_disable_state]
  | ldo_setup nth alt opts =>
    simp only [Call.run, Option.map_eq_some'] at h
    obtain ⟨⟨r, d2⟩, h2, rfl⟩ := h
    exact ldo_setup_state X T d nth alt opts r _ h2
  | ldo_enable nth alt =>
    simp only [Call.run, Option.some.injEq] at h
    rw [← h, ldo_enable_state]
  | ldo_disable nth alt =>
    simp only [Call.run, Option.some.injEq] at h
    rw [← h, ldo_disable_state]
  | refddr_enable alt =>
    simp only [Call.run, Option.some.injEq] at h
    rw [← h, refddr_enable_state]
  | refddr_disable alt =>
    simp only [Call.run, Option.some.injEq] at h
    rw [← h, refddr_disable_state]
  | interrupt_pending =>
    simp only [Call.run, Option.map_eq_some'] at h
    obtain ⟨⟨r, out, d2⟩, h2, rfl⟩ := h
    exact interrupt_loop_state T _ _ _ d r out _ h2
  | interrupt_read_mask =>
    simp only [Call.run, Option.map_eq_some'] at h
    obtain ⟨⟨r, out, d2⟩, h2, rfl⟩ := h
    exact interrupt_loop_state T _ _ _ d r out _ h2
  | interrupt_read_source =>
    simp only [Call.run, Option.map_eq_some'] at h
    obtain ⟨⟨r, out, d2⟩, h2, rfl⟩ := h
    exact interrupt_loop_state T _ _ _ d r out _ h2

theorem run_calls_state (X : Undeclared) (I : UndeclaredInt) (T : Transport) :
    ∀ (cs : List Call) (d d1 : Driver), run_calls X I T cs d = some d1 →
      d1.state = d.state := by
  intro cs
  induction cs with
  | nil =>
    intro d d1 h
    simp only [run_calls, Option.some.injEq] at h
    rw [h]
  | cons c cs ih =>
    intro d d1 h
    simp only [run_calls, Option.bind_eq_some] at h
    obtain ⟨d2, h2, h3⟩ := h
    exact (ih d2 d1 h3).trans (call_keeps_state X I T c d d2 h2)

theorem init_rejected (T : Transport) (d : Driver) (dev : Option Nat) (addr : Int)
    (hs : d.state ≠ STPMIC_DRV_NOT_INIT) :
    stpmic_init T d dev addr = some (STPMIC_RET_ALREADY, d) ∨
      stpmic_init T d dev addr = some (STPMIC_RET_INVALID, d) := by
  unfold stpmic_init
  by_cases hinv : dev = none ∨ addr > 0x7f
  · exact Or.inr (by rw [if_pos hinv])
  · exact Or.inl (by rw [if_neg hinv, if_pos hs])

/-- C35. Device state: the static initialiser sets the state to
`STPMIC_DRV_NOT_INIT`; for every sequence of calls of the driver that has a
defined result, made from any driver state, a state that is one of the three
(`NOT_INIT`, `INIT`, `READY`) is followed by one of the three, the state after
a sequence without `stpmic_init` is the state before, and from
`STPMIC_DRV_READY` the state after the sequence is `STPMIC_DRV_READY`, where a
further `stpmic_init` is rejected with `STPMIC_RET_ALREADY` (or
`STPMIC_RET_INVALID` for bad arguments) and changes nothing. -/
theorem state_monotonic (X : Undeclared) (I : UndeclaredInt) (T : Transport)
    (cs : List Call) (d d1 : Driver) (h : run_calls X I T cs d = some d1) :
    (∀ n, (STPMIC1 n).state = STPMIC_DRV_NOT_INIT) ∧
    (d.state ≤ STPMIC_DRV_READY → d1.state ≤ STPMIC_DRV_READY) ∧
    ((∀ c ∈ cs, ∀ dev addr, c ≠ Call.init dev addr) → d1.state = d.state) ∧
    (d.state = STPMIC_DRV_READY →
      d1.state = STPMIC_DRV_READY ∧
      ∀ dev addr, stpmic_init T d1 dev addr = some (STPMIC_RET_ALREADY, d1) ∨
        stpmic_init T d1 dev addr = some (STPMIC_RET_INVALID, d1)) := by
  have hs := run_calls_state X I T cs d d1 h
  refine ⟨fun _ => rfl, fun hle => by rw [hs]; exact hle, fun _ => hs, ?_⟩
  intro hr
  have h1 : d1.state = STPMIC_DRV_READY := by rw [hs, hr]
  refine ⟨h1, fun dev addr => init_rejected T d1 dev addr ?_⟩
  rw [h1]
  decide

theorem state_monotonic_witness :
    (∃ d1, (run_calls stpmic1_undeclared stpmic1_int (transport_const 0)
        [Call.write STPMIC_REG_MAIN_CR 1, Call.batch_flush, Call.init (some 1) (-1),
          Call.watchdog_init 3, Call.ldo_enable 5 0] (ready 0x2b 0)) = some d1 ∧
      d1.state ≤ STPMIC_DRV_READY ∧ d1.state = STPMIC_DRV_READY ∧
      ∀ dev addr, stpmic_init (transport_const 0) d1 dev addr = some (STPMIC_RET_ALREADY, d1) ∨
        stpmic_init (transport_const 0) d1 dev addr = some (STPMIC_RET_INVALID, d1)) ∧
    (∃ d1, (run_calls stpmic1_undeclared stpmic1_int (transport_const 0)
        [Call.write STPMIC_REG_MAIN_CR 1, Call.batch_flush, Call.set_mrst 0x0f7f] (attached 0x2b 0)) = some d1 ∧
      d1.state = (attached 0x2b 0).state) :=
  ⟨⟨Option.get (run_calls stpmic1_undeclared stpmic1_int (transport_const 0)
        [Call.write STPMIC_REG_MAIN_CR 1, Call.batch_flush, Call.init (some 1) (-1),
          Call.watchdog_init 3, Call.ldo_enable 5 0] (ready 0x2b 0)) (by decide!), by simp,
      (state_monotonic stpmic1_undeclared stpmic1_int (transport_const 0) _ (ready 0x2b 0) _
        (Option.some_get (by decide!)).symm).2.1 (by decide),
      ((state_monotonic stpmic1_undeclared stpmic1_int (transport_const 0) _ (ready 0x2b 0) _
        (Option.some_get (by decide!)).symm).2.2.2 rfl).1,
      ((state_monotonic stpmic1_undeclared stpmic1_int (transport_const 0) _ (ready 0x2b 0) _
        (Option.some_get (by decide!)).symm).2.2.2 rfl).2⟩,
   ⟨Option.get (run_calls stpmic1_undeclared stpmic1_int (transport_const 0)
        [Call.write STPMIC_REG_MAIN_CR 1, Call.batch_flush, Call.set_mrst 0x0f7f] (attached 0x2b 0)) (by decide!), by simp,
      (state_monotonic stpmic1_undeclared stpmic1_int (transport_const 0) _ (attached 0x2b 0) _
        (Option.some_get (by decide!)).symm).2.2.1 (by
          intro c hc dev addr
          simp only [List.mem_cons, List.mem_singleton, List.not_mem_nil, or_false] at hc
          rcases hc with rfl | rfl | rfl <;> simp)⟩⟩

/-! ## Flush and the registers outside the register map -/

theorem walk_range_preserves_in (access : Driver → Nat → Option (stpmic_ret_t × Driver))
    (P : Driver → Prop) (R : Nat → Prop)
    (hacc : ∀ d reg r d1, R reg → P d → access d reg = some (r, d1) → P d1) :
    ∀ (n s : Nat) (w w1 : Walk), (∀ k, k < n → R (s + k)) → P w.drv →
      walk_range access n s w = some w1 → P w1.drv := by
  intro n
  induction n with
  | zero =>
    intro s w w1 _ hw h
    simp only [walk_range, Option.some.injEq] at h
    exact h ▸ hw
  | succ n ih =>
    intro s w w1 hR hw h
    unfold walk_range at h
    cases ha : access w.drv s with
    | none => simp [ha] at h
    | some p =>
      obtain ⟨r, d1⟩ := p
      simp only [ha] at h
      have hd1 := hacc _ _ _ _ (by simpa using hR 0 (by omega)) hw ha
      by_cases hr : r = STPMIC_RET_OK
      · simp only [hr, ne_eq, not_true_eq_false, if_false] at h
        refine ih (s + 1) _ w1 ?_ hd1 h
        intro k hk
        have := hR (k + 1) (by omega)
        rwa [show s + (k + 1) = s + 1 + k by omega] at this
      · simp only [ne_eq, hr, not_false_eq_true, if_true, Option.some.injEq] at h
        subst h
        exact hd1

theorem walk_regmap_preserves_in (access : Driver → Nat → Option (stpmic_ret_t × Driver))
    (P : Driver → Prop)
    (hacc : ∀ d reg r d1, reg ∈ regmap_covered STPMIC_REGMAP → P d →
      access d reg = some (r, d1) → P d1)
    (d : Driver) (w : Walk) (hd : P d)
    (hw : walk_map access STPMIC_REGMAP (walk_init d) = some w) : P w.drv := by
  obtain ⟨w1, w2, w3, w4, w5, h1, h2, h3, h4, h5, h6⟩ := (walk_map_regmap access _ w).mp hw
  have p := walk_range_preserves_in access P (fun reg => reg ∈ regmap_covered STPMIC_REGMAP)
    hacc
  have p1 := p 6 1 _ _ (by decide) hd h1
  have p2 := p 7 0x10 _ _ (by decide) p1 h2
  have p3 := p 1 0x18 _ _ (by decide) p2 h3
  have p4 := p 3 0x1a _ _ (by decide) p3 h4
  have p5 := p 4 0x20 _ _ (by decide) p4 h5
  exact p 6 0x25 _ _ (by decide) p5 h6

theorem flush_preserves_in (T : Transport) (P : Driver → Prop)
    (hwr : ∀ d0 reg c, reg ∈ regmap_covered STPMIC_REGMAP → P d0 → d0.cache[reg]? = some c →
      P (stpmic_write_direct T d0 reg (c % 256)).2)
    (d : Driver) (hd : P d) (r : stpmic_ret_t) (d1 : Driver)
    (h : stpmic_batch_flush T d = some (r, d1)) : P d1 := by
  unfold stpmic_batch_flush at h
  split at h
  · simp only [Option.some.injEq, Prod.mk.injEq] at h
    rw [← h.2]
    exact hd
  · cases hw : batch_flush_walk T d with
    | none => simp [hw] at h
    | some w =>
      simp only [hw, Option.some.injEq] at h
      have hdrv : d1 = w.drv := by
        rw [← walk_result_drv w, h]
      rw [hdrv]
      refine walk_regmap_preserves_in (flush_access T) P ?_ d w hd hw
      intro d0 reg r0 d2 hreg h0 ha
      unfold flush_access at ha
      split at ha
      · rename_i hlt
        simp only [Option.some.injEq] at ha
        have := hwr d0 reg d0.cache[reg] hreg h0 (List.getElem?_eq_getElem hlt)
        rw [ha] at this
        exact this
      · simp at ha

theorem write_direct_other (T : Transport) (d : Driver) (reg val j : Nat) (hj : j ≠ reg) :
    (stpmic_write_direct T d reg val).2.cache[j]? = d.cache[j]? := by
  unfold stpmic_write_direct
  split
  · rfl
  · split
    · rfl
    · simp only
      split
      · rfl
      · split
        · simp [List.getElem?_set_ne (Ne.symm hj)]
        · rfl

theorem read_direct_other (T : Transport) (d : Driver) (reg j : Nat) (hj : j ≠ reg % 256) :
    (stpmic_read_direct T d reg).2.2.cache[j]? = d.cache[j]? := by
  unfold stpmic_read_direct
  split
  · rfl
  · split
    · rfl
    · simp only
      split
      · rfl
      · split
        · rfl
        · split
          · simp [List.getElem?_set_ne (Ne.symm hj)]
          · rfl

theorem covered_lt (reg : Nat) (h : reg ∈ regmap_covered STPMIC_REGMAP) : reg < 0x2b := by
  have hall : ∀ x ∈ regmap_covered STPMIC_REGMAP, x < 0x2b := by decide
  exact hall reg h

theorem flush_skips_uncovered (T : Transport) (d : Driver) (id : Nat)
    (hnc : id ∉ regmap_covered STPMIC_REGMAP) (r : stpmic_ret_t) (d1 : Driver)
    (h : stpmic_batch_flush T d = some (r, d1)) :
    no_write_to id d d1 ∧ d1.cache[id]? = d.cache[id]? := by
  refine flush_preserves_in T (fun x => no_write_to id d x ∧ x.cache[id]? = d.cache[id]?)
    ?_ d ⟨no_write_to_refl id d, rfl⟩ r d1 h
  intro d0 reg c hreg ⟨h1, h2⟩ _
  have hne : id ≠ reg := fun e => hnc (e ▸ hreg)
  have hmod : reg % 256 = reg := Nat.mod_eq_of_lt (by have := covered_lt reg hreg; omega)
  refine ⟨no_write_to_trans id _ _ _ h1
    (write_direct_no_write_to T d0 reg _ id (by rw [hmod]; exact Ne.symm hne)), ?_⟩
  rw [write_direct_other T d0 reg _ id hne, h2]

/-- C39. Staged writes outside the descriptor are never flushed: on an
attached device, for every valid register ID `id` with a cache slot that no
range of `STPMIC_REGMAP` covers and every byte `v`, `stpmic_batch_write id v`
returns success, sends nothing and leaves the slot holding `v` with the
mismatch flag set; and every `stpmic_batch_flush`, from whatever driver state
and with whatever transport behaviour, sends no write packet for `id` and
leaves the slot of `id` as it was, so that the slot still holds `v` with the
mismatch flag set after the flush.  When the cache array holds every register
of the descriptor, the flush that follows the staging does return. -/
theorem staged_outside_descriptor_not_flushed (T : Transport) (d : Driver) (id v : Nat)
    (hst : STPMIC_DRV_INIT ≤ d.state) (hid : id < STPMIC_REG_MAX)
    (hnc : id ∉ regmap_covered STPMIC_REGMAP) (hc : id < STPMIC_REG_CACHE_MAX d)
    (hv : v < 256) :
    stpmic_batch_write d id v = some (STPMIC_RET_OK,
      { d with cache := d.cache.set id (v ||| STPMIC_CACHE_MISMATCH) }) ∧
    slot_dirty { d with cache := d.cache.set id (v ||| STPMIC_CACHE_MISMATCH) } id v ∧
    (∀ d2 r d3, stpmic_batch_flush T d2 = some (r, d3) →
      no_write_to id d2 d3 ∧ d3.cache[id]? = d2.cache[id]? ∧
      (slot_dirty d2 id v → slot_dirty d3 id v)) ∧
    (STPMIC_REG_LDOx_MAIN_CR + 6 ≤ STPMIC_REG_CACHE_MAX d →
      ∃ r d3, stpmic_batch_flush T
        { d with cache := d.cache.set id (v ||| STPMIC_CACHE_MISMATCH) } = some (r, d3)) := by
  have hc1 : id < d.cache.length := hc
  refine ⟨batch_write_ok d id v hst hid hc1, ?_, ?_, ?_⟩
  · refine ⟨v ||| STPMIC_CACHE_MISMATCH, by simp [hc1], or_mismatch_and_mismatch v, ?_⟩
    rw [or_mismatch_and_ff, byte_and_ff v hv]
  · intro d2 r d3 hfl
    obtain ⟨h1, h2⟩ := flush_skips_uncovered T d2 id hnc r d3 hfl
    refine ⟨h1, h2, ?_⟩
    rintro ⟨c, hget, hm, hval⟩
    exact ⟨c, by rw [h2]; exact hget, hm, hval⟩
  · intro hlen
    obtain ⟨w, hw, _⟩ := flush_walk_facts T
      { d with cache := d.cache.set id (v ||| STPMIC_CACHE_MISMATCH) }
      (by simpa using hlen)
    refine ⟨(walk_result w).1, (walk_result w).2, ?_⟩
    unfold stpmic_batch_flush
    simp [Nat.not_lt.mpr hst, hw]

theorem staged_outside_descriptor_not_flushed_witness :
    stpmic_batch_write (attached 0x2b 0) 0x17 0x5a = some (STPMIC_RET_OK,
      { attached 0x2b 0 with
        cache := (attached 0x2b 0).cache.set 0x17 (0x5a ||| STPMIC_CACHE_MISMATCH) }) ∧
    slot_dirty { attached 0x2b 0 with
        cache := (attached 0x2b 0).cache.set 0x17 (0x5a ||| STPMIC_CACHE_MISMATCH) } 0x17 0x5a ∧
    (∃ r d3, stpmic_batch_flush (transport_const 0)
        { attached 0x2b 0 with
          cache := (attached 0x2b 0).cache.set 0x17 (0x5a ||| STPMIC_CACHE_MISMATCH) }
        = some (r, d3) ∧
      no_write_to 0x17 { attached 0x2b 0 with
          cache := (attached 0x2b 0).cache.set 0x17 (0x5a ||| STPMIC_CACHE_MISMATCH) } d3 ∧
      slot_dirty d3 0x17 0x5a) ∧
    (∀ id ∈ [0x00, 0x07, 0x17, 0x19, 0x24],
      id < STPMIC_REG_MAX ∧ id ∉ regmap_covered STPMIC_REGMAP) := by
  have w := staged_outside_descriptor_not_flushed (transport_const 0) (attached 0x2b 0)
    0x17 0x5a (by decide) (by decide) (by decide) (by decide) (by decide)
  obtain ⟨r, d3, hfl⟩ := w.2.2.2 (by decide)
  exact ⟨w.1, w.2.1, ⟨r, d3, hfl, (w.2.2.1 _ r d3 hfl).1, (w.2.2.1 _ r d3 hfl).2.2 w.2.1⟩,
    by decide⟩

/-! ## A read between staging and flush -/

theorem write_direct_shape (T : Transport) (d : Driver) (reg val : Nat) :
    (stpmic_write_direct T d reg val).2 = d ∨
    (stpmic_write_direct T d reg val).2 =
      { d with
        bus := d.bus ++ [Txn.transmit d.dev (bus_addr d.addr 0) [reg % 256, val] d.timeout_w] } ∨
    (reg < d.cache.length ∧
      (stpmic_write_direct T d reg val).2 =
        { d with
          bus := d.bus ++
            [Txn.transmit d.dev (bus_addr d.addr 0) [reg % 256, val] d.timeout_w],
          cache := d.cache.set reg val }) := by
  unfold stpmic_write_direct
  split
  · exact Or.inl rfl
  · split
    · exact Or.inl rfl
    · simp only
      split
      · exact Or.inr (Or.inl rfl)
      · split
        · rename_i hlt
          exact Or.inr (Or.inr ⟨hlt, rfl⟩)
        · exact Or.inr (Or.inl rfl)

theorem flush_sends_slot_value (T : Transport) (d : Driver) (id h : Nat)
    (hslot : ∃ c, d.cache[id]? = some c ∧ c % 256 = h) (r : stpmic_ret_t) (d1 : Driver)
    (hfl : stpmic_batch_flush T d = some (r, d1)) :
    ∃ sent, d1.bus = d.bus ++ sent ∧
      ∀ t ∈ sent, writes_to id t = true →
        t = Txn.transmit d.dev (bus_addr d.addr 0) [id, h] d.timeout_w := by
  have hh : h % 256 = h := by
    obtain ⟨c, _, hc⟩ := hslot
    rw [← hc, Nat.mod_mod]
  have key := flush_preserves_in T
    (fun x => (∃ c, x.cache[id]? = some c ∧ c % 256 = h) ∧ x.dev = d.dev ∧ x.addr = d.addr ∧
      x.timeout_w = d.timeout_w ∧
      ∃ sent, x.bus = d.bus ++ sent ∧
        ∀ t ∈ sent, writes_to id t = true →
          t = Txn.transmit d.dev (bus_addr d.addr 0) [id, h] d.timeout_w)
    ?_ d ⟨hslot, rfl, rfl, rfl, [], by simp, by simp⟩ r d1 hfl
  · exact key.2.2.2.2
  · intro x reg c hreg ⟨⟨c0, hc0, hc0h⟩, hdev, haddr, hto, sent, hbus, hsent⟩ hget
    have hmod : reg % 256 = reg :=
      Nat.mod_eq_of_lt (by have := covered_lt reg hreg; omega)
    have hpkt : ∀ t ∈ sent ++
        [Txn.transmit x.dev (bus_addr x.addr 0) [reg % 256, c % 256] x.timeout_w],
        writes_to id t = true →
          t = Txn.transmit d.dev (bus_addr d.addr 0) [id, h] d.timeout_w := by
      intro t ht hw
      rcases List.mem_append.mp ht with h1 | h1
      · exact hsent t h1 hw
      · simp only [List.mem_singleton] at h1
        subst h1
        simp only [writes_to, beq_iff_eq] at hw
        have hid : reg = id := by rw [← hmod]; exact hw
        subst hid
        rw [hget] at hc0
        simp only [Option.some.injEq] at hc0
        rw [hmod, hdev, haddr, hto, hc0, hc0h]
    rcases write_direct_shape T x reg (c % 256) with e | e | ⟨hlt, e⟩
    · rw [e]
      exact ⟨⟨c0, hc0, hc0h⟩, hdev, haddr, hto, sent, hbus, hsent⟩
    · rw [e]
      exact ⟨⟨c0, hc0, hc0h⟩, hdev, haddr, hto, _, by simp [hbus], hpkt⟩
    · rw [e]
      refine ⟨?_, hdev, haddr, hto, _, by simp [hbus], hpkt⟩
      simp only
      by_cases hid : reg = id
      · subst hid
        rw [hget] at hc0
        simp only [Option.some.injEq] at hc0
        refine ⟨c % 256, by simp [hlt], ?_⟩
        rw [hc0, hc0h, hh]
      · exact ⟨c0, by rw [List.getElem?_set_ne hid]; exact hc0, hc0h⟩

theorem flush_sends_one_packet (T : Transport)
    (hT : ∀ past t, T.HAL_I2C_Master_Transmit past t = true) (d : Driver) (id c : Nat)
    (hst : STPMIC_DRV_INIT ≤ d.state)
    (hlen : STPMIC_REG_LDOx_MAIN_CR + 6 ≤ d.cache.length)
    (hid : id ∈ regmap_covered STPMIC_REGMAP) (hmax : id < STPMIC_REG_MAX)
    (hslot : d.cache[id]? = some c) :
    ∃ r d1 sent, stpmic_batch_flush T d = some (r, d1) ∧ d1.bus = d.bus ++ sent ∧
      sent.filter (writes_to id)
        = [Txn.transmit d.dev (bus_addr d.addr 0) [id, c % 256] d.timeout_w] := by
  obtain ⟨w, hw, hbus⟩ := flush_all_ok T hT d hst hlen
  refine ⟨(walk_result w).1, (walk_result w).2, regmap_valid.map (flush_packet d), ?_, ?_, ?_⟩
  · unfold stpmic_batch_flush
    simp [Nat.not_lt.mpr hst, hw]
  · rw [walk_result_drv, hbus]
  · have hmem : id ∈ regmap_valid := by
      unfold regmap_valid
      exact List.mem_filter.mpr ⟨hid, by simpa using hmax⟩
    have hnd : regmap_valid.Nodup := by decide
    have hcomp : (writes_to id ∘ flush_packet d) = (fun r => decide (r = id)) := by
      funext r
      simp only [Function.comp, writes_to, flush_packet]
      by_cases h : r = id <;> simp [h]
    rw [List.filter_map, hcomp, List.filter_eq, List.count_eq_one_of_mem hnd hmem]
    simp [flush_packet, hslot]

theorem read_direct_ok_bus_byte (T : Transport) (d : Driver) (id h : Nat) (d1 : Driver)
    (hst : STPMIC_DRV_INIT ≤ d.state) (hid : id < STPMIC_REG_MAX)
    (hrd : stpmic_read_direct T d id = (STPMIC_RET_OK, some h, d1)) : bus_byte T d1 id h := by
  obtain ⟨raw, hrx, hv, hd1⟩ := read_direct_ok_slot T d id h d1 hst hid hrd
  refine ⟨d.bus, [], _, _, _, _, _, _, _, raw, ?_, hrx, hv⟩
  rw [hd1]

theorem bus_byte_mono (T : Transport) (d d1 : Driver) (id h : Nat) (rest : List Txn)
    (hb : bus_byte T d id h) (hbus : d1.bus = d.bus ++ rest) : bus_byte T d1 id h := by
  obtain ⟨pre, post, dv, a, t, dv2, a2, n, t2, raw, e, hrx, hv⟩ := hb
  exact ⟨pre, post ++ rest, dv, a, t, dv2, a2, n, t2, raw, by rw [hbus, e]; simp, hrx, hv⟩

theorem walk_range_trace (access : Driver → Nat → Option (stpmic_ret_t × Driver))
    (J : Driver → List (Nat × stpmic_ret_t) → Prop)
    (hacc : ∀ d calls reg r d1, J d calls → access d reg = some (r, d1) →
      J d1 (calls ++ [(reg, r)])) :
    ∀ (n s : Nat) (w w1 : Walk), J w.drv w.calls → walk_range access n s w = some w1 →
      J w1.drv w1.calls := by
  intro n
  induction n with
  | zero =>
    intro s w w1 hw h
    simp only [walk_range, Option.some.injEq] at h
    exact h ▸ hw
  | succ n ih =>
    intro s w w1 hw h
    unfold walk_range at h
    cases ha : access w.drv s with
    | none => simp [ha] at h
    | some p =>
      obtain ⟨r, d1⟩ := p
      simp only [ha] at h
      have hd1 := hacc _ _ _ _ _ hw ha
      by_cases hr : r = STPMIC_RET_OK
      · simp only [hr, ne_eq, not_true_eq_false, if_false] at h
        exact ih (s + 1) _ w1 (by rw [hr] at hd1; exact hd1) h
      · simp only [ne_eq, hr, not_false_eq_true, if_true, Option.some.injEq] at h
        subst h
        exact hd1

theorem walk_regmap_trace (access : Driver → Nat → Option (stpmic_ret_t × Driver))
    (J : Driver → List (Nat × stpmic_ret_t) → Prop)
    (hacc : ∀ d calls reg r d1, J d calls → access d reg = some (r, d1) →
      J d1 (calls ++ [(reg, r)]))
    (d : Driver) (w : Walk) (hd : J d [])
    (hw : walk_map access STPMIC_REGMAP (walk_init d) = some w) : J w.drv w.calls := by
  obtain ⟨w1, w2, w3, w4, w5, h1, h2, h3, h4, h5, h6⟩ := (walk_map_regmap access _ w).mp hw
  have p := walk_range_trace access J hacc
  exact p _ _ _ _ (p _ _ _ _ (p _ _ _ _ (p _ _ _ _ (p _ _ _ _ (p _ _ _ _ hd h1) h2) h3) h4) h5) h6

theorem read_direct_ok_some (T : Transport) (d : Driver) (reg : Nat)
    (h : (stpmic_read_direct T d reg).1 = STPMIC_RET_OK) :
    ∃ v, stpmic_read_direct T d reg = (STPMIC_RET_OK, some v, (stpmic_read_direct T d reg).2.2) := by
  unfold stpmic_read_direct at h ⊢
  split
  · rename_i h1
    simp [h1] at h
  · split
    · rename_i h1 h2
      simp [h1, h2] at h
    · simp only
      split
      · rename_i h1 h2 h3
        simp [h1, h2, h3] at h
      · split
        · rename_i h1 h2 h3 x heq
          simp [h1, h2, h3, heq] at h
        · split
          · exact ⟨_, rfl⟩
          · exact ⟨_, rfl⟩

theorem read_direct_fail_cache (T : Transport) (d : Driver) (reg : Nat)
    (h : (stpmic_read_direct T d reg).1 ≠ STPMIC_RET_OK) :
    (stpmic_read_direct T d reg).2.2.cache = d.cache := by
  by_cases hst : d.state < STPMIC_DRV_INIT
  · unfold stpmic_read_direct
    rw [if_pos hst]
  by_cases hid : STPMIC_REG_MAX ≤ reg
  · rw [read_direct_invalid T d reg (Nat.le_of_not_lt hst) hid]
  have c := read_direct_cases T d reg (Nat.le_of_not_lt hst) (Nat.lt_of_not_le hid)
  cases htx : T.HAL_I2C_Master_Transmit d.bus
      (Txn.transmit d.dev (bus_addr d.addr 0) [reg] d.timeout_r)
  · rw [c.1 htx]
  · cases hrx : T.HAL_I2C_Master_Receive
        (d.bus ++ [Txn.transmit d.dev (bus_addr d.addr 0) [reg] d.timeout_r])
        (Txn.receive d.dev (bus_addr d.addr 1) 1 d.timeout_r) with
    | none => rw [c.2.1 htx hrx]
    | some raw =>
      rw [c.2.2 raw htx hrx] at h
      exact absurd rfl h

theorem reload_reads_staged (T : Transport) (d : Driver) (id : Nat)
    (hst : STPMIC_DRV_INIT ≤ d.state) (hid : id < STPMIC_REG_MAX) (hc : id < d.cache.length)
    (w : Walk) (hw : reload_cache_walk T d = some w)
    (hmem : (id, STPMIC_RET_OK) ∈ w.calls) :
    ∃ h, bus_byte T w.drv id h ∧ slot_valid w.drv id h := by
  have key := walk_regmap_trace (reload_access T)
    (fun x calls => x.cache.length = d.cache.length ∧ x.state = d.state ∧
      ((id, STPMIC_RET_OK) ∈ calls → ∃ h, bus_byte T x id h ∧ slot_valid x id h))
    ?_ d w ⟨rfl, rfl, by simp⟩ hw
  · exact key.2.2 hmem
  · intro x calls reg r x1 ⟨hlen, hstate, hJ⟩ ha
    unfold reload_access at ha
    simp only [Option.some.injEq, Prod.mk.injEq] at ha
    obtain ⟨hr, hx1⟩ := ha
    have hstx : STPMIC_DRV_INIT ≤ x.state := by rw [hstate]; exact hst
    have hcx : id < x.cache.length := by rw [hlen]; exact hc
    refine ⟨?_, ?_, ?_⟩
    · rw [← hx1, (read_direct_frame T x reg).1, hlen]
    · rw [← hx1, (read_direct_frame T x reg).2, hstate]
    · intro hin
      by_cases hnew : reg = id ∧ r = STPMIC_RET_OK
      · obtain ⟨hreg, hrok⟩ := hnew
        subst hreg
        rw [hrok] at hr
        obtain ⟨v, hv⟩ := read_direct_ok_some T x reg hr
        rw [hx1] at hv
        obtain ⟨raw, _, hraw, hd1⟩ := read_direct_ok_slot T x reg v x1 hstx hid hv
        rw [if_pos hcx] at hd1
        have hvlt : v < 256 := by rw [hraw]; exact Nat.mod_lt _ (by norm_num)
        exact ⟨v, read_direct_ok_bus_byte T x reg v x1 hstx hid hv,
          set_slot_valid x.cache reg v hcx hvlt x1 (by rw [hd1])⟩
      · have hold : (id, STPMIC_RET_OK) ∈ calls := by
          rcases List.mem_append.mp hin with h1 | h1
          · exact h1
          · simp only [List.mem_singleton, Prod.mk.injEq] at h1
            exact absurd ⟨h1.1.symm, h1.2.symm⟩ hnew
        obtain ⟨h, hb, hs⟩ := hJ hold
        obtain ⟨_, _, _, _, rest, hrest⟩ := read_direct_keeps T x reg
        rw [hx1] at hrest
        refine ⟨h, bus_byte_mono T x x1 id h rest hb hrest, ?_⟩
        have hcache : x1.cache[id]? = x.cache[id]? := by
          by_cases hrok : r = STPMIC_RET_OK
          · have hregne : reg ≠ id := fun e => hnew ⟨e, hrok⟩
            have hreglt : reg < STPMIC_REG_MAX := by
              by_contra hge
              exact read_direct_rejects T x reg (Nat.le_of_not_lt hge) (hr.trans hrok)
            rw [← hx1]
            refine read_direct_other T x reg id ?_
            rw [reg_mod_256 reg hreglt]
            exact Ne.symm hregne
          · rw [← hx1, read_direct_fail_cache T x reg (by rw [hr]; exact hrok)]
        obtain ⟨c, hget, hm, hval⟩ := hs
        exact ⟨c, by rw [hcache]; exact hget, hm, hval⟩

theorem slot_valid_mod (d : Driver) (id h : Nat) (hs : slot_valid d id h) :
    ∃ c, d.cache[id]? = some c ∧ c % 256 = h := by
  obtain ⟨c, hget, _, hv⟩ := hs
  refine ⟨c, hget, ?_⟩
  rw [← hv]
  exact (Nat.and_pow_two_sub_one_eq_mod c 8).symm

theorem staged_read_is_direct (T : Transport) (d : Driver) (id v : Nat)
    (hst : STPMIC_DRV_INIT ≤ d.state) (hid : id < STPMIC_REG_MAX) (hc : id < d.cache.length) :
    stpmic_read T { d with cache := d.cache.set id (v ||| STPMIC_CACHE_MISMATCH) } id
      = stpmic_read_direct T { d with cache := d.cache.set id (v ||| STPMIC_CACHE_MISMATCH) } id := by
  unfold stpmic_read
  have hm := or_mismatch_and_mismatch v
  simp [Nat.not_lt.mpr hst, Nat.not_le.mpr hid, hc, hm]

/-- C40. A read before the flush discards the staged value: on an attached
device, for every valid register ID `id` with a cache slot, after
`stpmic_batch_write id v` the cached read `stpmic_read id` is the direct read;
when the direct read succeeds with the value `h`, `h` is the byte read from
the bus and the slot holds `h` with the mismatch flag clear; so it is after
`stpmic_reload_cache` when its read of `id` succeeded.  From a state whose
slot holds `h` with the flag clear, every write packet for `id` that a later
`stpmic_batch_flush` sends is `[id, h]`; and when `id` is covered by
`STPMIC_REGMAP`, the cache array holds every register of the descriptor and
every transmission succeeds, the flush sends exactly one packet for `id`,
`[id, h]`. -/
theorem read_discards_staged (T : Transport) (d : Driver) (id v : Nat)
    (hst : STPMIC_DRV_INIT ≤ d.state) (hid : id < STPMIC_REG_MAX)
    (hc : id < STPMIC_REG_CACHE_MAX d) :
    stpmic_batch_write d id v = some (STPMIC_RET_OK, { d with cache := d.cache.set id (v ||| STPMIC_CACHE_MISMATCH) }) ∧
    stpmic_read T { d with cache := d.cache.set id (v ||| STPMIC_CACHE_MISMATCH) } id = stpmic_read_direct T { d with cache := d.cache.set id (v ||| STPMIC_CACHE_MISMATCH) } id ∧
    (∀ h d2, stpmic_read_direct T { d with cache := d.cache.set id (v ||| STPMIC_CACHE_MISMATCH) } id = (STPMIC_RET_OK, some h, d2) →
      bus_byte T d2 id h ∧ slot_valid d2 id h) ∧
    (∀ w, reload_cache_walk T { d with cache := d.cache.set id (v ||| STPMIC_CACHE_MISMATCH) } = some w → (id, STPMIC_RET_OK) ∈ w.calls →
      stpmic_reload_cache T { d with cache := d.cache.set id (v ||| STPMIC_CACHE_MISMATCH) } = some (walk_result w) ∧
      ∃ h, bus_byte T w.drv id h ∧ slot_valid w.drv id h) ∧
    (∀ d2 h, slot_valid d2 id h → ∀ r d3, stpmic_batch_flush T d2 = some (r, d3) →
      ∃ sent, d3.bus = d2.bus ++ sent ∧
        ∀ t ∈ sent, writes_to id t = true →
          t = Txn.transmit d2.dev (bus_addr d2.addr 0) [id, h] d2.timeout_w) ∧
    (∀ d2 h, slot_valid d2 id h → (∀ past t, T.HAL_I2C_Master_Transmit past t = true) →
      STPMIC_DRV_INIT ≤ d2.state → STPMIC_REG_LDOx_MAIN_CR + 6 ≤ STPMIC_REG_CACHE_MAX d2 →
      id ∈ regmap_covered STPMIC_REGMAP →
      ∃ r d3 sent, stpmic_batch_flush T d2 = some (r, d3) ∧ d3.bus = d2.bus ++ sent ∧
        sent.filter (writes_to id)
          = [Txn.transmit d2.dev (bus_addr d2.addr 0) [id, h] d2.timeout_w]) := by
  have hc1 : id < d.cache.length := hc
  have hc2 : id < (d.cache.set id (v ||| STPMIC_CACHE_MISMATCH)).length := by
    rw [List.length_set]; exact hc1
  refine ⟨batch_write_ok d id v hst hid hc1, staged_read_is_direct T d id v hst hid hc1,
    ?_, ?_, ?_, ?_⟩
  · intro h d2 hrd
    obtain ⟨raw, _, hraw, hd2⟩ := read_direct_ok_slot T
      { d with cache := d.cache.set id (v ||| STPMIC_CACHE_MISMATCH) } id h d2 hst hid hrd
    rw [if_pos hc2] at hd2
    have hlt : h < 256 := by rw [hraw]; exact Nat.mod_lt _ (by norm_num)
    exact ⟨read_direct_ok_bus_byte T
        { d with cache := d.cache.set id (v ||| STPMIC_CACHE_MISMATCH) } id h d2 hst hid hrd,
      set_slot_valid _ id h hc2 hlt d2 (by rw [hd2])⟩
  · intro w hw hmem
    refine ⟨?_, reload_reads_staged T
      { d with cache := d.cache.set id (v ||| STPMIC_CACHE_MISMATCH) } id hst hid hc2 w hw hmem⟩
    unfold stpmic_reload_cache
    simp [Nat.not_lt.mpr hst, hw]
  · intro d2 h hs r d3 hfl
    exact flush_sends_slot_value T d2 id h (slot_valid_mod d2 id h hs) r d3 hfl
  · intro d2 h hs hT hst2 hlen hcov
    obtain ⟨c, hget, hmod⟩ := slot_valid_mod d2 id h hs
    have := flush_sends_one_packet T hT d2 id c hst2 hlen hcov hid hget
    rw [hmod] at this
    exact this

theorem read_discards_staged_witness :
    stpmic_batch_write (attached 0x2b 0) STPMIC_REG_MAIN_CR 0x5a = some (STPMIC_RET_OK,
      { attached 0x2b 0 with
        cache := (attached 0x2b 0).cache.set STPMIC_REG_MAIN_CR (0x5a ||| STPMIC_CACHE_MISMATCH) }) ∧
    stpmic_read (transport_const 0x21)
        { attached 0x2b 0 with
        cache := (attached 0x2b 0).cache.set STPMIC_REG_MAIN_CR (0x5a ||| STPMIC_CACHE_MISMATCH) } STPMIC_REG_MAIN_CR
      = stpmic_read_direct (transport_const 0x21)
        { attached 0x2b 0 with
        cache := (attached 0x2b 0).cache.set STPMIC_REG_MAIN_CR (0x5a ||| STPMIC_CACHE_MISMATCH) } STPMIC_REG_MAIN_CR ∧
    (bus_byte (transport_const 0x21)
        (stpmic_read_direct (transport_const 0x21)
          { attached 0x2b 0 with
        cache := (attached 0x2b 0).cache.set STPMIC_REG_MAIN_CR (0x5a ||| STPMIC_CACHE_MISMATCH) } STPMIC_REG_MAIN_CR).2.2 STPMIC_REG_MAIN_CR 0x21 ∧
      slot_valid
        (stpmic_read_direct (transport_const 0x21)
          { attached 0x2b 0 with
        cache := (attached 0x2b 0).cache.set STPMIC_REG_MAIN_CR (0x5a ||| STPMIC_CACHE_MISMATCH) } STPMIC_REG_MAIN_CR).2.2 STPMIC_REG_MAIN_CR 0x21) ∧
    (∃ w, reload_cache_walk (transport_const 0x21)
        { attached 0x2b 0 with
        cache := (attached 0x2b 0).cache.set STPMIC_REG_MAIN_CR (0x5a ||| STPMIC_CACHE_MISMATCH) } = some w ∧
      ∃ h, bus_byte (transport_const 0x21) w.drv STPMIC_REG_MAIN_CR h ∧
        slot_valid w.drv STPMIC_REG_MAIN_CR h) ∧
    (∃ r d3 sent, stpmic_batch_flush (transport_const 0x21) (attached 0x2b 0x21)
        = some (r, d3) ∧
      d3.bus = (attached 0x2b 0x21).bus ++ sent ∧
      sent.filter (writes_to STPMIC_REG_MAIN_CR)
        = [Txn.transmit (attached 0x2b 0x21).dev (bus_addr (attached 0x2b 0x21).addr 0)
            [STPMIC_REG_MAIN_CR, 0x21] (attached 0x2b 0x21).timeout_w]) := by
  have w := read_discards_staged (transport_const 0x21) (attached 0x2b 0)
    STPMIC_REG_MAIN_CR 0x5a (by decide) (by decide) (by decide)
  refine ⟨w.1, w.2.1, w.2.2.1 0x21 _ (by decide), ?_, ?_⟩
  · refine ⟨Option.get (reload_cache_walk (transport_const 0x21)
        { attached 0x2b 0 with
        cache := (attached 0x2b 0).cache.set STPMIC_REG_MAIN_CR (0x5a ||| STPMIC_CACHE_MISMATCH) }) (by decide!), by simp, ?_⟩
    exact (w.2.2.2.1 _ (Option.some_get (by decide!)).symm (by decide!)).2
  · exact w.2.2.2.2.2 (attached 0x2b 0x21) 0x21 ⟨0x21, by decide, by decide, by decide⟩
      (fun _ _ => rfl) (by decide) (by decide) (by decide)

/-! ## Cache coherence -/

theorem bring_up_on_register_file :
    (stpmic_init (transport_hw hw_example) (STPMIC1 0x2b) (some 1) (-1)).map
        (fun r => (r.1, r.2.state))
      = some (STPMIC_RET_UNKNOWN, STPMIC_DRV_NOT_INIT) ∧
    (stpmic_init (transport_hw hw_example) (STPMIC1 0x2b) (some 1) (-1)).map
        (fun r => (r.2.cache[STPMIC_REG_MAIN_CR]?, hw_regs hw_example r.2.bus STPMIC_REG_MAIN_CR))
      = some (some 0xb0, 0xb0) ∧
    (stpmic_init (transport_hw hw_example) (STPMIC1 0x2b) (some 1) (-1)).map
        (fun r => (r.2.cache[0x17]?, hw_regs hw_example r.2.bus 0x17))
      = some (some 0x00, 0xb7) ∧
    (stpmic_init (transport_hw hw_example) (STPMIC1 0x2b) (some 1) (-1)).map
        (fun r =>
          ((stpmic_read (transport_hw hw_example)
              { r.2 with state := STPMIC_DRV_READY } 0x17).1,
           (stpmic_read (transport_hw hw_example)
              { r.2 with state := STPMIC_DRV_READY } 0x17).2.1,
           decide ((stpmic_read (transport_hw hw_example)
              { r.2 with state := STPMIC_DRV_READY } 0x17).2.2.bus = r.2.bus)))
      = some (STPMIC_RET_OK, some 0x00, true) :=
  ⟨by decide!, by decide!, by decide!, by decide!⟩

/-- C36, at the failing input: the device is a register file whose
`VERSION_SR` holds `0x21` and whose register `id` holds `0xa0 + id`
otherwise.  `stpmic_init` on the initial driver state returns
`STPMIC_RET_UNKNOWN` and leaves the state at `STPMIC_DRV_NOT_INIT`; no call of
`stpmic_init` returns `STPMIC_RET_OK`, whatever the transport.  The registers
of the descriptor it has loaded are coherent (the slot of `MAIN_CR` holds
`0xb0`, as the device), but the slot of the valid register ID `0x17`, which no
range of `STPMIC_REGMAP` covers, still holds its initial `0x00` with the
mismatch flag clear, while the device holds `0xb7`; with the state set to
`STPMIC_DRV_READY`, as a successful bring-up would leave it, `stpmic_read 0x17`
returns success and `0x00` without any bus transaction. -/
theorem unloaded_slot_read_from_cache :
    (stpmic_init (transport_hw hw_example) (STPMIC1 0x2b) (some 1) (-1)).map
        (fun r => (r.1, r.2.state))
      = some (STPMIC_RET_UNKNOWN, STPMIC_DRV_NOT_INIT) ∧
    (∀ (T : Transport) (d : Driver) (dev : Option Nat) (addr : Int),
      ∃ r d1, stpmic_init T d dev addr = some (r, d1) ∧ r ≠ STPMIC_RET_OK) ∧
    (stpmic_init (transport_hw hw_example) (STPMIC1 0x2b) (some 1) (-1)).map
        (fun r => (r.2.cache[STPMIC_REG_MAIN_CR]?, hw_regs hw_example r.2.bus STPMIC_REG_MAIN_CR))
      = some (some 0xb0, 0xb0) ∧
    (0x17 < STPMIC_REG_MAX ∧ 0x17 ∉ regmap_covered STPMIC_REGMAP) ∧
    (stpmic_init (transport_hw hw_example) (STPMIC1 0x2b) (some 1) (-1)).map
        (fun r => (r.2.cache[0x17]?, hw_regs hw_example r.2.bus 0x17))
      = some (some 0x00, 0xb7) ∧
    (stpmic_init (transport_hw hw_example) (STPMIC1 0x2b) (some 1) (-1)).map
        (fun r =>
          ((stpmic_read (transport_hw hw_example)
              { r.2 with state := STPMIC_DRV_READY } 0x17).1,
           (stpmic_read (transport_hw hw_example)
              { r.2 with state := STPMIC_DRV_READY } 0x17).2.1,
           decide ((stpmic_read (transport_hw hw_example)
              { r.2 with state := STPMIC_DRV_READY } 0x17).2.2.bus = r.2.bus)))
      = some (STPMIC_RET_OK, some 0x00, true) :=
  ⟨bring_up_on_register_file.1,
    fun T d dev addr =>
      (init_not_ok T d dev addr).elim fun r h1 =>
        h1.elim fun d1 h2 => ⟨r, d1, h2.1, h2.2.1⟩,
    bring_up_on_register_file.2.1, by decide, bring_up_on_register_file.2.2.1,
    bring_up_on_register_file.2.2.2⟩

end Stpmic
